import Mathlib

/-!
Shallow embedding of the SX126x radio driver layer (`src/radio/sx126x/radio.cpp`
and `src/loraEvents.h`) for checking the natural-language specification.

Modelling conventions:
- The driver's global mutable variables become fields of `SX126x.RadioState`.
- Chip register reads/writes (`SX126xWriteRegister` / `SX126xReadRegister`)
  are modelled as a byte store: writes prepend to an association list, reads
  return the most recent write (masked to a byte, matching the `uint8_t`
  register interface), defaulting to 0.
- Calls into the register/board layer that have no effect on driver-visible
  state (RF-switch enables, `SX126xSetDioIrqParams`, logging, `delay`) are
  omitted; the chip transactions that the claims observe
  (`SX126xClearIrqStatus`, `SX126xGetPayload`, `SX126xSetPacketParams`,
  `SX126xSetRx`, `SX126xSetRxBoosted`) are recorded in an operation trace.
- Listener callbacks are modelled as a registration environment plus an
  emitted-event trace; each emitted event records the listener set it went
  to, the arguments passed, and the operating mode at the moment of the call.
- The two local flags of `RadioBgIrqProcess` (`rx_timeout_handled`,
  `tx_timeout_handled`) are exposed as ghost state fields, reset on entry.
- Machine integers are `Nat` with explicit masking where the C truncates.
- Constants taken from the chip-interface headers (`sx126x.h`, `radio.h`),
  which are part of this repository but not under `src/`, are defined below
  with their standard SX126x driver values; no claim depends on the exact
  numbers of the packet-parameter encodings.
-/

namespace SX126x

/-- Interrupt status bits of the SX126x (from `sx126x.h`). -/
def IRQ_TX_DONE : Nat := 0x0001

def IRQ_RX_DONE : Nat := 0x0002

def IRQ_PREAMBLE_DETECTED : Nat := 0x0004

def IRQ_SYNCWORD_VALID : Nat := 0x0008

def IRQ_HEADER_VALID : Nat := 0x0010

def IRQ_HEADER_ERROR : Nat := 0x0020

def IRQ_CRC_ERROR : Nat := 0x0040

def IRQ_CAD_DONE : Nat := 0x0080

def IRQ_CAD_ACTIVITY_DETECTED : Nat := 0x0100

def IRQ_RX_TX_TIMEOUT : Nat := 0x0200

def REG_LR_SYNCWORD : Nat := 0x0740

def LORA_MAC_PUBLIC_SYNCWORD : Nat := 0x3444

def LORA_MAC_PRIVATE_SYNCWORD : Nat := 0x1424

def RXTIMEOUT_LORA_MAX : Nat := 0xFFFFFF

def PACKET_TYPE_GFSK : Nat := 0x00

def PACKET_TYPE_LORA : Nat := 0x01

def RADIO_PACKET_FIXED_LENGTH : Nat := 0x00

def RADIO_PACKET_VARIABLE_LENGTH : Nat := 0x01

def LORA_PACKET_VARIABLE_LENGTH : Nat := 0x00

def LORA_PACKET_FIXED_LENGTH : Nat := 0x01

def MOD_SHAPING_G_BT_1 : Nat := 0x0B

def RADIO_PREAMBLE_DETECTOR_08_BITS : Nat := 0x04

def RADIO_ADDRESSCOMP_FILT_OFF : Nat := 0x00

def RADIO_CRC_2_BYTES_CCIT : Nat := 0xF2

def RADIO_CRC_OFF : Nat := 0x01

def RADIO_DC_FREEWHITENING : Nat := 0x01

def LORA_IQ_NORMAL : Nat := 0x00

def LORA_IQ_INVERTED : Nat := 0x01

def LORA_SF5 : Nat := 0x05

def LORA_SF6 : Nat := 0x06

def LORA_BW_500 : Nat := 6

def LORA_BW_250 : Nat := 5

def LORA_BW_125 : Nat := 4

def LORA_BW_062 : Nat := 3

def LORA_BW_041 : Nat := 10

def LORA_BW_031 : Nat := 2

def LORA_BW_020 : Nat := 9

def LORA_BW_015 : Nat := 1

def LORA_BW_010 : Nat := 8

def LORA_BW_007 : Nat := 0

/-- LoRa bandwidth register codes by table index (`Bandwidths[]`, radio.cpp). -/
def Bandwidths : List Nat :=
  [LORA_BW_125, LORA_BW_250, LORA_BW_500, LORA_BW_062, LORA_BW_041,
   LORA_BW_031, LORA_BW_020, LORA_BW_015, LORA_BW_010, LORA_BW_007]

/-- One entry of the precomputed FSK bandwidth table: (bandwidth in Hz, register value). -/
def FskBandwidths : List (Nat × Nat) :=
  [(4800, 0x1F), (5800, 0x17), (7300, 0x0F), (9700, 0x1E), (11700, 0x16),
   (14600, 0x0E), (19500, 0x1D), (23400, 0x15), (29300, 0x0D), (39000, 0x1C),
   (46900, 0x14), (58600, 0x0C), (78200, 0x1B), (93800, 0x13), (117300, 0x0B),
   (156200, 0x1A), (187200, 0x12), (234300, 0x0A), (312000, 0x19),
   (373600, 0x11), (467000, 0x09), (500000, 0x00)]

/-- The scan loop of `RadioGetFskBandwidthRegValue`: iterates over adjacent
table entries i, i+1 and returns entry i+1's register value when
`tbl[i].bandwidth <= b < tbl[i+1].bandwidth`; `none` when the loop falls
through (the C function then returns 0x1F). -/
def fskLoop : List (Nat × Nat) → Nat → Option Nat
  | e0 :: e1 :: rest, b =>
      if e0.1 ≤ b ∧ b < e1.1 then some e1.2 else fskLoop (e1 :: rest) b
  | _, _ => none

/-- `RadioGetFskBandwidthRegValue` (radio.cpp lines 556-577). -/
def RadioGetFskBandwidthRegValue (bandwidth : Nat) : Nat :=
  if bandwidth = 0 then 0x1F
  else (fskLoop FskBandwidths bandwidth).getD 0x1F

/-- The claim's reading of the table lookup (spec wording, for comparison with
the source function): register code of the smallest table bandwidth that is
greater than or equal to the request; 0x1F when the request is 0 or exceeds
every entry. -/
def fskBandwidthRegValueClaim (bandwidth : Nat) : Nat :=
  if bandwidth = 0 then 0x1F
  else ((FskBandwidths.find? (fun e => bandwidth ≤ e.1)).map (·.2)).getD 0x1F

/-- What the source function actually computes (amended reading): for requests
below the first table entry (4800, this includes 0) or at/above the last
entry (500000) the widest code 0x1F; otherwise the register code of the
smallest table bandwidth STRICTLY greater than the request. -/
def fskBandwidthRegValueAmended (b : Nat) : Nat :=
  if b < 4800 ∨ 500000 ≤ b then 0x1F
  else ((FskBandwidths.find? (fun e => b < e.1)).map (·.2)).getD 0x1F

/-- Chip operating modes tracked by `SX126xSetOperatingMode` / `SX126xGetOperatingMode`. -/
inductive OpMode
  | sleep
  | stdbyRC
  | stdbyXOSC
  | fs
  | tx
  | rx
  | cad
deriving DecidableEq

/-- `RadioModems_t`: [0: FSK, 1: LoRa]. -/
inductive Modem
  | fsk
  | lora
deriving DecidableEq

/-- Chip transactions recorded by the model (only those a claim observes). -/
inductive ChipOp
  | clearIrqStatus
  | getPayload
  | setPacketParams
  | setRx (duration : Nat)
  | setRxBoosted (duration : Nat)
deriving DecidableEq

/-- The timeout cause tag `timeoutType_t` of `loraEvents.h`: IRQ_TYPE / TIMER_TYPE. -/
inductive Cause
  | irqType
  | timerType
deriving DecidableEq

/-- Which of the two listener sets an event was dispatched to:
`RadioEvents` (the public-network-gated set) or `_events` (the generic
`loraEvents_t` set). -/
inductive Dest
  | radioSet
  | loraSet
deriving DecidableEq

/-- Event kinds; the timeout kinds carry the cause tag passed to the listener
(`none` for the `RadioEvents` callbacks, whose signatures have no cause). -/
inductive EKind
  | txDone
  | txTimeout (cause : Option Cause)
  | rxDone
  | rxTimeout (cause : Option Cause)
  | rxError
  | cadDone (detected : Bool)
  | preambleDetected
deriving DecidableEq

/-- One listener invocation: destination set, event kind, the `isPublic`
argument passed (`none` for the `RadioEvents` set, which takes no such
argument), and the operating mode at the moment of the call. -/
structure Emit where
  dest : Dest
  kind : EKind
  isPublicArg : Option Bool
  opModeAtEmit : OpMode
deriving DecidableEq

/-- Fields of `SX126x.ModulationParams` that the embedded functions write
(the C union is flattened; `PacketType` selects the live family). -/
structure ModulationParams where
  packetType : Nat := 0
  gfskBitRate : Nat := 0
  gfskModulationShaping : Nat := 0
  gfskBandwidth : Nat := 0
  gfskFdev : Nat := 0
  loraSpreadingFactor : Nat := 0
  loraBandwidth : Nat := 0
  loraCodingRate : Nat := 0
  loraLowDatarateOptimize : Nat := 0

/-- Fields of `SX126x.PacketParams` that the embedded functions write. -/
structure PacketParams where
  packetType : Nat := 0
  gfskPreambleLength : Nat := 0
  gfskPreambleMinDetect : Nat := 0
  gfskSyncWordLength : Nat := 0
  gfskAddrComp : Nat := 0
  gfskHeaderType : Nat := 0
  gfskPayloadLength : Nat := 0
  gfskCrcLength : Nat := 0
  gfskDcFree : Nat := 0
  loraPreambleLength : Nat := 0
  loraHeaderType : Nat := 0
  loraPayloadLength : Nat := 0
  loraCrcMode : Nat := 0
  loraInvertIQ : Nat := 0

/-- Driver-visible state: the global variables of radio.cpp, the chip state
the driver itself tracks, the two ghost `*_timeout_handled` locals of
`RadioBgIrqProcess`, and the observation traces `ops` / `emits`. -/
structure RadioState where
  regs : List (Nat × Nat) := []
  opMode : OpMode := .stdbyRC
  modem : Modem := .fsk
  publicCurrent : Bool := false
  publicPrevious : Bool := false
  hasCustomSyncWord : Bool := false
  rxContinuous : Bool := false
  maxPayloadLength : Nat := 0xFF
  txTimeout : Nat := 0
  rxTimeout : Nat := 0
  force_low_dr_opt : Bool := false
  irqFired : Bool := false
  timerRxTimeout : Bool := false
  timerTxTimeout : Bool := false
  txTimerRunning : Bool := false
  rxTimerRunning : Bool := false
  txTimerValue : Nat := 0
  rxTimerValue : Nat := 0
  modulationParams : ModulationParams := {}
  packetParams : PacketParams := {}
  rx_timeout_handled : Bool := false
  tx_timeout_handled : Bool := false
  ops : List ChipOp := []
  emits : List Emit := []

/-- Registration state of the `RadioEvents_t` callback bundle (a null
struct pointer or null members become `false`). -/
structure RadioEventsReg where
  registered : Bool := false
  txDone : Bool := false
  txTimeout : Bool := false
  rxDone : Bool := false
  rxTimeout : Bool := false
  rxError : Bool := false
  cadDone : Bool := false
  preAmpDetect : Bool := false

/-- Registration state of the `loraEvents_t` bundle `_events`. -/
structure LoraEventsReg where
  registered : Bool := false
  txDone : Bool := false
  txTimeout : Bool := false
  rxDone : Bool := false
  rxTimeout : Bool := false
  rxError : Bool := false

/-- Both listener registrations, fixed during one reconciliation pass. -/
structure ListenerEnv where
  radioEvents : RadioEventsReg := {}
  loraEvents : LoraEventsReg := {}

/-- `SX126xWriteRegister`: stores a byte at an address (most recent first). -/
def writeRegister (s : RadioState) (addr val : Nat) : RadioState :=
  { s with regs := (addr, val % 256) :: s.regs }

/-- `SX126xReadRegister`: most recent byte written at an address, default 0. -/
def readRegister (s : RadioState) (addr : Nat) : Nat :=
  (((s.regs.find? (fun p => p.1 == addr)).map (·.2)).getD 0) % 256

/-- Record a chip transaction in the observation trace. -/
def pushOp (s : RadioState) (o : ChipOp) : RadioState :=
  { s with ops := s.ops ++ [o] }

/-- Record a listener invocation, snapshotting the current operating mode. -/
def emit (s : RadioState) (d : Dest) (k : EKind) (arg : Option Bool) : RadioState :=
  { s with emits := s.emits ++ [⟨d, k, arg, s.opMode⟩] }

/-- The C test `(irqRegs & mask) == mask`. -/
def hasFlag (irqRegs mask : Nat) : Bool := irqRegs &&& mask == mask

/-- `TimerStop(&TxTimeoutTimer)`. -/
def TimerStopTx (s : RadioState) : RadioState := { s with txTimerRunning := false }

/-- `TimerStop(&RxTimeoutTimer)`. -/
def TimerStopRx (s : RadioState) : RadioState := { s with rxTimerRunning := false }

/-- `SX126xSetOperatingMode(mode)`: the driver-tracked operating mode. -/
def SX126xSetOperatingMode (s : RadioState) (m : OpMode) : RadioState :=
  { s with opMode := m }

/-- Ghost: the local `rx_timeout_handled = true` assignment of `RadioBgIrqProcess`. -/
def markRxHandled (s : RadioState) : RadioState := { s with rx_timeout_handled := true }

/-- Ghost: the local `tx_timeout_handled = true` assignment of `RadioBgIrqProcess`. -/
def markTxHandled (s : RadioState) : RadioState := { s with tx_timeout_handled := true }

/-- `TimerRxTimeout = false`: consuming the RX timer-expiry flag. -/
def clearTimerRxFlag (s : RadioState) : RadioState := { s with timerRxTimeout := false }

/-- `TimerTxTimeout = false`: consuming the TX timer-expiry flag. -/
def clearTimerTxFlag (s : RadioState) : RadioState := { s with timerTxTimeout := false }

/-- The recurring dispatch pattern for the `RadioEvents` set:
`if (RadioPublicNetwork.Current) { if (RadioEvents != NULL && RadioEvents->X != NULL) RadioEvents->X(...); }`.
`member` is the null test of the individual callback pointer. -/
def dispatchRadioGated (env : ListenerEnv) (member : Bool) (k : EKind)
    (s : RadioState) : RadioState :=
  if s.publicCurrent = true then
    if env.radioEvents.registered && member then emit s .radioSet k none else s
  else s

/-- The recurring dispatch pattern for the generic `_events` set:
`if (_events != NULL && _events->X != NULL) _events->X(RadioPublicNetwork.Current, ...);`
(not gated on the network mode; the flag is passed as an argument). -/
def dispatchLora (env : ListenerEnv) (member : Bool) (k : EKind)
    (s : RadioState) : RadioState :=
  if env.loraEvents.registered && member then
    emit s .loraSet k (some s.publicCurrent)
  else s

/-- `RadioStandby`: `SX126xSetStandby(STDBY_RC)`; the register-layer wrapper
records the standby operating mode. -/
def RadioStandby (s : RadioState) : RadioState :=
  { s with opMode := .stdbyRC }

/-- `RadioEnforceLowDRopt`. -/
def RadioEnforceLowDRopt (s : RadioState) (enforce : Bool) : RadioState :=
  if enforce then { s with force_low_dr_opt := true }
  else { s with force_low_dr_opt := false }

mutual

/-- Body of `RadioSetModem` (radio.cpp lines 635-663). `RadioSetModem` and
`RadioSetPublicNetwork` call each other, so both take a fuel argument; the
public wrappers below pass fuel 3, which is never exhausted: the restoration
path `RadioSetModem LORA -> RadioSetPublicNetwork` first makes
`Current = Previous` and clears the custom-sync-word flag, so the nested
`RadioSetModem LORA` call takes no further recursive step. -/
def setModemFuel : Nat → RadioState → Modem → RadioState
  | 0, s, _ => s
  | _ + 1, s, .fsk =>
      -- SX126xSetPacketType(PACKET_TYPE_GFSK); switching to GFSK resets the
      -- LoRa sync-word register, so RadioPublicNetwork.Current is reset too
      let s := { s with publicCurrent := false }
      { s with modem := .fsk }
  | n + 1, s, .lora =>
      -- SX126xSetPacketType(PACKET_TYPE_LORA)
      let s :=
        if s.hasCustomSyncWord = false then
          if s.publicCurrent ≠ s.publicPrevious then
            let s := { s with publicCurrent := s.publicPrevious }
            setPublicNetworkFuel n s s.publicCurrent
          else s
        else s
      { s with modem := .lora }

/-- Body of `RadioSetPublicNetwork` (radio.cpp lines 1235-1253). -/
def setPublicNetworkFuel : Nat → RadioState → Bool → RadioState
  | 0, s, _ => s
  | n + 1, s, enable =>
      let s := { s with hasCustomSyncWord := false,
                        publicCurrent := enable, publicPrevious := enable }
      let s := setModemFuel n s .lora
      if enable then
        let s := writeRegister s REG_LR_SYNCWORD ((LORA_MAC_PUBLIC_SYNCWORD >>> 8) &&& 0xFF)
        writeRegister s (REG_LR_SYNCWORD + 1) (LORA_MAC_PUBLIC_SYNCWORD &&& 0xFF)
      else
        let s := writeRegister s REG_LR_SYNCWORD ((LORA_MAC_PRIVATE_SYNCWORD >>> 8) &&& 0xFF)
        writeRegister s (REG_LR_SYNCWORD + 1) (LORA_MAC_PRIVATE_SYNCWORD &&& 0xFF)

end

/-- `RadioSetModem` (radio.cpp lines 635-663). -/
def RadioSetModem (s : RadioState) (modem : Modem) : RadioState :=
  setModemFuel 3 s modem

/-- `RadioSetPublicNetwork` (radio.cpp lines 1235-1253). -/
def RadioSetPublicNetwork (s : RadioState) (enable : Bool) : RadioState :=
  setPublicNetworkFuel 3 s enable

/-- `RadioSetCustomSyncWord` (radio.cpp lines 1255-1261); `syncword` is the
`uint16_t` argument. -/
def RadioSetCustomSyncWord (s : RadioState) (syncword : Nat) : RadioState :=
  let s := { s with hasCustomSyncWord := true }
  let s := RadioSetModem s .lora
  let s := writeRegister s REG_LR_SYNCWORD ((syncword >>> 8) &&& 0xFF)
  writeRegister s (REG_LR_SYNCWORD + 1) (syncword &&& 0xFF)

/-- `RadioGetSyncWord` (radio.cpp lines 1263-1271): returns the register pair
as a 16-bit value (the C sums two `uint16_t` casts), plus the state after the
`RadioSetModem(MODEM_LORA)` call it performs. -/
def RadioGetSyncWord (s : RadioState) : Nat × RadioState :=
  let s := RadioSetModem s .lora
  let b0 := readRegister s REG_LR_SYNCWORD
  let b1 := readRegister s (REG_LR_SYNCWORD + 1)
  ((((b0 <<< 8) % 65536) + b1 % 65536) % 65536, s)

/-- `RadioSetMaxPayloadLength` (radio.cpp lines 1218-1233). -/
def RadioSetMaxPayloadLength (s : RadioState) (modem : Modem) (max : Nat) : RadioState :=
  match modem with
  | .lora =>
      let s := { s with
        packetParams := { s.packetParams with loraPayloadLength := max },
        maxPayloadLength := max }
      pushOp s .setPacketParams
  | .fsk =>
      if s.packetParams.gfskHeaderType == RADIO_PACKET_VARIABLE_LENGTH then
        let s := { s with
          packetParams := { s.packetParams with gfskPayloadLength := max },
          maxPayloadLength := max }
        pushOp s .setPacketParams
      else s

/-- `RadioRx` (radio.cpp lines 1079-1102). The RF-switch enable and the
DIO-IRQ-mask call are untracked chip calls; `SX126xSetRx` records the RX
operating mode and the 24-bit chip timeout argument (`uint32` arithmetic). -/
def RadioRx (s : RadioState) (timeout : Nat) : RadioState :=
  let s :=
    if timeout ≠ 0 then
      { s with rxTimerValue := timeout, rxTimerRunning := true }
    else s
  if s.rxContinuous = true then
    pushOp { s with opMode := .rx } (.setRx 0xFFFFFF)
  else
    pushOp { s with opMode := .rx } (.setRx ((s.rxTimeout <<< 6) % 4294967296))

/-- `RadioSetRxConfig` (radio.cpp lines 725-860). Untracked chip calls:
`SX126xSetStopRxTimerOnPreambleDetect`, `SX126xSetLoRaSymbNumTimeout`,
`SX126xSetModulationParams`, the 8-byte GFSK sync word, the whitening seed.
The FSK `RxTimeout` double expression
`symbTimeout * ((1.0/datarate)*8.0) * 1000` truncated to `uint32` is modelled
as truncating Nat arithmetic; no claim depends on this value. -/
def RadioSetRxConfig (s : RadioState) (modem : Modem)
    (bandwidth datarate coderate _bandwidthAfc preambleLen symbTimeout : Nat)
    (fixLen : Bool) (payloadLen : Nat) (crcOn _freqHopOn : Bool)
    (_hopPeriod : Nat) (iqInverted rxContinuous : Bool) : RadioState :=
  let s := { s with rxContinuous := rxContinuous }
  let symbTimeout := if rxContinuous = true then 0 else symbTimeout
  let s :=
    if fixLen = true then { s with maxPayloadLength := payloadLen }
    else { s with maxPayloadLength := 0xFF }
  match modem with
  | .fsk =>
      let mp := { s.modulationParams with
        packetType := PACKET_TYPE_GFSK
        gfskBitRate := datarate
        gfskModulationShaping := MOD_SHAPING_G_BT_1
        gfskBandwidth := RadioGetFskBandwidthRegValue bandwidth }
      let s := { s with modulationParams := mp }
      let pp := { s.packetParams with
        packetType := PACKET_TYPE_GFSK
        gfskPreambleLength := (preambleLen <<< 3) % 65536
        gfskPreambleMinDetect := RADIO_PREAMBLE_DETECTOR_08_BITS
        gfskSyncWordLength := 3 <<< 3
        gfskAddrComp := RADIO_ADDRESSCOMP_FILT_OFF
        gfskHeaderType :=
          if fixLen = true then RADIO_PACKET_FIXED_LENGTH
          else RADIO_PACKET_VARIABLE_LENGTH
        gfskPayloadLength := s.maxPayloadLength
        gfskCrcLength := if crcOn = true then RADIO_CRC_2_BYTES_CCIT else RADIO_CRC_OFF
        gfskDcFree := RADIO_DC_FREEWHITENING }
      let s := { s with packetParams := pp }
      let s := RadioStandby s
      let s := RadioSetModem s
        (if s.modulationParams.packetType == PACKET_TYPE_GFSK then .fsk else .lora)
      let s := pushOp s .setPacketParams
      { s with rxTimeout := (symbTimeout * 8 * 1000 / datarate) % 4294967296 }
  | .lora =>
      let mp := { s.modulationParams with
        packetType := PACKET_TYPE_LORA
        loraSpreadingFactor := datarate
        loraBandwidth := Bandwidths.getD bandwidth 0
        loraCodingRate := coderate
        loraLowDatarateOptimize :=
          if ((bandwidth == 0 && (datarate == 11 || datarate == 12)) ||
              (bandwidth == 1 && datarate == 12)) || s.force_low_dr_opt then 0x01
          else 0x00 }
      let s := { s with modulationParams := mp }
      let pp := { s.packetParams with
        packetType := PACKET_TYPE_LORA
        loraPreambleLength :=
          if s.modulationParams.loraSpreadingFactor == LORA_SF5 ||
             s.modulationParams.loraSpreadingFactor == LORA_SF6 then
            if preambleLen < 12 then 12 else preambleLen
          else preambleLen
        loraHeaderType := if fixLen = true then 1 else 0
        loraPayloadLength := s.maxPayloadLength
        loraCrcMode := if crcOn = true then 1 else 0
        loraInvertIQ := if iqInverted = true then 1 else 0 }
      let s := { s with packetParams := pp }
      let s := RadioSetModem s
        (if s.modulationParams.packetType == PACKET_TYPE_GFSK then .fsk else .lora)
      let s := pushOp s .setPacketParams
      -- WORKAROUND - Optimizing the Inverted IQ Operation (datasheet 15.4):
      -- RegIqPolaritySetup @ 0x0736, bit 2 cleared when IQ inverted, set otherwise
      let s :=
        if s.packetParams.loraInvertIQ == LORA_IQ_INVERTED then
          writeRegister s 0x0736 (readRegister s 0x0736 &&& 0xFB)
        else
          writeRegister s 0x0736 (readRegister s 0x0736 ||| 0x04)
      { s with rxTimeout := RXTIMEOUT_LORA_MAX }

/-- `RadioSetTxConfig` (radio.cpp lines 862-976). Untracked chip calls as in
`RadioSetRxConfig`, plus `SX126xSetRfTxPower`. -/
def RadioSetTxConfig (s : RadioState) (modem : Modem) (_power : Int)
    (fdev bandwidth datarate coderate preambleLen : Nat)
    (fixLen crcOn _freqHopOn : Bool) (_hopPeriod : Nat) (iqInverted : Bool)
    (timeout : Nat) : RadioState :=
  let s :=
    match modem with
    | .fsk =>
        let mp := { s.modulationParams with
          packetType := PACKET_TYPE_GFSK
          gfskBitRate := datarate
          gfskModulationShaping := MOD_SHAPING_G_BT_1
          gfskBandwidth := RadioGetFskBandwidthRegValue bandwidth
          gfskFdev := fdev }
        let s := { s with modulationParams := mp }
        let pp := { s.packetParams with
          packetType := PACKET_TYPE_GFSK
          gfskPreambleLength := (preambleLen <<< 3) % 65536
          gfskPreambleMinDetect := RADIO_PREAMBLE_DETECTOR_08_BITS
          gfskSyncWordLength := 3 <<< 3
          gfskAddrComp := RADIO_ADDRESSCOMP_FILT_OFF
          gfskHeaderType :=
            if fixLen = true then RADIO_PACKET_FIXED_LENGTH
            else RADIO_PACKET_VARIABLE_LENGTH
          gfskCrcLength := if crcOn = true then RADIO_CRC_2_BYTES_CCIT else RADIO_CRC_OFF
          gfskDcFree := RADIO_DC_FREEWHITENING }
        let s := { s with packetParams := pp }
        let s := RadioStandby s
        let s := RadioSetModem s
          (if s.modulationParams.packetType == PACKET_TYPE_GFSK then .fsk else .lora)
        pushOp s .setPacketParams
    | .lora =>
        let mp := { s.modulationParams with
          packetType := PACKET_TYPE_LORA
          loraSpreadingFactor := datarate
          loraBandwidth := Bandwidths.getD bandwidth 0
          loraCodingRate := coderate
          loraLowDatarateOptimize :=
            if ((bandwidth == 0 && (datarate == 11 || datarate == 12)) ||
                (bandwidth == 1 && datarate == 12)) || s.force_low_dr_opt then 0x01
            else 0x00 }
        let s := { s with modulationParams := mp }
        let pp := { s.packetParams with
          packetType := PACKET_TYPE_LORA
          loraPreambleLength :=
            if s.modulationParams.loraSpreadingFactor == LORA_SF5 ||
               s.modulationParams.loraSpreadingFactor == LORA_SF6 then
              if preambleLen < 12 then 12 else preambleLen
            else preambleLen
          loraHeaderType := if fixLen = true then 1 else 0
          loraPayloadLength := s.maxPayloadLength
          loraCrcMode := if crcOn = true then 1 else 0
          loraInvertIQ := if iqInverted = true then 1 else 0 }
        let s := { s with packetParams := pp }
        let s := RadioStandby s
        let s := RadioSetModem s
          (if s.modulationParams.packetType == PACKET_TYPE_GFSK then .fsk else .lora)
        pushOp s .setPacketParams
  -- WORKAROUND - Modulation Quality with 500 kHz LoRa Bandwidth (datasheet
  -- 15.1): RegTxModulation @ 0x0889, bit 2 cleared only for LoRa BW 500
  let s :=
    if modem == Modem.lora && s.modulationParams.loraBandwidth == LORA_BW_500 then
      writeRegister s 0x0889 (readRegister s 0x0889 &&& 0xFB)
    else
      writeRegister s 0x0889 (readRegister s 0x0889 ||| 0x04)
  { s with txTimeout := timeout }

/-- `RadioRxBoosted` (radio.cpp lines 1104-1125). -/
def RadioRxBoosted (s : RadioState) (timeout : Nat) : RadioState :=
  if s.rxContinuous = true then
    let s :=
      if timeout ≠ 0 then
        { s with rxTimerValue := timeout, rxTimerRunning := true }
      else s
    pushOp { s with opMode := .rx } (.setRxBoosted 0xFFFFFF)
  else
    pushOp { s with opMode := .rx } (.setRxBoosted ((s.rxTimeout <<< 6) % 4294967296))

/-- The `IRQ_TX_DONE` block of `RadioBgIrqProcess` (radio.cpp lines 1373-1394). -/
def bgTxDone (env : ListenerEnv) (irqRegs : Nat) (s : RadioState) : RadioState :=
  if hasFlag irqRegs IRQ_TX_DONE then
    let s := markTxHandled s
    let s := TimerStopTx s
    let s := SX126xSetOperatingMode s .stdbyRC
    let s := dispatchRadioGated env env.radioEvents.txDone .txDone s
    dispatchLora env env.loraEvents.txDone .txDone s
  else s

/-- The `IRQ_RX_DONE` block of `RadioBgIrqProcess` (radio.cpp lines
1396-1459); the nested `IRQ_CRC_ERROR` test selects RxError over RxDone.
Note the `TimerStop(&RxTimeoutTimer)` call is gated on
`RadioPublicNetwork.Current`, exactly as in the source. -/
def bgRxDone (env : ListenerEnv) (irqRegs : Nat) (s : RadioState) : RadioState :=
  if hasFlag irqRegs IRQ_RX_DONE then
    let s := markRxHandled s
    let s := if s.publicCurrent = true then TimerStopRx s else s
    let s :=
      if s.rxContinuous = false then
        -- WORKAROUND - Implicit Header Mode Timeout Behavior (datasheet
        -- 15.3): RegRtcControl @ 0x0902 := 0, RegEventMask @ 0x0944 bit 1 set
        let t := writeRegister (SX126xSetOperatingMode s .stdbyRC) 0x0902 0x00
        writeRegister t 0x0944 (readRegister t 0x0944 ||| 0x02)
      else s
    if hasFlag irqRegs IRQ_CRC_ERROR then
      -- payload drained from the chip buffer, then discarded
      let s := pushOp s .getPayload
      let s := dispatchRadioGated env env.radioEvents.rxError .rxError s
      dispatchLora env env.loraEvents.rxError .rxError s
    else
      let s := pushOp s .getPayload
      let s := dispatchRadioGated env env.radioEvents.rxDone .rxDone s
      dispatchLora env env.loraEvents.rxDone .rxDone s
  else s

/-- The `IRQ_CAD_DONE` block of `RadioBgIrqProcess` (radio.cpp lines
1461-1470); note the `RadioEvents->CadDone` dispatch is NOT gated on the
public-network flag. -/
def bgCadDone (env : ListenerEnv) (irqRegs : Nat) (s : RadioState) : RadioState :=
  if hasFlag irqRegs IRQ_CAD_DONE then
    let s := SX126xSetOperatingMode s .stdbyRC
    if env.radioEvents.registered && env.radioEvents.cadDone then
      emit s .radioSet (.cadDone (hasFlag irqRegs IRQ_CAD_ACTIVITY_DETECTED)) none
    else s
  else s

/-- The `IRQ_RX_TX_TIMEOUT` block of `RadioBgIrqProcess` (radio.cpp lines
1472-1515), disambiguated by the current operating mode. -/
def bgIrqTimeout (env : ListenerEnv) (irqRegs : Nat) (s : RadioState) : RadioState :=
  if hasFlag irqRegs IRQ_RX_TX_TIMEOUT then
    if s.opMode == OpMode.tx then
      let s := markTxHandled s
      let s := TimerStopTx s
      let s := SX126xSetOperatingMode s .stdbyRC
      let s := dispatchRadioGated env env.radioEvents.txTimeout (.txTimeout none) s
      dispatchLora env env.loraEvents.txTimeout (.txTimeout (some .irqType)) s
    else if s.opMode == OpMode.rx then
      let s := markRxHandled s
      let s := TimerStopRx s
      let s := SX126xSetOperatingMode s .stdbyRC
      let s := dispatchRadioGated env env.radioEvents.rxTimeout (.rxTimeout none) s
      dispatchLora env env.loraEvents.rxTimeout (.rxTimeout (some .irqType)) s
    else s
  else s

/-- The `IRQ_PREAMBLE_DETECTED` block of `RadioBgIrqProcess` (radio.cpp lines
1517-1524); not gated on the public-network flag. -/
def bgPreambleDetected (env : ListenerEnv) (irqRegs : Nat) (s : RadioState) : RadioState :=
  if hasFlag irqRegs IRQ_PREAMBLE_DETECTED then
    if env.radioEvents.registered && env.radioEvents.preAmpDetect then
      emit s .radioSet .preambleDetected none
    else s
  else s

/-- The `IRQ_HEADER_ERROR` block of `RadioBgIrqProcess` (radio.cpp lines
1536-1557). The `IRQ_SYNCWORD_VALID` and `IRQ_HEADER_VALID` blocks in
between are empty in the source. -/
def bgHeaderError (env : ListenerEnv) (irqRegs : Nat) (s : RadioState) : RadioState :=
  if hasFlag irqRegs IRQ_HEADER_ERROR then
    let s := TimerStopRx s
    let s := if s.rxContinuous = false then SX126xSetOperatingMode s .stdbyRC else s
    let s := dispatchRadioGated env env.radioEvents.rxError .rxError s
    dispatchLora env env.loraEvents.rxError .rxError s
  else s

/-- The `TimerRxTimeout` drain of `RadioBgIrqProcess` (radio.cpp lines
1559-1578): the pending timer flag is always cleared; an event fires only if
the pass did not already handle an RX conclusion. -/
def bgDrainRx (env : ListenerEnv) (s : RadioState) : RadioState :=
  if s.timerRxTimeout = true then
    let s := clearTimerRxFlag s
    if s.rx_timeout_handled = false then
      let s := TimerStopRx s
      let s := dispatchRadioGated env env.radioEvents.rxTimeout (.rxTimeout none) s
      dispatchLora env env.loraEvents.rxTimeout (.rxTimeout (some .timerType)) s
    else s
  else s

/-- The `TimerTxTimeout` drain of `RadioBgIrqProcess` (radio.cpp lines
1579-1599). -/
def bgDrainTx (env : ListenerEnv) (s : RadioState) : RadioState :=
  if s.timerTxTimeout = true then
    let s := clearTimerTxFlag s
    if s.tx_timeout_handled = false then
      let s := TimerStopTx s
      let s := dispatchRadioGated env env.radioEvents.txTimeout (.txTimeout none) s
      dispatchLora env env.loraEvents.txTimeout (.txTimeout (some .timerType)) s
    else s
  else s

/-- The interrupt-status section of `RadioBgIrqProcess`: the six flag blocks
in source order. -/
def bgIrqSection (env : ListenerEnv) (irqRegs : Nat) (s : RadioState) : RadioState :=
  bgHeaderError env irqRegs (bgPreambleDetected env irqRegs (bgIrqTimeout env irqRegs
    (bgCadDone env irqRegs (bgRxDone env irqRegs (bgTxDone env irqRegs s)))))

/-- `RadioBgIrqProcess` (radio.cpp lines 1360-1600). `irqRegs` is the value
the chip's `SX126xGetIrqStatus` returns for this pass (read, then cleared,
only when the shared `IrqFired` flag was set). The two local
`*_timeout_handled` flags are reset on entry (they are ghost fields, so the
reset is folded into both branches of the `IrqFired` test, which does not
depend on them) and live in the state so that the suppression logic is
observable. -/
def RadioBgIrqProcess (env : ListenerEnv) (irqRegs : Nat) (s : RadioState) : RadioState :=
  bgDrainTx env (bgDrainRx env (
    if s.irqFired = true then
      bgIrqSection env irqRegs
        (pushOp
          { s with
              irqFired := false
              rx_timeout_handled := false
              tx_timeout_handled := false }
          ChipOp.clearIrqStatus)
    else
      { s with
          rx_timeout_handled := false
          tx_timeout_handled := false }))


/-! ### Claim-side definitions, sample states and trace counters -/

/-- C8 claim rule, in the spec's words: low-datarate-optimize is on exactly
when (bandwidth index 0 i.e. 125 kHz and spreading factor 11 or 12), or
(bandwidth index 1 i.e. 250 kHz and spreading factor 12), or the global
enforce flag set via `RadioEnforceLowDRopt` is on. -/
def ldroClaim (bandwidth datarate : Nat) (enforce : Bool) : Bool :=
  ((bandwidth == 0 && (datarate == 11 || datarate == 12)) ||
   (bandwidth == 1 && datarate == 12)) || enforce

/-- Sample state for the C10 witness: GFSK fixed-length header mode. -/
def c10state : RadioState := { packetParams := { gfskHeaderType := RADIO_PACKET_FIXED_LENGTH } }

/-- Sample state for the C4 witness (all defaults; single-shot mode). -/
def c4state : RadioState := {}

/-- Sample state for the C9 witness. -/
def c9state : RadioState := {}

/-- Sample state for the C7 witness: LoRa modem, public network active. -/
def c7state : RadioState :=
  { modem := .lora, publicCurrent := true, publicPrevious := true }

def isRxDoneKind : EKind → Bool
  | .rxDone => true
  | _ => false

def isRxErrorKind : EKind → Bool
  | .rxError => true
  | _ => false

/-- Number of events of a given destination and kind family in a trace. -/
def countKind (l : List Emit) (d : Dest) (p : EKind → Bool) : Nat :=
  (l.filter (fun e => e.dest == d && p e.kind)).length

/-- Kind test: any TxTimeout, whatever its cause tag. -/
def isTxTimeoutKind : EKind → Bool
  | .txTimeout _ => true
  | _ => false

/-- Kind test: any RxTimeout, whatever its cause tag. -/
def isRxTimeoutKind : EKind → Bool
  | .rxTimeout _ => true
  | _ => false

/-- Listener environment for the C1 counterexample and witness. -/
def c1env : ListenerEnv := { loraEvents := { registered := true, rxDone := true } }

/-- State for the C1 counterexample: private network, single-shot RX, RX
software timer running, RX-done interrupt pending. -/
def c1state : RadioState :=
  { irqFired := true, publicCurrent := false, rxContinuous := false,
    rxTimerRunning := true, opMode := .rx }

/-- State for the C1 witness: TX-done pass with the TX timer running. -/
def c1wstate : RadioState := { irqFired := true, txTimerRunning := true }

/-- Listener environment for the C5 witness: both sets registered with
RxError callbacks. -/
def c5env : ListenerEnv :=
  { radioEvents := { registered := true, rxError := true }
    loraEvents := { registered := true, rxError := true } }

/-- State for the C5 witness: public network, interrupt pending. -/
def c5state : RadioState := { irqFired := true, publicCurrent := true }


/-- Listener environment for the C6 counterexample and witness: `RadioEvents`
registered with a CadDone callback. -/
def c6env : ListenerEnv :=
  { radioEvents := { registered := true, cadDone := true, preAmpDetect := true } }

/-- State for the C6 counterexample and witness: private network, interrupt
pending. -/
def c6state : RadioState := { irqFired := true, publicCurrent := false }

/-- Kinds dispatched through the public-network-gated pattern (everything
except CadDone and PreambleDetected, which only exist on the RadioEvents set
and are dispatched ungated). -/
def mainKind : EKind → Bool
  | .cadDone _ => false
  | .preambleDetected => false
  | _ => true

/-- C6 dispatch discipline for one emitted event: a `RadioEvents` event of a
gated kind implies the network was public; a `_events` event always carries
the current public flag as its argument. -/
def gatedOK (pub : Bool) (e : Emit) : Prop :=
  (e.dest = Dest.radioSet → mainKind e.kind = true → pub = true) ∧
  (e.dest = Dest.loraSet → e.isPublicArg = some pub)

/-- Kind test: a TxTimeout carrying the TIMER cause tag. -/
def isTimerTxTimeoutKind : EKind → Bool
  | .txTimeout (some Cause.timerType) => true
  | _ => false

/-- Kind test: an RxTimeout carrying the TIMER cause tag. -/
def isTimerRxTimeoutKind : EKind → Bool
  | .rxTimeout (some Cause.timerType) => true
  | _ => false

/-- Listener environment for the C2 witness: `_events` registered with both
timeout callbacks. -/
def c2env : ListenerEnv :=
  { loraEvents := { registered := true, txTimeout := true, rxTimeout := true } }

/-- State for the C2 witness: no interrupt pending, both software timer
expiry flags raised. -/
def c2state : RadioState :=
  { irqFired := false, timerTxTimeout := true, timerRxTimeout := true }

/-! ## Theorems -/

/-! ### Projection lemmas for the atomic state operations (all `rfl`),
used so that proofs never expand the 24-field state record wholesale. -/

@[simp] lemma TimerStopTx_regs (s : RadioState) :
    (TimerStopTx s).regs = s.regs := rfl

@[simp] lemma TimerStopTx_opMode (s : RadioState) :
    (TimerStopTx s).opMode = s.opMode := rfl

@[simp] lemma TimerStopTx_modem (s : RadioState) :
    (TimerStopTx s).modem = s.modem := rfl

@[simp] lemma TimerStopTx_publicCurrent (s : RadioState) :
    (TimerStopTx s).publicCurrent = s.publicCurrent := rfl

@[simp] lemma TimerStopTx_publicPrevious (s : RadioState) :
    (TimerStopTx s).publicPrevious = s.publicPrevious := rfl

@[simp] lemma TimerStopTx_hasCustomSyncWord (s : RadioState) :
    (TimerStopTx s).hasCustomSyncWord = s.hasCustomSyncWord := rfl

@[simp] lemma TimerStopTx_rxContinuous (s : RadioState) :
    (TimerStopTx s).rxContinuous = s.rxContinuous := rfl

@[simp] lemma TimerStopTx_maxPayloadLength (s : RadioState) :
    (TimerStopTx s).maxPayloadLength = s.maxPayloadLength := rfl

@[simp] lemma TimerStopTx_txTimeout (s : RadioState) :
    (TimerStopTx s).txTimeout = s.txTimeout := rfl

@[simp] lemma TimerStopTx_rxTimeout (s : RadioState) :
    (TimerStopTx s).rxTimeout = s.rxTimeout := rfl

@[simp] lemma TimerStopTx_force_low_dr_opt (s : RadioState) :
    (TimerStopTx s).force_low_dr_opt = s.force_low_dr_opt := rfl

@[simp] lemma TimerStopTx_irqFired (s : RadioState) :
    (TimerStopTx s).irqFired = s.irqFired := rfl

@[simp] lemma TimerStopTx_timerRxTimeout (s : RadioState) :
    (TimerStopTx s).timerRxTimeout = s.timerRxTimeout := rfl

@[simp] lemma TimerStopTx_timerTxTimeout (s : RadioState) :
    (TimerStopTx s).timerTxTimeout = s.timerTxTimeout := rfl

@[simp] lemma TimerStopTx_txTimerRunning (s : RadioState) :
    (TimerStopTx s).txTimerRunning = false := rfl

@[simp] lemma TimerStopTx_rxTimerRunning (s : RadioState) :
    (TimerStopTx s).rxTimerRunning = s.rxTimerRunning := rfl

@[simp] lemma TimerStopTx_txTimerValue (s : RadioState) :
    (TimerStopTx s).txTimerValue = s.txTimerValue := rfl

@[simp] lemma TimerStopTx_rxTimerValue (s : RadioState) :
    (TimerStopTx s).rxTimerValue = s.rxTimerValue := rfl

@[simp] lemma TimerStopTx_modulationParams (s : RadioState) :
    (TimerStopTx s).modulationParams = s.modulationParams := rfl

@[simp] lemma TimerStopTx_packetParams (s : RadioState) :
    (TimerStopTx s).packetParams = s.packetParams := rfl

@[simp] lemma TimerStopTx_rx_timeout_handled (s : RadioState) :
    (TimerStopTx s).rx_timeout_handled = s.rx_timeout_handled := rfl

@[simp] lemma TimerStopTx_tx_timeout_handled (s : RadioState) :
    (TimerStopTx s).tx_timeout_handled = s.tx_timeout_handled := rfl

@[simp] lemma TimerStopTx_ops (s : RadioState) :
    (TimerStopTx s).ops = s.ops := rfl

@[simp] lemma TimerStopTx_emits (s : RadioState) :
    (TimerStopTx s).emits = s.emits := rfl

@[simp] lemma TimerStopRx_regs (s : RadioState) :
    (TimerStopRx s).regs = s.regs := rfl

@[simp] lemma TimerStopRx_opMode (s : RadioState) :
    (TimerStopRx s).opMode = s.opMode := rfl

@[simp] lemma TimerStopRx_modem (s : RadioState) :
    (TimerStopRx s).modem = s.modem := rfl

@[simp] lemma TimerStopRx_publicCurrent (s : RadioState) :
    (TimerStopRx s).publicCurrent = s.publicCurrent := rfl

@[simp] lemma TimerStopRx_publicPrevious (s : RadioState) :
    (TimerStopRx s).publicPrevious = s.publicPrevious := rfl

@[simp] lemma TimerStopRx_hasCustomSyncWord (s : RadioState) :
    (TimerStopRx s).hasCustomSyncWord = s.hasCustomSyncWord := rfl

@[simp] lemma TimerStopRx_rxContinuous (s : RadioState) :
    (TimerStopRx s).rxContinuous = s.rxContinuous := rfl

@[simp] lemma TimerStopRx_maxPayloadLength (s : RadioState) :
    (TimerStopRx s).maxPayloadLength = s.maxPayloadLength := rfl

@[simp] lemma TimerStopRx_txTimeout (s : RadioState) :
    (TimerStopRx s).txTimeout = s.txTimeout := rfl

@[simp] lemma TimerStopRx_rxTimeout (s : RadioState) :
    (TimerStopRx s).rxTimeout = s.rxTimeout := rfl

@[simp] lemma TimerStopRx_force_low_dr_opt (s : RadioState) :
    (TimerStopRx s).force_low_dr_opt = s.force_low_dr_opt := rfl

@[simp] lemma TimerStopRx_irqFired (s : RadioState) :
    (TimerStopRx s).irqFired = s.irqFired := rfl

@[simp] lemma TimerStopRx_timerRxTimeout (s : RadioState) :
    (TimerStopRx s).timerRxTimeout = s.timerRxTimeout := rfl

@[simp] lemma TimerStopRx_timerTxTimeout (s : RadioState) :
    (TimerStopRx s).timerTxTimeout = s.timerTxTimeout := rfl

@[simp] lemma TimerStopRx_txTimerRunning (s : RadioState) :
    (TimerStopRx s).txTimerRunning = s.txTimerRunning := rfl

@[simp] lemma TimerStopRx_rxTimerRunning (s : RadioState) :
    (TimerStopRx s).rxTimerRunning = false := rfl

@[simp] lemma TimerStopRx_txTimerValue (s : RadioState) :
    (TimerStopRx s).txTimerValue = s.txTimerValue := rfl

@[simp] lemma TimerStopRx_rxTimerValue (s : RadioState) :
    (TimerStopRx s).rxTimerValue = s.rxTimerValue := rfl

@[simp] lemma TimerStopRx_modulationParams (s : RadioState) :
    (TimerStopRx s).modulationParams = s.modulationParams := rfl

@[simp] lemma TimerStopRx_packetParams (s : RadioState) :
    (TimerStopRx s).packetParams = s.packetParams := rfl

@[simp] lemma TimerStopRx_rx_timeout_handled (s : RadioState) :
    (TimerStopRx s).rx_timeout_handled = s.rx_timeout_handled := rfl

@[simp] lemma TimerStopRx_tx_timeout_handled (s : RadioState) :
    (TimerStopRx s).tx_timeout_handled = s.tx_timeout_handled := rfl

@[simp] lemma TimerStopRx_ops (s : RadioState) :
    (TimerStopRx s).ops = s.ops := rfl

@[simp] lemma TimerStopRx_emits (s : RadioState) :
    (TimerStopRx s).emits = s.emits := rfl

@[simp] lemma SX126xSetOperatingMode_regs (s : RadioState) (m : OpMode) :
    (SX126xSetOperatingMode s m).regs = s.regs := rfl

@[simp] lemma SX126xSetOperatingMode_opMode (s : RadioState) (m : OpMode) :
    (SX126xSetOperatingMode s m).opMode = m := rfl

@[simp] lemma SX126xSetOperatingMode_modem (s : RadioState) (m : OpMode) :
    (SX126xSetOperatingMode s m).modem = s.modem := rfl

@[simp] lemma SX126xSetOperatingMode_publicCurrent (s : RadioState) (m : OpMode) :
    (SX126xSetOperatingMode s m).publicCurrent = s.publicCurrent := rfl

@[simp] lemma SX126xSetOperatingMode_publicPrevious (s : RadioState) (m : OpMode) :
    (SX126xSetOperatingMode s m).publicPrevious = s.publicPrevious := rfl

@[simp] lemma SX126xSetOperatingMode_hasCustomSyncWord (s : RadioState) (m : OpMode) :
    (SX126xSetOperatingMode s m).hasCustomSyncWord = s.hasCustomSyncWord := rfl

@[simp] lemma SX126xSetOperatingMode_rxContinuous (s : RadioState) (m : OpMode) :
    (SX126xSetOperatingMode s m).rxContinuous = s.rxContinuous := rfl

@[simp] lemma SX126xSetOperatingMode_maxPayloadLength (s : RadioState) (m : OpMode) :
    (SX126xSetOperatingMode s m).maxPayloadLength = s.maxPayloadLength := rfl

@[simp] lemma SX126xSetOperatingMode_txTimeout (s : RadioState) (m : OpMode) :
    (SX126xSetOperatingMode s m).txTimeout = s.txTimeout := rfl

@[simp] lemma SX126xSetOperatingMode_rxTimeout (s : RadioState) (m : OpMode) :
    (SX126xSetOperatingMode s m).rxTimeout = s.rxTimeout := rfl

@[simp] lemma SX126xSetOperatingMode_force_low_dr_opt (s : RadioState) (m : OpMode) :
    (SX126xSetOperatingMode s m).force_low_dr_opt = s.force_low_dr_opt := rfl

@[simp] lemma SX126xSetOperatingMode_irqFired (s : RadioState) (m : OpMode) :
    (SX126xSetOperatingMode s m).irqFired = s.irqFired := rfl

@[simp] lemma SX126xSetOperatingMode_timerRxTimeout (s : RadioState) (m : OpMode) :
    (SX126xSetOperatingMode s m).timerRxTimeout = s.timerRxTimeout := rfl

@[simp] lemma SX126xSetOperatingMode_timerTxTimeout (s : RadioState) (m : OpMode) :
    (SX126xSetOperatingMode s m).timerTxTimeout = s.timerTxTimeout := rfl

@[simp] lemma SX126xSetOperatingMode_txTimerRunning (s : RadioState) (m : OpMode) :
    (SX126xSetOperatingMode s m).txTimerRunning = s.txTimerRunning := rfl

@[simp] lemma SX126xSetOperatingMode_rxTimerRunning (s : RadioState) (m : OpMode) :
    (SX126xSetOperatingMode s m).rxTimerRunning = s.rxTimerRunning := rfl

@[simp] lemma SX126xSetOperatingMode_txTimerValue (s : RadioState) (m : OpMode) :
    (SX126xSetOperatingMode s m).txTimerValue = s.txTimerValue := rfl

@[simp] lemma SX126xSetOperatingMode_rxTimerValue (s : RadioState) (m : OpMode) :
    (SX126xSetOperatingMode s m).rxTimerValue = s.rxTimerValue := rfl

@[simp] lemma SX126xSetOperatingMode_modulationParams (s : RadioState) (m : OpMode) :
    (SX126xSetOperatingMode s m).modulationParams = s.modulationParams := rfl

@[simp] lemma SX126xSetOperatingMode_packetParams (s : RadioState) (m : OpMode) :
    (SX126xSetOperatingMode s m).packetParams = s.packetParams := rfl

@[simp] lemma SX126xSetOperatingMode_rx_timeout_handled (s : RadioState) (m : OpMode) :
    (SX126xSetOperatingMode s m).rx_timeout_handled = s.rx_timeout_handled := rfl

@[simp] lemma SX126xSetOperatingMode_tx_timeout_handled (s : RadioState) (m : OpMode) :
    (SX126xSetOperatingMode s m).tx_timeout_handled = s.tx_timeout_handled := rfl

@[simp] lemma SX126xSetOperatingMode_ops (s : RadioState) (m : OpMode) :
    (SX126xSetOperatingMode s m).ops = s.ops := rfl

@[simp] lemma SX126xSetOperatingMode_emits (s : RadioState) (m : OpMode) :
    (SX126xSetOperatingMode s m).emits = s.emits := rfl

@[simp] lemma markRxHandled_regs (s : RadioState) :
    (markRxHandled s).regs = s.regs := rfl

@[simp] lemma markRxHandled_opMode (s : RadioState) :
    (markRxHandled s).opMode = s.opMode := rfl

@[simp] lemma markRxHandled_modem (s : RadioState) :
    (markRxHandled s).modem = s.modem := rfl

@[simp] lemma markRxHandled_publicCurrent (s : RadioState) :
    (markRxHandled s).publicCurrent = s.publicCurrent := rfl

@[simp] lemma markRxHandled_publicPrevious (s : RadioState) :
    (markRxHandled s).publicPrevious = s.publicPrevious := rfl

@[simp] lemma markRxHandled_hasCustomSyncWord (s : RadioState) :
    (markRxHandled s).hasCustomSyncWord = s.hasCustomSyncWord := rfl

@[simp] lemma markRxHandled_rxContinuous (s : RadioState) :
    (markRxHandled s).rxContinuous = s.rxContinuous := rfl

@[simp] lemma markRxHandled_maxPayloadLength (s : RadioState) :
    (markRxHandled s).maxPayloadLength = s.maxPayloadLength := rfl

@[simp] lemma markRxHandled_txTimeout (s : RadioState) :
    (markRxHandled s).txTimeout = s.txTimeout := rfl

@[simp] lemma markRxHandled_rxTimeout (s : RadioState) :
    (markRxHandled s).rxTimeout = s.rxTimeout := rfl

@[simp] lemma markRxHandled_force_low_dr_opt (s : RadioState) :
    (markRxHandled s).force_low_dr_opt = s.force_low_dr_opt := rfl

@[simp] lemma markRxHandled_irqFired (s : RadioState) :
    (markRxHandled s).irqFired = s.irqFired := rfl

@[simp] lemma markRxHandled_timerRxTimeout (s : RadioState) :
    (markRxHandled s).timerRxTimeout = s.timerRxTimeout := rfl

@[simp] lemma markRxHandled_timerTxTimeout (s : RadioState) :
    (markRxHandled s).timerTxTimeout = s.timerTxTimeout := rfl

@[simp] lemma markRxHandled_txTimerRunning (s : RadioState) :
    (markRxHandled s).txTimerRunning = s.txTimerRunning := rfl

@[simp] lemma markRxHandled_rxTimerRunning (s : RadioState) :
    (markRxHandled s).rxTimerRunning = s.rxTimerRunning := rfl

@[simp] lemma markRxHandled_txTimerValue (s : RadioState) :
    (markRxHandled s).txTimerValue = s.txTimerValue := rfl

@[simp] lemma markRxHandled_rxTimerValue (s : RadioState) :
    (markRxHandled s).rxTimerValue = s.rxTimerValue := rfl

@[simp] lemma markRxHandled_modulationParams (s : RadioState) :
    (markRxHandled s).modulationParams = s.modulationParams := rfl

@[simp] lemma markRxHandled_packetParams (s : RadioState) :
    (markRxHandled s).packetParams = s.packetParams := rfl

@[simp] lemma markRxHandled_rx_timeout_handled (s : RadioState) :
    (markRxHandled s).rx_timeout_handled = true := rfl

@[simp] lemma markRxHandled_tx_timeout_handled (s : RadioState) :
    (markRxHandled s).tx_timeout_handled = s.tx_timeout_handled := rfl

@[simp] lemma markRxHandled_ops (s : RadioState) :
    (markRxHandled s).ops = s.ops := rfl

@[simp] lemma markRxHandled_emits (s : RadioState) :
    (markRxHandled s).emits = s.emits := rfl

@[simp] lemma markTxHandled_regs (s : RadioState) :
    (markTxHandled s).regs = s.regs := rfl

@[simp] lemma markTxHandled_opMode (s : RadioState) :
    (markTxHandled s).opMode = s.opMode := rfl

@[simp] lemma markTxHandled_modem (s : RadioState) :
    (markTxHandled s).modem = s.modem := rfl

@[simp] lemma markTxHandled_publicCurrent (s : RadioState) :
    (markTxHandled s).publicCurrent = s.publicCurrent := rfl

@[simp] lemma markTxHandled_publicPrevious (s : RadioState) :
    (markTxHandled s).publicPrevious = s.publicPrevious := rfl

@[simp] lemma markTxHandled_hasCustomSyncWord (s : RadioState) :
    (markTxHandled s).hasCustomSyncWord = s.hasCustomSyncWord := rfl

@[simp] lemma markTxHandled_rxContinuous (s : RadioState) :
    (markTxHandled s).rxContinuous = s.rxContinuous := rfl

@[simp] lemma markTxHandled_maxPayloadLength (s : RadioState) :
    (markTxHandled s).maxPayloadLength = s.maxPayloadLength := rfl

@[simp] lemma markTxHandled_txTimeout (s : RadioState) :
    (markTxHandled s).txTimeout = s.txTimeout := rfl

@[simp] lemma markTxHandled_rxTimeout (s : RadioState) :
    (markTxHandled s).rxTimeout = s.rxTimeout := rfl

@[simp] lemma markTxHandled_force_low_dr_opt (s : RadioState) :
    (markTxHandled s).force_low_dr_opt = s.force_low_dr_opt := rfl

@[simp] lemma markTxHandled_irqFired (s : RadioState) :
    (markTxHandled s).irqFired = s.irqFired := rfl

@[simp] lemma markTxHandled_timerRxTimeout (s : RadioState) :
    (markTxHandled s).timerRxTimeout = s.timerRxTimeout := rfl

@[simp] lemma markTxHandled_timerTxTimeout (s : RadioState) :
    (markTxHandled s).timerTxTimeout = s.timerTxTimeout := rfl

@[simp] lemma markTxHandled_txTimerRunning (s : RadioState) :
    (markTxHandled s).txTimerRunning = s.txTimerRunning := rfl

@[simp] lemma markTxHandled_rxTimerRunning (s : RadioState) :
    (markTxHandled s).rxTimerRunning = s.rxTimerRunning := rfl

@[simp] lemma markTxHandled_txTimerValue (s : RadioState) :
    (markTxHandled s).txTimerValue = s.txTimerValue := rfl

@[simp] lemma markTxHandled_rxTimerValue (s : RadioState) :
    (markTxHandled s).rxTimerValue = s.rxTimerValue := rfl

@[simp] lemma markTxHandled_modulationParams (s : RadioState) :
    (markTxHandled s).modulationParams = s.modulationParams := rfl

@[simp] lemma markTxHandled_packetParams (s : RadioState) :
    (markTxHandled s).packetParams = s.packetParams := rfl

@[simp] lemma markTxHandled_rx_timeout_handled (s : RadioState) :
    (markTxHandled s).rx_timeout_handled = s.rx_timeout_handled := rfl

@[simp] lemma markTxHandled_tx_timeout_handled (s : RadioState) :
    (markTxHandled s).tx_timeout_handled = true := rfl

@[simp] lemma markTxHandled_ops (s : RadioState) :
    (markTxHandled s).ops = s.ops := rfl

@[simp] lemma markTxHandled_emits (s : RadioState) :
    (markTxHandled s).emits = s.emits := rfl

@[simp] lemma clearTimerRxFlag_regs (s : RadioState) :
    (clearTimerRxFlag s).regs = s.regs := rfl

@[simp] lemma clearTimerRxFlag_opMode (s : RadioState) :
    (clearTimerRxFlag s).opMode = s.opMode := rfl

@[simp] lemma clearTimerRxFlag_modem (s : RadioState) :
    (clearTimerRxFlag s).modem = s.modem := rfl

@[simp] lemma clearTimerRxFlag_publicCurrent (s : RadioState) :
    (clearTimerRxFlag s).publicCurrent = s.publicCurrent := rfl

@[simp] lemma clearTimerRxFlag_publicPrevious (s : RadioState) :
    (clearTimerRxFlag s).publicPrevious = s.publicPrevious := rfl

@[simp] lemma clearTimerRxFlag_hasCustomSyncWord (s : RadioState) :
    (clearTimerRxFlag s).hasCustomSyncWord = s.hasCustomSyncWord := rfl

@[simp] lemma clearTimerRxFlag_rxContinuous (s : RadioState) :
    (clearTimerRxFlag s).rxContinuous = s.rxContinuous := rfl

@[simp] lemma clearTimerRxFlag_maxPayloadLength (s : RadioState) :
    (clearTimerRxFlag s).maxPayloadLength = s.maxPayloadLength := rfl

@[simp] lemma clearTimerRxFlag_txTimeout (s : RadioState) :
    (clearTimerRxFlag s).txTimeout = s.txTimeout := rfl

@[simp] lemma clearTimerRxFlag_rxTimeout (s : RadioState) :
    (clearTimerRxFlag s).rxTimeout = s.rxTimeout := rfl

@[simp] lemma clearTimerRxFlag_force_low_dr_opt (s : RadioState) :
    (clearTimerRxFlag s).force_low_dr_opt = s.force_low_dr_opt := rfl

@[simp] lemma clearTimerRxFlag_irqFired (s : RadioState) :
    (clearTimerRxFlag s).irqFired = s.irqFired := rfl

@[simp] lemma clearTimerRxFlag_timerRxTimeout (s : RadioState) :
    (clearTimerRxFlag s).timerRxTimeout = false := rfl

@[simp] lemma clearTimerRxFlag_timerTxTimeout (s : RadioState) :
    (clearTimerRxFlag s).timerTxTimeout = s.timerTxTimeout := rfl

@[simp] lemma clearTimerRxFlag_txTimerRunning (s : RadioState) :
    (clearTimerRxFlag s).txTimerRunning = s.txTimerRunning := rfl

@[simp] lemma clearTimerRxFlag_rxTimerRunning (s : RadioState) :
    (clearTimerRxFlag s).rxTimerRunning = s.rxTimerRunning := rfl

@[simp] lemma clearTimerRxFlag_txTimerValue (s : RadioState) :
    (clearTimerRxFlag s).txTimerValue = s.txTimerValue := rfl

@[simp] lemma clearTimerRxFlag_rxTimerValue (s : RadioState) :
    (clearTimerRxFlag s).rxTimerValue = s.rxTimerValue := rfl

@[simp] lemma clearTimerRxFlag_modulationParams (s : RadioState) :
    (clearTimerRxFlag s).modulationParams = s.modulationParams := rfl

@[simp] lemma clearTimerRxFlag_packetParams (s : RadioState) :
    (clearTimerRxFlag s).packetParams = s.packetParams := rfl

@[simp] lemma clearTimerRxFlag_rx_timeout_handled (s : RadioState) :
    (clearTimerRxFlag s).rx_timeout_handled = s.rx_timeout_handled := rfl

@[simp] lemma clearTimerRxFlag_tx_timeout_handled (s : RadioState) :
    (clearTimerRxFlag s).tx_timeout_handled = s.tx_timeout_handled := rfl

@[simp] lemma clearTimerRxFlag_ops (s : RadioState) :
    (clearTimerRxFlag s).ops = s.ops := rfl

@[simp] lemma clearTimerRxFlag_emits (s : RadioState) :
    (clearTimerRxFlag s).emits = s.emits := rfl

@[simp] lemma clearTimerTxFlag_regs (s : RadioState) :
    (clearTimerTxFlag s).regs = s.regs := rfl

@[simp] lemma clearTimerTxFlag_opMode (s : RadioState) :
    (clearTimerTxFlag s).opMode = s.opMode := rfl

@[simp] lemma clearTimerTxFlag_modem (s : RadioState) :
    (clearTimerTxFlag s).modem = s.modem := rfl

@[simp] lemma clearTimerTxFlag_publicCurrent (s : RadioState) :
    (clearTimerTxFlag s).publicCurrent = s.publicCurrent := rfl

@[simp] lemma clearTimerTxFlag_publicPrevious (s : RadioState) :
    (clearTimerTxFlag s).publicPrevious = s.publicPrevious := rfl

@[simp] lemma clearTimerTxFlag_hasCustomSyncWord (s : RadioState) :
    (clearTimerTxFlag s).hasCustomSyncWord = s.hasCustomSyncWord := rfl

@[simp] lemma clearTimerTxFlag_rxContinuous (s : RadioState) :
    (clearTimerTxFlag s).rxContinuous = s.rxContinuous := rfl

@[simp] lemma clearTimerTxFlag_maxPayloadLength (s : RadioState) :
    (clearTimerTxFlag s).maxPayloadLength = s.maxPayloadLength := rfl

@[simp] lemma clearTimerTxFlag_txTimeout (s : RadioState) :
    (clearTimerTxFlag s).txTimeout = s.txTimeout := rfl

@[simp] lemma clearTimerTxFlag_rxTimeout (s : RadioState) :
    (clearTimerTxFlag s).rxTimeout = s.rxTimeout := rfl

@[simp] lemma clearTimerTxFlag_force_low_dr_opt (s : RadioState) :
    (clearTimerTxFlag s).force_low_dr_opt = s.force_low_dr_opt := rfl

@[simp] lemma clearTimerTxFlag_irqFired (s : RadioState) :
    (clearTimerTxFlag s).irqFired = s.irqFired := rfl

@[simp] lemma clearTimerTxFlag_timerRxTimeout (s : RadioState) :
    (clearTimerTxFlag s).timerRxTimeout = s.timerRxTimeout := rfl

@[simp] lemma clearTimerTxFlag_timerTxTimeout (s : RadioState) :
    (clearTimerTxFlag s).timerTxTimeout = false := rfl

@[simp] lemma clearTimerTxFlag_txTimerRunning (s : RadioState) :
    (clearTimerTxFlag s).txTimerRunning = s.txTimerRunning := rfl

@[simp] lemma clearTimerTxFlag_rxTimerRunning (s : RadioState) :
    (clearTimerTxFlag s).rxTimerRunning = s.rxTimerRunning := rfl

@[simp] lemma clearTimerTxFlag_txTimerValue (s : RadioState) :
    (clearTimerTxFlag s).txTimerValue = s.txTimerValue := rfl

@[simp] lemma clearTimerTxFlag_rxTimerValue (s : RadioState) :
    (clearTimerTxFlag s).rxTimerValue = s.rxTimerValue := rfl

@[simp] lemma clearTimerTxFlag_modulationParams (s : RadioState) :
    (clearTimerTxFlag s).modulationParams = s.modulationParams := rfl

@[simp] lemma clearTimerTxFlag_packetParams (s : RadioState) :
    (clearTimerTxFlag s).packetParams = s.packetParams := rfl

@[simp] lemma clearTimerTxFlag_rx_timeout_handled (s : RadioState) :
    (clearTimerTxFlag s).rx_timeout_handled = s.rx_timeout_handled := rfl

@[simp] lemma clearTimerTxFlag_tx_timeout_handled (s : RadioState) :
    (clearTimerTxFlag s).tx_timeout_handled = s.tx_timeout_handled := rfl

@[simp] lemma clearTimerTxFlag_ops (s : RadioState) :
    (clearTimerTxFlag s).ops = s.ops := rfl

@[simp] lemma clearTimerTxFlag_emits (s : RadioState) :
    (clearTimerTxFlag s).emits = s.emits := rfl

@[simp] lemma pushOp_regs (s : RadioState) (o : ChipOp) :
    (pushOp s o).regs = s.regs := rfl

@[simp] lemma pushOp_opMode (s : RadioState) (o : ChipOp) :
    (pushOp s o).opMode = s.opMode := rfl

@[simp] lemma pushOp_modem (s : RadioState) (o : ChipOp) :
    (pushOp s o).modem = s.modem := rfl

@[simp] lemma pushOp_publicCurrent (s : RadioState) (o : ChipOp) :
    (pushOp s o).publicCurrent = s.publicCurrent := rfl

@[simp] lemma pushOp_publicPrevious (s : RadioState) (o : ChipOp) :
    (pushOp s o).publicPrevious = s.publicPrevious := rfl

@[simp] lemma pushOp_hasCustomSyncWord (s : RadioState) (o : ChipOp) :
    (pushOp s o).hasCustomSyncWord = s.hasCustomSyncWord := rfl

@[simp] lemma pushOp_rxContinuous (s : RadioState) (o : ChipOp) :
    (pushOp s o).rxContinuous = s.rxContinuous := rfl

@[simp] lemma pushOp_maxPayloadLength (s : RadioState) (o : ChipOp) :
    (pushOp s o).maxPayloadLength = s.maxPayloadLength := rfl

@[simp] lemma pushOp_txTimeout (s : RadioState) (o : ChipOp) :
    (pushOp s o).txTimeout = s.txTimeout := rfl

@[simp] lemma pushOp_rxTimeout (s : RadioState) (o : ChipOp) :
    (pushOp s o).rxTimeout = s.rxTimeout := rfl

@[simp] lemma pushOp_force_low_dr_opt (s : RadioState) (o : ChipOp) :
    (pushOp s o).force_low_dr_opt = s.force_low_dr_opt := rfl

@[simp] lemma pushOp_irqFired (s : RadioState) (o : ChipOp) :
    (pushOp s o).irqFired = s.irqFired := rfl

@[simp] lemma pushOp_timerRxTimeout (s : RadioState) (o : ChipOp) :
    (pushOp s o).timerRxTimeout = s.timerRxTimeout := rfl

@[simp] lemma pushOp_timerTxTimeout (s : RadioState) (o : ChipOp) :
    (pushOp s o).timerTxTimeout = s.timerTxTimeout := rfl

@[simp] lemma pushOp_txTimerRunning (s : RadioState) (o : ChipOp) :
    (pushOp s o).txTimerRunning = s.txTimerRunning := rfl

@[simp] lemma pushOp_rxTimerRunning (s : RadioState) (o : ChipOp) :
    (pushOp s o).rxTimerRunning = s.rxTimerRunning := rfl

@[simp] lemma pushOp_txTimerValue (s : RadioState) (o : ChipOp) :
    (pushOp s o).txTimerValue = s.txTimerValue := rfl

@[simp] lemma pushOp_rxTimerValue (s : RadioState) (o : ChipOp) :
    (pushOp s o).rxTimerValue = s.rxTimerValue := rfl

@[simp] lemma pushOp_modulationParams (s : RadioState) (o : ChipOp) :
    (pushOp s o).modulationParams = s.modulationParams := rfl

@[simp] lemma pushOp_packetParams (s : RadioState) (o : ChipOp) :
    (pushOp s o).packetParams = s.packetParams := rfl

@[simp] lemma pushOp_rx_timeout_handled (s : RadioState) (o : ChipOp) :
    (pushOp s o).rx_timeout_handled = s.rx_timeout_handled := rfl

@[simp] lemma pushOp_tx_timeout_handled (s : RadioState) (o : ChipOp) :
    (pushOp s o).tx_timeout_handled = s.tx_timeout_handled := rfl

@[simp] lemma pushOp_ops (s : RadioState) (o : ChipOp) :
    (pushOp s o).ops = s.ops ++ [o] := rfl

@[simp] lemma pushOp_emits (s : RadioState) (o : ChipOp) :
    (pushOp s o).emits = s.emits := rfl

@[simp] lemma writeRegister_regs (s : RadioState) (a v : Nat) :
    (writeRegister s a v).regs = (a, v % 256) :: s.regs := rfl

@[simp] lemma writeRegister_opMode (s : RadioState) (a v : Nat) :
    (writeRegister s a v).opMode = s.opMode := rfl

@[simp] lemma writeRegister_modem (s : RadioState) (a v : Nat) :
    (writeRegister s a v).modem = s.modem := rfl

@[simp] lemma writeRegister_publicCurrent (s : RadioState) (a v : Nat) :
    (writeRegister s a v).publicCurrent = s.publicCurrent := rfl

@[simp] lemma writeRegister_publicPrevious (s : RadioState) (a v : Nat) :
    (writeRegister s a v).publicPrevious = s.publicPrevious := rfl

@[simp] lemma writeRegister_hasCustomSyncWord (s : RadioState) (a v : Nat) :
    (writeRegister s a v).hasCustomSyncWord = s.hasCustomSyncWord := rfl

@[simp] lemma writeRegister_rxContinuous (s : RadioState) (a v : Nat) :
    (writeRegister s a v).rxContinuous = s.rxContinuous := rfl

@[simp] lemma writeRegister_maxPayloadLength (s : RadioState) (a v : Nat) :
    (writeRegister s a v).maxPayloadLength = s.maxPayloadLength := rfl

@[simp] lemma writeRegister_txTimeout (s : RadioState) (a v : Nat) :
    (writeRegister s a v).txTimeout = s.txTimeout := rfl

@[simp] lemma writeRegister_rxTimeout (s : RadioState) (a v : Nat) :
    (writeRegister s a v).rxTimeout = s.rxTimeout := rfl

@[simp] lemma writeRegister_force_low_dr_opt (s : RadioState) (a v : Nat) :
    (writeRegister s a v).force_low_dr_opt = s.force_low_dr_opt := rfl

@[simp] lemma writeRegister_irqFired (s : RadioState) (a v : Nat) :
    (writeRegister s a v).irqFired = s.irqFired := rfl

@[simp] lemma writeRegister_timerRxTimeout (s : RadioState) (a v : Nat) :
    (writeRegister s a v).timerRxTimeout = s.timerRxTimeout := rfl

@[simp] lemma writeRegister_timerTxTimeout (s : RadioState) (a v : Nat) :
    (writeRegister s a v).timerTxTimeout = s.timerTxTimeout := rfl

@[simp] lemma writeRegister_txTimerRunning (s : RadioState) (a v : Nat) :
    (writeRegister s a v).txTimerRunning = s.txTimerRunning := rfl

@[simp] lemma writeRegister_rxTimerRunning (s : RadioState) (a v : Nat) :
    (writeRegister s a v).rxTimerRunning = s.rxTimerRunning := rfl

@[simp] lemma writeRegister_txTimerValue (s : RadioState) (a v : Nat) :
    (writeRegister s a v).txTimerValue = s.txTimerValue := rfl

@[simp] lemma writeRegister_rxTimerValue (s : RadioState) (a v : Nat) :
    (writeRegister s a v).rxTimerValue = s.rxTimerValue := rfl

@[simp] lemma writeRegister_modulationParams (s : RadioState) (a v : Nat) :
    (writeRegister s a v).modulationParams = s.modulationParams := rfl

@[simp] lemma writeRegister_packetParams (s : RadioState) (a v : Nat) :
    (writeRegister s a v).packetParams = s.packetParams := rfl

@[simp] lemma writeRegister_rx_timeout_handled (s : RadioState) (a v : Nat) :
    (writeRegister s a v).rx_timeout_handled = s.rx_timeout_handled := rfl

@[simp] lemma writeRegister_tx_timeout_handled (s : RadioState) (a v : Nat) :
    (writeRegister s a v).tx_timeout_handled = s.tx_timeout_handled := rfl

@[simp] lemma writeRegister_ops (s : RadioState) (a v : Nat) :
    (writeRegister s a v).ops = s.ops := rfl

@[simp] lemma writeRegister_emits (s : RadioState) (a v : Nat) :
    (writeRegister s a v).emits = s.emits := rfl

@[simp] lemma emit_regs (s : RadioState) (d : Dest) (k : EKind) (arg : Option Bool) :
    (emit s d k arg).regs = s.regs := rfl

@[simp] lemma emit_opMode (s : RadioState) (d : Dest) (k : EKind) (arg : Option Bool) :
    (emit s d k arg).opMode = s.opMode := rfl

@[simp] lemma emit_modem (s : RadioState) (d : Dest) (k : EKind) (arg : Option Bool) :
    (emit s d k arg).modem = s.modem := rfl

@[simp] lemma emit_publicCurrent (s : RadioState) (d : Dest) (k : EKind) (arg : Option Bool) :
    (emit s d k arg).publicCurrent = s.publicCurrent := rfl

@[simp] lemma emit_publicPrevious (s : RadioState) (d : Dest) (k : EKind) (arg : Option Bool) :
    (emit s d k arg).publicPrevious = s.publicPrevious := rfl

@[simp] lemma emit_hasCustomSyncWord (s : RadioState) (d : Dest) (k : EKind) (arg : Option Bool) :
    (emit s d k arg).hasCustomSyncWord = s.hasCustomSyncWord := rfl

@[simp] lemma emit_rxContinuous (s : RadioState) (d : Dest) (k : EKind) (arg : Option Bool) :
    (emit s d k arg).rxContinuous = s.rxContinuous := rfl

@[simp] lemma emit_maxPayloadLength (s : RadioState) (d : Dest) (k : EKind) (arg : Option Bool) :
    (emit s d k arg).maxPayloadLength = s.maxPayloadLength := rfl

@[simp] lemma emit_txTimeout (s : RadioState) (d : Dest) (k : EKind) (arg : Option Bool) :
    (emit s d k arg).txTimeout = s.txTimeout := rfl

@[simp] lemma emit_rxTimeout (s : RadioState) (d : Dest) (k : EKind) (arg : Option Bool) :
    (emit s d k arg).rxTimeout = s.rxTimeout := rfl

@[simp] lemma emit_force_low_dr_opt (s : RadioState) (d : Dest) (k : EKind) (arg : Option Bool) :
    (emit s d k arg).force_low_dr_opt = s.force_low_dr_opt := rfl

@[simp] lemma emit_irqFired (s : RadioState) (d : Dest) (k : EKind) (arg : Option Bool) :
    (emit s d k arg).irqFired = s.irqFired := rfl

@[simp] lemma emit_timerRxTimeout (s : RadioState) (d : Dest) (k : EKind) (arg : Option Bool) :
    (emit s d k arg).timerRxTimeout = s.timerRxTimeout := rfl

@[simp] lemma emit_timerTxTimeout (s : RadioState) (d : Dest) (k : EKind) (arg : Option Bool) :
    (emit s d k arg).timerTxTimeout = s.timerTxTimeout := rfl

@[simp] lemma emit_txTimerRunning (s : RadioState) (d : Dest) (k : EKind) (arg : Option Bool) :
    (emit s d k arg).txTimerRunning = s.txTimerRunning := rfl

@[simp] lemma emit_rxTimerRunning (s : RadioState) (d : Dest) (k : EKind) (arg : Option Bool) :
    (emit s d k arg).rxTimerRunning = s.rxTimerRunning := rfl

@[simp] lemma emit_txTimerValue (s : RadioState) (d : Dest) (k : EKind) (arg : Option Bool) :
    (emit s d k arg).txTimerValue = s.txTimerValue := rfl

@[simp] lemma emit_rxTimerValue (s : RadioState) (d : Dest) (k : EKind) (arg : Option Bool) :
    (emit s d k arg).rxTimerValue = s.rxTimerValue := rfl

@[simp] lemma emit_modulationParams (s : RadioState) (d : Dest) (k : EKind) (arg : Option Bool) :
    (emit s d k arg).modulationParams = s.modulationParams := rfl

@[simp] lemma emit_packetParams (s : RadioState) (d : Dest) (k : EKind) (arg : Option Bool) :
    (emit s d k arg).packetParams = s.packetParams := rfl

@[simp] lemma emit_rx_timeout_handled (s : RadioState) (d : Dest) (k : EKind) (arg : Option Bool) :
    (emit s d k arg).rx_timeout_handled = s.rx_timeout_handled := rfl

@[simp] lemma emit_tx_timeout_handled (s : RadioState) (d : Dest) (k : EKind) (arg : Option Bool) :
    (emit s d k arg).tx_timeout_handled = s.tx_timeout_handled := rfl

@[simp] lemma emit_ops (s : RadioState) (d : Dest) (k : EKind) (arg : Option Bool) :
    (emit s d k arg).ops = s.ops := rfl

@[simp] lemma emit_emits (s : RadioState) (d : Dest) (k : EKind) (arg : Option Bool) :
    (emit s d k arg).emits = s.emits ++ [⟨d, k, arg, s.opMode⟩] := rfl

@[simp] lemma dispatchRadioGated_regs (env : ListenerEnv) (member : Bool) (k : EKind) (s : RadioState) :
    (dispatchRadioGated env member k s).regs = s.regs := by
  unfold dispatchRadioGated
  split_ifs <;> rfl

@[simp] lemma dispatchRadioGated_opMode (env : ListenerEnv) (member : Bool) (k : EKind) (s : RadioState) :
    (dispatchRadioGated env member k s).opMode = s.opMode := by
  unfold dispatchRadioGated
  split_ifs <;> rfl

@[simp] lemma dispatchRadioGated_modem (env : ListenerEnv) (member : Bool) (k : EKind) (s : RadioState) :
    (dispatchRadioGated env member k s).modem = s.modem := by
  unfold dispatchRadioGated
  split_ifs <;> rfl

@[simp] lemma dispatchRadioGated_publicCurrent (env : ListenerEnv) (member : Bool) (k : EKind) (s : RadioState) :
    (dispatchRadioGated env member k s).publicCurrent = s.publicCurrent := by
  unfold dispatchRadioGated
  split_ifs <;> rfl

@[simp] lemma dispatchRadioGated_publicPrevious (env : ListenerEnv) (member : Bool) (k : EKind) (s : RadioState) :
    (dispatchRadioGated env member k s).publicPrevious = s.publicPrevious := by
  unfold dispatchRadioGated
  split_ifs <;> rfl

@[simp] lemma dispatchRadioGated_hasCustomSyncWord (env : ListenerEnv) (member : Bool) (k : EKind) (s : RadioState) :
    (dispatchRadioGated env member k s).hasCustomSyncWord = s.hasCustomSyncWord := by
  unfold dispatchRadioGated
  split_ifs <;> rfl

@[simp] lemma dispatchRadioGated_rxContinuous (env : ListenerEnv) (member : Bool) (k : EKind) (s : RadioState) :
    (dispatchRadioGated env member k s).rxContinuous = s.rxContinuous := by
  unfold dispatchRadioGated
  split_ifs <;> rfl

@[simp] lemma dispatchRadioGated_maxPayloadLength (env : ListenerEnv) (member : Bool) (k : EKind) (s : RadioState) :
    (dispatchRadioGated env member k s).maxPayloadLength = s.maxPayloadLength := by
  unfold dispatchRadioGated
  split_ifs <;> rfl

@[simp] lemma dispatchRadioGated_txTimeout (env : ListenerEnv) (member : Bool) (k : EKind) (s : RadioState) :
    (dispatchRadioGated env member k s).txTimeout = s.txTimeout := by
  unfold dispatchRadioGated
  split_ifs <;> rfl

@[simp] lemma dispatchRadioGated_rxTimeout (env : ListenerEnv) (member : Bool) (k : EKind) (s : RadioState) :
    (dispatchRadioGated env member k s).rxTimeout = s.rxTimeout := by
  unfold dispatchRadioGated
  split_ifs <;> rfl

@[simp] lemma dispatchRadioGated_force_low_dr_opt (env : ListenerEnv) (member : Bool) (k : EKind) (s : RadioState) :
    (dispatchRadioGated env member k s).force_low_dr_opt = s.force_low_dr_opt := by
  unfold dispatchRadioGated
  split_ifs <;> rfl

@[simp] lemma dispatchRadioGated_irqFired (env : ListenerEnv) (member : Bool) (k : EKind) (s : RadioState) :
    (dispatchRadioGated env member k s).irqFired = s.irqFired := by
  unfold dispatchRadioGated
  split_ifs <;> rfl

@[simp] lemma dispatchRadioGated_timerRxTimeout (env : ListenerEnv) (member : Bool) (k : EKind) (s : RadioState) :
    (dispatchRadioGated env member k s).timerRxTimeout = s.timerRxTimeout := by
  unfold dispatchRadioGated
  split_ifs <;> rfl

@[simp] lemma dispatchRadioGated_timerTxTimeout (env : ListenerEnv) (member : Bool) (k : EKind) (s : RadioState) :
    (dispatchRadioGated env member k s).timerTxTimeout = s.timerTxTimeout := by
  unfold dispatchRadioGated
  split_ifs <;> rfl

@[simp] lemma dispatchRadioGated_txTimerRunning (env : ListenerEnv) (member : Bool) (k : EKind) (s : RadioState) :
    (dispatchRadioGated env member k s).txTimerRunning = s.txTimerRunning := by
  unfold dispatchRadioGated
  split_ifs <;> rfl

@[simp] lemma dispatchRadioGated_rxTimerRunning (env : ListenerEnv) (member : Bool) (k : EKind) (s : RadioState) :
    (dispatchRadioGated env member k s).rxTimerRunning = s.rxTimerRunning := by
  unfold dispatchRadioGated
  split_ifs <;> rfl

@[simp] lemma dispatchRadioGated_txTimerValue (env : ListenerEnv) (member : Bool) (k : EKind) (s : RadioState) :
    (dispatchRadioGated env member k s).txTimerValue = s.txTimerValue := by
  unfold dispatchRadioGated
  split_ifs <;> rfl

@[simp] lemma dispatchRadioGated_rxTimerValue (env : ListenerEnv) (member : Bool) (k : EKind) (s : RadioState) :
    (dispatchRadioGated env member k s).rxTimerValue = s.rxTimerValue := by
  unfold dispatchRadioGated
  split_ifs <;> rfl

@[simp] lemma dispatchRadioGated_modulationParams (env : ListenerEnv) (member : Bool) (k : EKind) (s : RadioState) :
    (dispatchRadioGated env member k s).modulationParams = s.modulationParams := by
  unfold dispatchRadioGated
  split_ifs <;> rfl

@[simp] lemma dispatchRadioGated_packetParams (env : ListenerEnv) (member : Bool) (k : EKind) (s : RadioState) :
    (dispatchRadioGated env member k s).packetParams = s.packetParams := by
  unfold dispatchRadioGated
  split_ifs <;> rfl

@[simp] lemma dispatchRadioGated_rx_timeout_handled (env : ListenerEnv) (member : Bool) (k : EKind) (s : RadioState) :
    (dispatchRadioGated env member k s).rx_timeout_handled = s.rx_timeout_handled := by
  unfold dispatchRadioGated
  split_ifs <;> rfl

@[simp] lemma dispatchRadioGated_tx_timeout_handled (env : ListenerEnv) (member : Bool) (k : EKind) (s : RadioState) :
    (dispatchRadioGated env member k s).tx_timeout_handled = s.tx_timeout_handled := by
  unfold dispatchRadioGated
  split_ifs <;> rfl

@[simp] lemma dispatchRadioGated_ops (env : ListenerEnv) (member : Bool) (k : EKind) (s : RadioState) :
    (dispatchRadioGated env member k s).ops = s.ops := by
  unfold dispatchRadioGated
  split_ifs <;> rfl

@[simp] lemma dispatchRadioGated_emits (env : ListenerEnv) (member : Bool) (k : EKind) (s : RadioState) :
    (dispatchRadioGated env member k s).emits = s.emits ++
      (if s.publicCurrent = true ∧ (env.radioEvents.registered && member) = true
       then [⟨Dest.radioSet, k, none, s.opMode⟩] else []) := by
  unfold dispatchRadioGated
  split_ifs <;> simp_all [emit]

@[simp] lemma dispatchLora_regs (env : ListenerEnv) (member : Bool) (k : EKind) (s : RadioState) :
    (dispatchLora env member k s).regs = s.regs := by
  unfold dispatchLora
  split_ifs <;> rfl

@[simp] lemma dispatchLora_opMode (env : ListenerEnv) (member : Bool) (k : EKind) (s : RadioState) :
    (dispatchLora env member k s).opMode = s.opMode := by
  unfold dispatchLora
  split_ifs <;> rfl

@[simp] lemma dispatchLora_modem (env : ListenerEnv) (member : Bool) (k : EKind) (s : RadioState) :
    (dispatchLora env member k s).modem = s.modem := by
  unfold dispatchLora
  split_ifs <;> rfl

@[simp] lemma dispatchLora_publicCurrent (env : ListenerEnv) (member : Bool) (k : EKind) (s : RadioState) :
    (dispatchLora env member k s).publicCurrent = s.publicCurrent := by
  unfold dispatchLora
  split_ifs <;> rfl

@[simp] lemma dispatchLora_publicPrevious (env : ListenerEnv) (member : Bool) (k : EKind) (s : RadioState) :
    (dispatchLora env member k s).publicPrevious = s.publicPrevious := by
  unfold dispatchLora
  split_ifs <;> rfl

@[simp] lemma dispatchLora_hasCustomSyncWord (env : ListenerEnv) (member : Bool) (k : EKind) (s : RadioState) :
    (dispatchLora env member k s).hasCustomSyncWord = s.hasCustomSyncWord := by
  unfold dispatchLora
  split_ifs <;> rfl

@[simp] lemma dispatchLora_rxContinuous (env : ListenerEnv) (member : Bool) (k : EKind) (s : RadioState) :
    (dispatchLora env member k s).rxContinuous = s.rxContinuous := by
  unfold dispatchLora
  split_ifs <;> rfl

@[simp] lemma dispatchLora_maxPayloadLength (env : ListenerEnv) (member : Bool) (k : EKind) (s : RadioState) :
    (dispatchLora env member k s).maxPayloadLength = s.maxPayloadLength := by
  unfold dispatchLora
  split_ifs <;> rfl

@[simp] lemma dispatchLora_txTimeout (env : ListenerEnv) (member : Bool) (k : EKind) (s : RadioState) :
    (dispatchLora env member k s).txTimeout = s.txTimeout := by
  unfold dispatchLora
  split_ifs <;> rfl

@[simp] lemma dispatchLora_rxTimeout (env : ListenerEnv) (member : Bool) (k : EKind) (s : RadioState) :
    (dispatchLora env member k s).rxTimeout = s.rxTimeout := by
  unfold dispatchLora
  split_ifs <;> rfl

@[simp] lemma dispatchLora_force_low_dr_opt (env : ListenerEnv) (member : Bool) (k : EKind) (s : RadioState) :
    (dispatchLora env member k s).force_low_dr_opt = s.force_low_dr_opt := by
  unfold dispatchLora
  split_ifs <;> rfl

@[simp] lemma dispatchLora_irqFired (env : ListenerEnv) (member : Bool) (k : EKind) (s : RadioState) :
    (dispatchLora env member k s).irqFired = s.irqFired := by
  unfold dispatchLora
  split_ifs <;> rfl

@[simp] lemma dispatchLora_timerRxTimeout (env : ListenerEnv) (member : Bool) (k : EKind) (s : RadioState) :
    (dispatchLora env member k s).timerRxTimeout = s.timerRxTimeout := by
  unfold dispatchLora
  split_ifs <;> rfl

@[simp] lemma dispatchLora_timerTxTimeout (env : ListenerEnv) (member : Bool) (k : EKind) (s : RadioState) :
    (dispatchLora env member k s).timerTxTimeout = s.timerTxTimeout := by
  unfold dispatchLora
  split_ifs <;> rfl

@[simp] lemma dispatchLora_txTimerRunning (env : ListenerEnv) (member : Bool) (k : EKind) (s : RadioState) :
    (dispatchLora env member k s).txTimerRunning = s.txTimerRunning := by
  unfold dispatchLora
  split_ifs <;> rfl

@[simp] lemma dispatchLora_rxTimerRunning (env : ListenerEnv) (member : Bool) (k : EKind) (s : RadioState) :
    (dispatchLora env member k s).rxTimerRunning = s.rxTimerRunning := by
  unfold dispatchLora
  split_ifs <;> rfl

@[simp] lemma dispatchLora_txTimerValue (env : ListenerEnv) (member : Bool) (k : EKind) (s : RadioState) :
    (dispatchLora env member k s).txTimerValue = s.txTimerValue := by
  unfold dispatchLora
  split_ifs <;> rfl

@[simp] lemma dispatchLora_rxTimerValue (env : ListenerEnv) (member : Bool) (k : EKind) (s : RadioState) :
    (dispatchLora env member k s).rxTimerValue = s.rxTimerValue := by
  unfold dispatchLora
  split_ifs <;> rfl

@[simp] lemma dispatchLora_modulationParams (env : ListenerEnv) (member : Bool) (k : EKind) (s : RadioState) :
    (dispatchLora env member k s).modulationParams = s.modulationParams := by
  unfold dispatchLora
  split_ifs <;> rfl

@[simp] lemma dispatchLora_packetParams (env : ListenerEnv) (member : Bool) (k : EKind) (s : RadioState) :
    (dispatchLora env member k s).packetParams = s.packetParams := by
  unfold dispatchLora
  split_ifs <;> rfl

@[simp] lemma dispatchLora_rx_timeout_handled (env : ListenerEnv) (member : Bool) (k : EKind) (s : RadioState) :
    (dispatchLora env member k s).rx_timeout_handled = s.rx_timeout_handled := by
  unfold dispatchLora
  split_ifs <;> rfl

@[simp] lemma dispatchLora_tx_timeout_handled (env : ListenerEnv) (member : Bool) (k : EKind) (s : RadioState) :
    (dispatchLora env member k s).tx_timeout_handled = s.tx_timeout_handled := by
  unfold dispatchLora
  split_ifs <;> rfl

@[simp] lemma dispatchLora_ops (env : ListenerEnv) (member : Bool) (k : EKind) (s : RadioState) :
    (dispatchLora env member k s).ops = s.ops := by
  unfold dispatchLora
  split_ifs <;> rfl

@[simp] lemma dispatchLora_emits (env : ListenerEnv) (member : Bool) (k : EKind) (s : RadioState) :
    (dispatchLora env member k s).emits = s.emits ++
      (if (env.loraEvents.registered && member) = true
       then [⟨Dest.loraSet, k, some s.publicCurrent, s.opMode⟩] else []) := by
  unfold dispatchLora
  split_ifs <;> simp_all [emit]

/-! ### Distribution of state projections over `if` (instances of `apply_ite`). -/

@[simp] lemma ite_state_regs (c : Prop) [Decidable c] (a b : RadioState) :
    (if c then a else b).regs = if c then a.regs else b.regs :=
  apply_ite RadioState.regs c a b

@[simp] lemma ite_state_opMode (c : Prop) [Decidable c] (a b : RadioState) :
    (if c then a else b).opMode = if c then a.opMode else b.opMode :=
  apply_ite RadioState.opMode c a b

@[simp] lemma ite_state_modem (c : Prop) [Decidable c] (a b : RadioState) :
    (if c then a else b).modem = if c then a.modem else b.modem :=
  apply_ite RadioState.modem c a b

@[simp] lemma ite_state_publicCurrent (c : Prop) [Decidable c] (a b : RadioState) :
    (if c then a else b).publicCurrent = if c then a.publicCurrent else b.publicCurrent :=
  apply_ite RadioState.publicCurrent c a b

@[simp] lemma ite_state_publicPrevious (c : Prop) [Decidable c] (a b : RadioState) :
    (if c then a else b).publicPrevious = if c then a.publicPrevious else b.publicPrevious :=
  apply_ite RadioState.publicPrevious c a b

@[simp] lemma ite_state_hasCustomSyncWord (c : Prop) [Decidable c] (a b : RadioState) :
    (if c then a else b).hasCustomSyncWord = if c then a.hasCustomSyncWord else b.hasCustomSyncWord :=
  apply_ite RadioState.hasCustomSyncWord c a b

@[simp] lemma ite_state_rxContinuous (c : Prop) [Decidable c] (a b : RadioState) :
    (if c then a else b).rxContinuous = if c then a.rxContinuous else b.rxContinuous :=
  apply_ite RadioState.rxContinuous c a b

@[simp] lemma ite_state_maxPayloadLength (c : Prop) [Decidable c] (a b : RadioState) :
    (if c then a else b).maxPayloadLength = if c then a.maxPayloadLength else b.maxPayloadLength :=
  apply_ite RadioState.maxPayloadLength c a b

@[simp] lemma ite_state_txTimeout (c : Prop) [Decidable c] (a b : RadioState) :
    (if c then a else b).txTimeout = if c then a.txTimeout else b.txTimeout :=
  apply_ite RadioState.txTimeout c a b

@[simp] lemma ite_state_rxTimeout (c : Prop) [Decidable c] (a b : RadioState) :
    (if c then a else b).rxTimeout = if c then a.rxTimeout else b.rxTimeout :=
  apply_ite RadioState.rxTimeout c a b

@[simp] lemma ite_state_force_low_dr_opt (c : Prop) [Decidable c] (a b : RadioState) :
    (if c then a else b).force_low_dr_opt = if c then a.force_low_dr_opt else b.force_low_dr_opt :=
  apply_ite RadioState.force_low_dr_opt c a b

@[simp] lemma ite_state_irqFired (c : Prop) [Decidable c] (a b : RadioState) :
    (if c then a else b).irqFired = if c then a.irqFired else b.irqFired :=
  apply_ite RadioState.irqFired c a b

@[simp] lemma ite_state_timerRxTimeout (c : Prop) [Decidable c] (a b : RadioState) :
    (if c then a else b).timerRxTimeout = if c then a.timerRxTimeout else b.timerRxTimeout :=
  apply_ite RadioState.timerRxTimeout c a b

@[simp] lemma ite_state_timerTxTimeout (c : Prop) [Decidable c] (a b : RadioState) :
    (if c then a else b).timerTxTimeout = if c then a.timerTxTimeout else b.timerTxTimeout :=
  apply_ite RadioState.timerTxTimeout c a b

@[simp] lemma ite_state_txTimerRunning (c : Prop) [Decidable c] (a b : RadioState) :
    (if c then a else b).txTimerRunning = if c then a.txTimerRunning else b.txTimerRunning :=
  apply_ite RadioState.txTimerRunning c a b

@[simp] lemma ite_state_rxTimerRunning (c : Prop) [Decidable c] (a b : RadioState) :
    (if c then a else b).rxTimerRunning = if c then a.rxTimerRunning else b.rxTimerRunning :=
  apply_ite RadioState.rxTimerRunning c a b

@[simp] lemma ite_state_txTimerValue (c : Prop) [Decidable c] (a b : RadioState) :
    (if c then a else b).txTimerValue = if c then a.txTimerValue else b.txTimerValue :=
  apply_ite RadioState.txTimerValue c a b

@[simp] lemma ite_state_rxTimerValue (c : Prop) [Decidable c] (a b : RadioState) :
    (if c then a else b).rxTimerValue = if c then a.rxTimerValue else b.rxTimerValue :=
  apply_ite RadioState.rxTimerValue c a b

@[simp] lemma ite_state_modulationParams (c : Prop) [Decidable c] (a b : RadioState) :
    (if c then a else b).modulationParams = if c then a.modulationParams else b.modulationParams :=
  apply_ite RadioState.modulationParams c a b

@[simp] lemma ite_state_packetParams (c : Prop) [Decidable c] (a b : RadioState) :
    (if c then a else b).packetParams = if c then a.packetParams else b.packetParams :=
  apply_ite RadioState.packetParams c a b

@[simp] lemma ite_state_rx_timeout_handled (c : Prop) [Decidable c] (a b : RadioState) :
    (if c then a else b).rx_timeout_handled = if c then a.rx_timeout_handled else b.rx_timeout_handled :=
  apply_ite RadioState.rx_timeout_handled c a b

@[simp] lemma ite_state_tx_timeout_handled (c : Prop) [Decidable c] (a b : RadioState) :
    (if c then a else b).tx_timeout_handled = if c then a.tx_timeout_handled else b.tx_timeout_handled :=
  apply_ite RadioState.tx_timeout_handled c a b

@[simp] lemma ite_state_ops (c : Prop) [Decidable c] (a b : RadioState) :
    (if c then a else b).ops = if c then a.ops else b.ops :=
  apply_ite RadioState.ops c a b

@[simp] lemma ite_state_emits (c : Prop) [Decidable c] (a b : RadioState) :
    (if c then a else b).emits = if c then a.emits else b.emits :=
  apply_ite RadioState.emits c a b


set_option maxHeartbeats 1000000

/-- Fields of the driver state that a modem switch / public-network switch
never touches (they only affect the sync-word registers, the network flags,
and the stored modem). -/
lemma fuelPreserve (n : Nat) :
    (∀ s m, ((setModemFuel n s m).modulationParams = s.modulationParams ∧
             (setModemFuel n s m).packetParams = s.packetParams ∧
             (setModemFuel n s m).ops = s.ops ∧
             (setModemFuel n s m).emits = s.emits ∧
             (setModemFuel n s m).opMode = s.opMode ∧
             (setModemFuel n s m).maxPayloadLength = s.maxPayloadLength ∧
             (setModemFuel n s m).rxTimeout = s.rxTimeout ∧
             (setModemFuel n s m).txTimeout = s.txTimeout ∧
             (setModemFuel n s m).force_low_dr_opt = s.force_low_dr_opt ∧
             (setModemFuel n s m).rxContinuous = s.rxContinuous)) ∧
    (∀ s e, ((setPublicNetworkFuel n s e).modulationParams = s.modulationParams ∧
             (setPublicNetworkFuel n s e).packetParams = s.packetParams ∧
             (setPublicNetworkFuel n s e).ops = s.ops ∧
             (setPublicNetworkFuel n s e).emits = s.emits ∧
             (setPublicNetworkFuel n s e).opMode = s.opMode ∧
             (setPublicNetworkFuel n s e).maxPayloadLength = s.maxPayloadLength ∧
             (setPublicNetworkFuel n s e).rxTimeout = s.rxTimeout ∧
             (setPublicNetworkFuel n s e).txTimeout = s.txTimeout ∧
             (setPublicNetworkFuel n s e).force_low_dr_opt = s.force_low_dr_opt ∧
             (setPublicNetworkFuel n s e).rxContinuous = s.rxContinuous)) := by
  induction n with
  | zero => exact ⟨fun s m => by simp [setModemFuel], fun s e => by simp [setPublicNetworkFuel]⟩
  | succ n ih =>
    constructor
    · intro s m
      cases m
      · simp [setModemFuel]
      · simp only [setModemFuel]
        split_ifs <;> simp_all [ih.2]
    · intro s e
      simp only [setPublicNetworkFuel, writeRegister]
      split_ifs <;> simp_all [ih.1]

lemma setModem_mp (s : RadioState) (m : Modem) :
    (RadioSetModem s m).modulationParams = s.modulationParams :=
  ((fuelPreserve 3).1 s m).1

lemma setModem_pp (s : RadioState) (m : Modem) :
    (RadioSetModem s m).packetParams = s.packetParams :=
  ((fuelPreserve 3).1 s m).2.1

lemma setModem_ops (s : RadioState) (m : Modem) :
    (RadioSetModem s m).ops = s.ops :=
  ((fuelPreserve 3).1 s m).2.2.1

lemma setModem_maxPayloadLength (s : RadioState) (m : Modem) :
    (RadioSetModem s m).maxPayloadLength = s.maxPayloadLength :=
  ((fuelPreserve 3).1 s m).2.2.2.2.2.1

lemma setModem_rxTimeout (s : RadioState) (m : Modem) :
    (RadioSetModem s m).rxTimeout = s.rxTimeout :=
  ((fuelPreserve 3).1 s m).2.2.2.2.2.2.1


/-- C8: for every LoRa call of `RadioSetRxConfig` and `RadioSetTxConfig`,
the low-datarate-optimize flag of the produced modulation parameters is 0x01
exactly when the claimed rule holds (125 kHz with SF 11 or 12, 250 kHz with
SF 12, or the global enforce flag), and 0x00 otherwise. -/
theorem c8_ldro (s : RadioState)
    (bandwidth datarate coderate bandwidthAfc preambleLen symbTimeout : Nat)
    (fixLen : Bool) (payloadLen : Nat) (crcOn freqHopOn : Bool) (hopPeriod : Nat)
    (iqInverted rxContinuous : Bool) (power : Int) (fdev timeout : Nat) :
    ((RadioSetRxConfig s .lora bandwidth datarate coderate bandwidthAfc
        preambleLen symbTimeout fixLen payloadLen crcOn freqHopOn hopPeriod
        iqInverted rxContinuous).modulationParams.loraLowDatarateOptimize
      = if ldroClaim bandwidth datarate s.force_low_dr_opt then 0x01 else 0x00) ∧
    ((RadioSetTxConfig s .lora power fdev bandwidth datarate coderate
        preambleLen fixLen crcOn freqHopOn hopPeriod iqInverted
        timeout).modulationParams.loraLowDatarateOptimize
      = if ldroClaim bandwidth datarate s.force_low_dr_opt then 0x01 else 0x00) := by
  constructor
  · simp [RadioSetRxConfig, ldroClaim, setModem_mp, pushOp, writeRegister, RadioStandby,
      apply_ite RadioState.modulationParams, apply_ite ModulationParams.loraLowDatarateOptimize,
      apply_ite RadioState.force_low_dr_opt]
  · simp [RadioSetTxConfig, ldroClaim, setModem_mp, pushOp, writeRegister, RadioStandby,
      apply_ite RadioState.modulationParams, apply_ite ModulationParams.loraLowDatarateOptimize,
      apply_ite RadioState.force_low_dr_opt]

/-- C10: `RadioSetMaxPayloadLength(FSK, max)` is a complete no-op (state
returned unchanged, no chip push) when the GFSK packet parameters use
fixed-length header mode; in the FSK variable-length case and the LoRa case
the payload length is patched to `max` and the packet parameters are
re-pushed to the chip. -/
theorem c10_max_payload (s : RadioState) (max : Nat) :
    (s.packetParams.gfskHeaderType = RADIO_PACKET_FIXED_LENGTH →
      RadioSetMaxPayloadLength s .fsk max = s) ∧
    (s.packetParams.gfskHeaderType = RADIO_PACKET_VARIABLE_LENGTH →
      (RadioSetMaxPayloadLength s .fsk max).maxPayloadLength = max ∧
      (RadioSetMaxPayloadLength s .fsk max).packetParams.gfskPayloadLength = max ∧
      (RadioSetMaxPayloadLength s .fsk max).ops = s.ops ++ [ChipOp.setPacketParams]) ∧
    ((RadioSetMaxPayloadLength s .lora max).maxPayloadLength = max ∧
     (RadioSetMaxPayloadLength s .lora max).packetParams.loraPayloadLength = max ∧
     (RadioSetMaxPayloadLength s .lora max).ops = s.ops ++ [ChipOp.setPacketParams]) := by
  refine ⟨fun h => ?_, fun h => ?_, ?_⟩ <;>
    simp_all [RadioSetMaxPayloadLength, pushOp, RADIO_PACKET_FIXED_LENGTH,
      RADIO_PACKET_VARIABLE_LENGTH]


/-- C10 witness: at a concrete fixed-length-mode state the call is a no-op. -/
theorem c10_witness :
    c10state.packetParams.gfskHeaderType = RADIO_PACKET_FIXED_LENGTH ∧
    RadioSetMaxPayloadLength c10state .fsk 32 = c10state :=
  ⟨rfl, (c10_max_payload c10state 32).1 rfl⟩

/-- C4 counterexample: the claim says the RX timer is armed "unless timeout
is 0 and continuous mode is configured"; but `RadioRxBoosted` with a nonzero
timeout in SINGLE (non-continuous) mode does not arm the software RX timer at
all (the source only arms it inside the `RxContinuous == true` branch). -/
theorem c4_counterexample :
    (100 : Nat) ≠ 0 ∧
    ({ rxContinuous := false, rxTimerRunning := false } : RadioState).rxContinuous = false ∧
    (RadioRxBoosted { rxContinuous := false, rxTimerRunning := false } 100).rxTimerRunning = false :=
  ⟨by decide, rfl, by decide⟩

/-- C4 (amended): `RadioRx` arms the RX software timer with the given timeout
exactly when the timeout is nonzero (regardless of continuous mode), while
`RadioRxBoosted` arms it exactly when continuous mode is configured AND the
timeout is nonzero; both then start reception with the continuous sentinel
duration 0xFFFFFF when continuous mode is configured and otherwise with the
stored RX timeout value left-shifted by 6 (in 32-bit arithmetic). -/
theorem c4_amended (s : RadioState) (timeout : Nat) (hops : s.ops = []) :
    ((timeout ≠ 0 → (RadioRx s timeout).rxTimerRunning = true ∧
        (RadioRx s timeout).rxTimerValue = timeout) ∧
     (timeout = 0 → (RadioRx s timeout).rxTimerRunning = s.rxTimerRunning) ∧
     (s.rxContinuous = true → (RadioRx s timeout).ops = [ChipOp.setRx 0xFFFFFF]) ∧
     (s.rxContinuous = false →
        (RadioRx s timeout).ops = [ChipOp.setRx ((s.rxTimeout <<< 6) % 4294967296)])) ∧
    ((s.rxContinuous = true → timeout ≠ 0 →
        (RadioRxBoosted s timeout).rxTimerRunning = true ∧
        (RadioRxBoosted s timeout).rxTimerValue = timeout) ∧
     (s.rxContinuous = false ∨ timeout = 0 →
        (RadioRxBoosted s timeout).rxTimerRunning = s.rxTimerRunning) ∧
     (s.rxContinuous = true → (RadioRxBoosted s timeout).ops = [ChipOp.setRxBoosted 0xFFFFFF]) ∧
     (s.rxContinuous = false →
        (RadioRxBoosted s timeout).ops = [ChipOp.setRxBoosted ((s.rxTimeout <<< 6) % 4294967296)])) := by
  unfold RadioRx RadioRxBoosted pushOp
  split_ifs <;> simp_all


/-- C4 witness: `RadioRx` with a nonzero timeout arms the timer with it. -/
theorem c4_witness :
    (5 : Nat) ≠ 0 ∧ (RadioRx c4state 5).rxTimerRunning = true ∧
    (RadioRx c4state 5).rxTimerValue = 5 :=
  ⟨by decide, ((c4_amended c4state 5 rfl).1.1 (by decide)).1,
    ((c4_amended c4state 5 rfl).1.1 (by decide)).2⟩

/-- A modem switch with a custom sync word active never rewrites the chip
registers and keeps the custom-sync-word flag. -/
lemma setModemFuel_custom (n : Nat) (s : RadioState) (m : Modem)
    (h : s.hasCustomSyncWord = true) :
    (setModemFuel n s m).regs = s.regs ∧
    (setModemFuel n s m).hasCustomSyncWord = true := by
  cases n with
  | zero => simp [setModemFuel, h]
  | succ n => cases m <;> simp [setModemFuel, h]

/-- C9: for every 16-bit word w, `RadioSetCustomSyncWord w` followed by
`RadioGetSyncWord` returns w (the register model returns the last value
written at each address); the custom-sync-word flag is set, and afterwards a
modem switch leaves the register file untouched. -/
theorem c9_syncword (s : RadioState) (w : Nat) (hw : w < 65536) :
    (RadioGetSyncWord (RadioSetCustomSyncWord s w)).1 = w ∧
    (RadioSetCustomSyncWord s w).hasCustomSyncWord = true ∧
    (∀ m, (RadioSetModem (RadioSetCustomSyncWord s w) m).regs =
          (RadioSetCustomSyncWord s w).regs) := by
  have hh : (RadioSetCustomSyncWord s w).hasCustomSyncWord = true := by
    simp only [RadioSetCustomSyncWord, RadioSetModem, writeRegister]
    exact (setModemFuel_custom 3 _ .lora rfl).2
  have hregs : (RadioSetCustomSyncWord s w).regs =
      (REG_LR_SYNCWORD + 1, (w &&& 0xFF) % 256) ::
      (REG_LR_SYNCWORD, ((w >>> 8) &&& 0xFF) % 256) ::
      (setModemFuel 3 { s with hasCustomSyncWord := true } .lora).regs := by
    simp [RadioSetCustomSyncWord, RadioSetModem, writeRegister]
  refine ⟨?_, hh, fun m => (setModemFuel_custom 3 _ m hh).1⟩
  have hr0 : readRegister (setModemFuel 3 (RadioSetCustomSyncWord s w) .lora)
      REG_LR_SYNCWORD = ((w >>> 8) &&& 0xFF) % 256 := by
    rw [readRegister, (setModemFuel_custom 3 _ .lora hh).1, hregs,
      List.find?_cons_of_neg _ (by simp [REG_LR_SYNCWORD]),
      List.find?_cons_of_pos _ (by simp [REG_LR_SYNCWORD])]
    simp
  have hr1 : readRegister (setModemFuel 3 (RadioSetCustomSyncWord s w) .lora)
      (REG_LR_SYNCWORD + 1) = (w &&& 0xFF) % 256 := by
    rw [readRegister, (setModemFuel_custom 3 _ .lora hh).1, hregs,
      List.find?_cons_of_pos _ (by simp [REG_LR_SYNCWORD])]
    simp
  simp only [RadioGetSyncWord, RadioSetModem, hr0, hr1]
  have h2 : w &&& 255 = w % 256 := Nat.and_pow_two_sub_one_eq_mod w 8
  have h1 : w >>> 8 &&& 255 = (w / 256) % 256 := by
    rw [Nat.shiftRight_eq_div_pow, Nat.and_pow_two_sub_one_eq_mod _ 8]
  rw [h1, h2, Nat.shiftLeft_eq]
  omega


/-- C9 witness at the concrete word 0xBEEF. -/
theorem c9_witness :
    (0xBEEF : Nat) < 65536 ∧
    (RadioGetSyncWord (RadioSetCustomSyncWord c9state 0xBEEF)).1 = 0xBEEF :=
  ⟨by decide, (c9_syncword c9state 0xBEEF (by decide)).1⟩

/-- C7: starting in LoRa modem with the public flag set (current = previous =
public, no custom sync word), switching to FSK clears the current flag, and
switching back to LoRa restores it and rewrites the public sync word bytes
0x34/0x44; if a custom sync word is set in between, the switch back to LoRa
restores nothing (flag stays private, registers untouched) until
`RadioSetPublicNetwork` clears the custom flag and rewrites the public sync
word. -/
theorem c7_modem_switch (s : RadioState) (w : Nat)
    (h1 : s.hasCustomSyncWord = false) (h2 : s.publicCurrent = true)
    (h3 : s.publicPrevious = true) (h4 : s.modem = Modem.lora) :
    ((RadioSetModem s .fsk).publicCurrent = false) ∧
    ((RadioSetModem (RadioSetModem s .fsk) .lora).publicCurrent = true ∧
     (RadioSetModem (RadioSetModem s .fsk) .lora).publicPrevious = true ∧
     readRegister (RadioSetModem (RadioSetModem s .fsk) .lora) REG_LR_SYNCWORD = 0x34 ∧
     readRegister (RadioSetModem (RadioSetModem s .fsk) .lora) (REG_LR_SYNCWORD + 1) = 0x44) ∧
    ((RadioSetModem (RadioSetCustomSyncWord (RadioSetModem s .fsk) w) .lora).publicCurrent = false ∧
     (RadioSetModem (RadioSetCustomSyncWord (RadioSetModem s .fsk) w) .lora).hasCustomSyncWord = true ∧
     (RadioSetModem (RadioSetCustomSyncWord (RadioSetModem s .fsk) w) .lora).regs =
       (RadioSetCustomSyncWord (RadioSetModem s .fsk) w).regs) ∧
    ((RadioSetPublicNetwork
        (RadioSetModem (RadioSetCustomSyncWord (RadioSetModem s .fsk) w) .lora)
        true).hasCustomSyncWord = false ∧
     (RadioSetPublicNetwork
        (RadioSetModem (RadioSetCustomSyncWord (RadioSetModem s .fsk) w) .lora)
        true).publicCurrent = true ∧
     readRegister (RadioSetPublicNetwork
        (RadioSetModem (RadioSetCustomSyncWord (RadioSetModem s .fsk) w) .lora)
        true) REG_LR_SYNCWORD = 0x34 ∧
     readRegister (RadioSetPublicNetwork
        (RadioSetModem (RadioSetCustomSyncWord (RadioSetModem s .fsk) w) .lora)
        true) (REG_LR_SYNCWORD + 1) = 0x44) := by
  have hforth : RadioSetModem s .fsk =
      { s with publicCurrent := false, modem := .fsk } := by
    simp [RadioSetModem, setModemFuel]
  have hcust : (RadioSetCustomSyncWord (RadioSetModem s .fsk) w).hasCustomSyncWord = true := by
    simp only [RadioSetCustomSyncWord, RadioSetModem, writeRegister]
    exact (setModemFuel_custom 3 _ .lora rfl).2
  refine ⟨by simp [hforth], ?_, ?_, ?_⟩
  · rw [hforth]
    simp [RadioSetModem, setModemFuel, setPublicNetworkFuel, h1, h3, writeRegister,
      readRegister, REG_LR_SYNCWORD, LORA_MAC_PUBLIC_SYNCWORD]
    decide
  · have hpc : (RadioSetCustomSyncWord (RadioSetModem s .fsk) w).publicCurrent = false := by
      rw [hforth]
      simp [RadioSetCustomSyncWord, RadioSetModem, setModemFuel, writeRegister]
    refine ⟨?_, (setModemFuel_custom 3 _ .lora hcust).2,
      (setModemFuel_custom 3 _ .lora hcust).1⟩
    generalize hX : RadioSetCustomSyncWord (RadioSetModem s Modem.fsk) w = X
    rw [hX] at hcust hpc
    simp [RadioSetModem, setModemFuel, hcust, hpc]
  · simp [RadioSetPublicNetwork, setPublicNetworkFuel, setModemFuel, writeRegister,
      readRegister, REG_LR_SYNCWORD, LORA_MAC_PUBLIC_SYNCWORD]
    decide


/-- C7 witness: the switch LoRa(public) -> FSK -> LoRa restores the public
flag at a concrete state. -/
theorem c7_witness :
    c7state.hasCustomSyncWord = false ∧ c7state.publicCurrent = true ∧
    (RadioSetModem (RadioSetModem c7state .fsk) .lora).publicCurrent = true :=
  ⟨rfl, rfl, ((c7_modem_switch c7state 0xBEEF rfl rfl rfl rfl).2.1).1⟩

/-- C3 counterexample: the claim says `RadioGetFskBandwidthRegValue` returns
the register code of the smallest table bandwidth greater than OR EQUAL to
the request, but at the exact table value 4800 the source returns 0x17 (the
code of the next entry, 5800), not the 4800 entry code 0x1F the claim
predicts. -/
theorem c3_counterexample :
    RadioGetFskBandwidthRegValue 4800 = 0x17 ∧
    fskBandwidthRegValueClaim 4800 = 0x1F ∧ (0x17 : Nat) ≠ 0x1F :=
  ⟨by decide, by decide, by decide⟩

set_option maxHeartbeats 1000000 in
/-- C3 (amended): for every requested FSK bandwidth b,
`RadioGetFskBandwidthRegValue b` equals the amended lookup rule: 0x1F when
b < 4800 (including b = 0) or b >= 500000, and otherwise the register code of
the smallest table bandwidth strictly greater than b. -/
theorem c3_amended (b : Nat) :
    RadioGetFskBandwidthRegValue b = fskBandwidthRegValueAmended b := by
  by_cases h1 : b < 4800
  · by_cases hb : b = 0
    · subst hb; decide
    · have hL : RadioGetFskBandwidthRegValue b = 0x1F := by
        simp only [RadioGetFskBandwidthRegValue, fskLoop, FskBandwidths]
        rw [if_neg hb]
        repeat rw [if_neg (by omega)]
        rfl
      have hR : fskBandwidthRegValueAmended b = 0x1F := by
        simp only [fskBandwidthRegValueAmended]
        rw [if_pos (by omega)]
      rw [hL, hR]
  · by_cases h2 : b < 5800
    · have hL : RadioGetFskBandwidthRegValue b = 23 := by
        simp only [RadioGetFskBandwidthRegValue, fskLoop, FskBandwidths]
        rw [if_neg (by omega)]
        rw [if_pos (by omega)]
        rfl
      have hR : fskBandwidthRegValueAmended b = 23 := by
        simp only [fskBandwidthRegValueAmended, FskBandwidths]
        rw [if_neg (by omega)]
        repeat rw [List.find?_cons_of_neg _ (by simp; omega)]
        rw [List.find?_cons_of_pos _ (by simp; omega)]
        rfl
      rw [hL, hR]
    · by_cases h3 : b < 7300
      · have hL : RadioGetFskBandwidthRegValue b = 15 := by
          simp only [RadioGetFskBandwidthRegValue, fskLoop, FskBandwidths]
          rw [if_neg (by omega)]
          repeat rw [if_neg (by omega)]
          rw [if_pos (by omega)]
          rfl
        have hR : fskBandwidthRegValueAmended b = 15 := by
          simp only [fskBandwidthRegValueAmended, FskBandwidths]
          rw [if_neg (by omega)]
          repeat rw [List.find?_cons_of_neg _ (by simp; omega)]
          rw [List.find?_cons_of_pos _ (by simp; omega)]
          rfl
        rw [hL, hR]
      · by_cases h4 : b < 9700
        · have hL : RadioGetFskBandwidthRegValue b = 30 := by
            simp only [RadioGetFskBandwidthRegValue, fskLoop, FskBandwidths]
            rw [if_neg (by omega)]
            repeat rw [if_neg (by omega)]
            rw [if_pos (by omega)]
            rfl
          have hR : fskBandwidthRegValueAmended b = 30 := by
            simp only [fskBandwidthRegValueAmended, FskBandwidths]
            rw [if_neg (by omega)]
            repeat rw [List.find?_cons_of_neg _ (by simp; omega)]
            rw [List.find?_cons_of_pos _ (by simp; omega)]
            rfl
          rw [hL, hR]
        · by_cases h5 : b < 11700
          · have hL : RadioGetFskBandwidthRegValue b = 22 := by
              simp only [RadioGetFskBandwidthRegValue, fskLoop, FskBandwidths]
              rw [if_neg (by omega)]
              repeat rw [if_neg (by omega)]
              rw [if_pos (by omega)]
              rfl
            have hR : fskBandwidthRegValueAmended b = 22 := by
              simp only [fskBandwidthRegValueAmended, FskBandwidths]
              rw [if_neg (by omega)]
              repeat rw [List.find?_cons_of_neg _ (by simp; omega)]
              rw [List.find?_cons_of_pos _ (by simp; omega)]
              rfl
            rw [hL, hR]
          · by_cases h6 : b < 14600
            · have hL : RadioGetFskBandwidthRegValue b = 14 := by
                simp only [RadioGetFskBandwidthRegValue, fskLoop, FskBandwidths]
                rw [if_neg (by omega)]
                repeat rw [if_neg (by omega)]
                rw [if_pos (by omega)]
                rfl
              have hR : fskBandwidthRegValueAmended b = 14 := by
                simp only [fskBandwidthRegValueAmended, FskBandwidths]
                rw [if_neg (by omega)]
                repeat rw [List.find?_cons_of_neg _ (by simp; omega)]
                rw [List.find?_cons_of_pos _ (by simp; omega)]
                rfl
              rw [hL, hR]
            · by_cases h7 : b < 19500
              · have hL : RadioGetFskBandwidthRegValue b = 29 := by
                  simp only [RadioGetFskBandwidthRegValue, fskLoop, FskBandwidths]
                  rw [if_neg (by omega)]
                  repeat rw [if_neg (by omega)]
                  rw [if_pos (by omega)]
                  rfl
                have hR : fskBandwidthRegValueAmended b = 29 := by
                  simp only [fskBandwidthRegValueAmended, FskBandwidths]
                  rw [if_neg (by omega)]
                  repeat rw [List.find?_cons_of_neg _ (by simp; omega)]
                  rw [List.find?_cons_of_pos _ (by simp; omega)]
                  rfl
                rw [hL, hR]
              · by_cases h8 : b < 23400
                · have hL : RadioGetFskBandwidthRegValue b = 21 := by
                    simp only [RadioGetFskBandwidthRegValue, fskLoop, FskBandwidths]
                    rw [if_neg (by omega)]
                    repeat rw [if_neg (by omega)]
                    rw [if_pos (by omega)]
                    rfl
                  have hR : fskBandwidthRegValueAmended b = 21 := by
                    simp only [fskBandwidthRegValueAmended, FskBandwidths]
                    rw [if_neg (by omega)]
                    repeat rw [List.find?_cons_of_neg _ (by simp; omega)]
                    rw [List.find?_cons_of_pos _ (by simp; omega)]
                    rfl
                  rw [hL, hR]
                · by_cases h9 : b < 29300
                  · have hL : RadioGetFskBandwidthRegValue b = 13 := by
                      simp only [RadioGetFskBandwidthRegValue, fskLoop, FskBandwidths]
                      rw [if_neg (by omega)]
                      repeat rw [if_neg (by omega)]
                      rw [if_pos (by omega)]
                      rfl
                    have hR : fskBandwidthRegValueAmended b = 13 := by
                      simp only [fskBandwidthRegValueAmended, FskBandwidths]
                      rw [if_neg (by omega)]
                      repeat rw [List.find?_cons_of_neg _ (by simp; omega)]
                      rw [List.find?_cons_of_pos _ (by simp; omega)]
                      rfl
                    rw [hL, hR]
                  · by_cases h10 : b < 39000
                    · have hL : RadioGetFskBandwidthRegValue b = 28 := by
                        simp only [RadioGetFskBandwidthRegValue, fskLoop, FskBandwidths]
                        rw [if_neg (by omega)]
                        repeat rw [if_neg (by omega)]
                        rw [if_pos (by omega)]
                        rfl
                      have hR : fskBandwidthRegValueAmended b = 28 := by
                        simp only [fskBandwidthRegValueAmended, FskBandwidths]
                        rw [if_neg (by omega)]
                        repeat rw [List.find?_cons_of_neg _ (by simp; omega)]
                        rw [List.find?_cons_of_pos _ (by simp; omega)]
                        rfl
                      rw [hL, hR]
                    · by_cases h11 : b < 46900
                      · have hL : RadioGetFskBandwidthRegValue b = 20 := by
                          simp only [RadioGetFskBandwidthRegValue, fskLoop, FskBandwidths]
                          rw [if_neg (by omega)]
                          repeat rw [if_neg (by omega)]
                          rw [if_pos (by omega)]
                          rfl
                        have hR : fskBandwidthRegValueAmended b = 20 := by
                          simp only [fskBandwidthRegValueAmended, FskBandwidths]
                          rw [if_neg (by omega)]
                          repeat rw [List.find?_cons_of_neg _ (by simp; omega)]
                          rw [List.find?_cons_of_pos _ (by simp; omega)]
                          rfl
                        rw [hL, hR]
                      · by_cases h12 : b < 58600
                        · have hL : RadioGetFskBandwidthRegValue b = 12 := by
                            simp only [RadioGetFskBandwidthRegValue, fskLoop, FskBandwidths]
                            rw [if_neg (by omega)]
                            repeat rw [if_neg (by omega)]
                            rw [if_pos (by omega)]
                            rfl
                          have hR : fskBandwidthRegValueAmended b = 12 := by
                            simp only [fskBandwidthRegValueAmended, FskBandwidths]
                            rw [if_neg (by omega)]
                            repeat rw [List.find?_cons_of_neg _ (by simp; omega)]
                            rw [List.find?_cons_of_pos _ (by simp; omega)]
                            rfl
                          rw [hL, hR]
                        · by_cases h13 : b < 78200
                          · have hL : RadioGetFskBandwidthRegValue b = 27 := by
                              simp only [RadioGetFskBandwidthRegValue, fskLoop, FskBandwidths]
                              rw [if_neg (by omega)]
                              repeat rw [if_neg (by omega)]
                              rw [if_pos (by omega)]
                              rfl
                            have hR : fskBandwidthRegValueAmended b = 27 := by
                              simp only [fskBandwidthRegValueAmended, FskBandwidths]
                              rw [if_neg (by omega)]
                              repeat rw [List.find?_cons_of_neg _ (by simp; omega)]
                              rw [List.find?_cons_of_pos _ (by simp; omega)]
                              rfl
                            rw [hL, hR]
                          · by_cases h14 : b < 93800
                            · have hL : RadioGetFskBandwidthRegValue b = 19 := by
                                simp only [RadioGetFskBandwidthRegValue, fskLoop, FskBandwidths]
                                rw [if_neg (by omega)]
                                repeat rw [if_neg (by omega)]
                                rw [if_pos (by omega)]
                                rfl
                              have hR : fskBandwidthRegValueAmended b = 19 := by
                                simp only [fskBandwidthRegValueAmended, FskBandwidths]
                                rw [if_neg (by omega)]
                                repeat rw [List.find?_cons_of_neg _ (by simp; omega)]
                                rw [List.find?_cons_of_pos _ (by simp; omega)]
                                rfl
                              rw [hL, hR]
                            · by_cases h15 : b < 117300
                              · have hL : RadioGetFskBandwidthRegValue b = 11 := by
                                  simp only [RadioGetFskBandwidthRegValue, fskLoop, FskBandwidths]
                                  rw [if_neg (by omega)]
                                  repeat rw [if_neg (by omega)]
                                  rw [if_pos (by omega)]
                                  rfl
                                have hR : fskBandwidthRegValueAmended b = 11 := by
                                  simp only [fskBandwidthRegValueAmended, FskBandwidths]
                                  rw [if_neg (by omega)]
                                  repeat rw [List.find?_cons_of_neg _ (by simp; omega)]
                                  rw [List.find?_cons_of_pos _ (by simp; omega)]
                                  rfl
                                rw [hL, hR]
                              · by_cases h16 : b < 156200
                                · have hL : RadioGetFskBandwidthRegValue b = 26 := by
                                    simp only [RadioGetFskBandwidthRegValue, fskLoop, FskBandwidths]
                                    rw [if_neg (by omega)]
                                    repeat rw [if_neg (by omega)]
                                    rw [if_pos (by omega)]
                                    rfl
                                  have hR : fskBandwidthRegValueAmended b = 26 := by
                                    simp only [fskBandwidthRegValueAmended, FskBandwidths]
                                    rw [if_neg (by omega)]
                                    repeat rw [List.find?_cons_of_neg _ (by simp; omega)]
                                    rw [List.find?_cons_of_pos _ (by simp; omega)]
                                    rfl
                                  rw [hL, hR]
                                · by_cases h17 : b < 187200
                                  · have hL : RadioGetFskBandwidthRegValue b = 18 := by
                                      simp only [RadioGetFskBandwidthRegValue, fskLoop, FskBandwidths]
                                      rw [if_neg (by omega)]
                                      repeat rw [if_neg (by omega)]
                                      rw [if_pos (by omega)]
                                      rfl
                                    have hR : fskBandwidthRegValueAmended b = 18 := by
                                      simp only [fskBandwidthRegValueAmended, FskBandwidths]
                                      rw [if_neg (by omega)]
                                      repeat rw [List.find?_cons_of_neg _ (by simp; omega)]
                                      rw [List.find?_cons_of_pos _ (by simp; omega)]
                                      rfl
                                    rw [hL, hR]
                                  · by_cases h18 : b < 234300
                                    · have hL : RadioGetFskBandwidthRegValue b = 10 := by
                                        simp only [RadioGetFskBandwidthRegValue, fskLoop, FskBandwidths]
                                        rw [if_neg (by omega)]
                                        repeat rw [if_neg (by omega)]
                                        rw [if_pos (by omega)]
                                        rfl
                                      have hR : fskBandwidthRegValueAmended b = 10 := by
                                        simp only [fskBandwidthRegValueAmended, FskBandwidths]
                                        rw [if_neg (by omega)]
                                        repeat rw [List.find?_cons_of_neg _ (by simp; omega)]
                                        rw [List.find?_cons_of_pos _ (by simp; omega)]
                                        rfl
                                      rw [hL, hR]
                                    · by_cases h19 : b < 312000
                                      · have hL : RadioGetFskBandwidthRegValue b = 25 := by
                                          simp only [RadioGetFskBandwidthRegValue, fskLoop, FskBandwidths]
                                          rw [if_neg (by omega)]
                                          repeat rw [if_neg (by omega)]
                                          rw [if_pos (by omega)]
                                          rfl
                                        have hR : fskBandwidthRegValueAmended b = 25 := by
                                          simp only [fskBandwidthRegValueAmended, FskBandwidths]
                                          rw [if_neg (by omega)]
                                          repeat rw [List.find?_cons_of_neg _ (by simp; omega)]
                                          rw [List.find?_cons_of_pos _ (by simp; omega)]
                                          rfl
                                        rw [hL, hR]
                                      · by_cases h20 : b < 373600
                                        · have hL : RadioGetFskBandwidthRegValue b = 17 := by
                                            simp only [RadioGetFskBandwidthRegValue, fskLoop, FskBandwidths]
                                            rw [if_neg (by omega)]
                                            repeat rw [if_neg (by omega)]
                                            rw [if_pos (by omega)]
                                            rfl
                                          have hR : fskBandwidthRegValueAmended b = 17 := by
                                            simp only [fskBandwidthRegValueAmended, FskBandwidths]
                                            rw [if_neg (by omega)]
                                            repeat rw [List.find?_cons_of_neg _ (by simp; omega)]
                                            rw [List.find?_cons_of_pos _ (by simp; omega)]
                                            rfl
                                          rw [hL, hR]
                                        · by_cases h21 : b < 467000
                                          · have hL : RadioGetFskBandwidthRegValue b = 9 := by
                                              simp only [RadioGetFskBandwidthRegValue, fskLoop, FskBandwidths]
                                              rw [if_neg (by omega)]
                                              repeat rw [if_neg (by omega)]
                                              rw [if_pos (by omega)]
                                              rfl
                                            have hR : fskBandwidthRegValueAmended b = 9 := by
                                              simp only [fskBandwidthRegValueAmended, FskBandwidths]
                                              rw [if_neg (by omega)]
                                              repeat rw [List.find?_cons_of_neg _ (by simp; omega)]
                                              rw [List.find?_cons_of_pos _ (by simp; omega)]
                                              rfl
                                            rw [hL, hR]
                                          · by_cases h22 : b < 500000
                                            · have hL : RadioGetFskBandwidthRegValue b = 0 := by
                                                simp only [RadioGetFskBandwidthRegValue, fskLoop, FskBandwidths]
                                                rw [if_neg (by omega)]
                                                repeat rw [if_neg (by omega)]
                                                rw [if_pos (by omega)]
                                                rfl
                                              have hR : fskBandwidthRegValueAmended b = 0 := by
                                                simp only [fskBandwidthRegValueAmended, FskBandwidths]
                                                rw [if_neg (by omega)]
                                                repeat rw [List.find?_cons_of_neg _ (by simp; omega)]
                                                rw [List.find?_cons_of_pos _ (by simp; omega)]
                                                rfl
                                              rw [hL, hR]
                                            · have hL : RadioGetFskBandwidthRegValue b = 0x1F := by
                                                simp only [RadioGetFskBandwidthRegValue, fskLoop, FskBandwidths]
                                                rw [if_neg (by omega)]
                                                repeat rw [if_neg (by omega)]
                                                rfl
                                              have hR : fskBandwidthRegValueAmended b = 0x1F := by
                                                simp only [fskBandwidthRegValueAmended]
                                                rw [if_pos (by omega)]
                                              rw [hL, hR]


/-! ### Helper lemmas for the IRQ reconciliation theorems -/





lemma bgTxDone_skip (env : ListenerEnv) (irqRegs : Nat) (s : RadioState)
    (h : hasFlag irqRegs IRQ_TX_DONE = false) : bgTxDone env irqRegs s = s := by
  simp [bgTxDone, h]

lemma bgRxDone_skip (env : ListenerEnv) (irqRegs : Nat) (s : RadioState)
    (h : hasFlag irqRegs IRQ_RX_DONE = false) : bgRxDone env irqRegs s = s := by
  simp [bgRxDone, h]

lemma bgCadDone_skip (env : ListenerEnv) (irqRegs : Nat) (s : RadioState)
    (h : hasFlag irqRegs IRQ_CAD_DONE = false) : bgCadDone env irqRegs s = s := by
  simp [bgCadDone, h]

lemma bgIrqTimeout_skip (env : ListenerEnv) (irqRegs : Nat) (s : RadioState)
    (h : hasFlag irqRegs IRQ_RX_TX_TIMEOUT = false) : bgIrqTimeout env irqRegs s = s := by
  simp [bgIrqTimeout, h]

lemma bgPreambleDetected_skip (env : ListenerEnv) (irqRegs : Nat) (s : RadioState)
    (h : hasFlag irqRegs IRQ_PREAMBLE_DETECTED = false) :
    bgPreambleDetected env irqRegs s = s := by
  simp [bgPreambleDetected, h]

lemma bgHeaderError_skip (env : ListenerEnv) (irqRegs : Nat) (s : RadioState)
    (h : hasFlag irqRegs IRQ_HEADER_ERROR = false) : bgHeaderError env irqRegs s = s := by
  simp [bgHeaderError, h]

lemma bgDrainRx_ops (env : ListenerEnv) (s : RadioState) :
    (bgDrainRx env s).ops = s.ops := by
  unfold bgDrainRx
  split_ifs <;> simp

lemma bgDrainTx_ops (env : ListenerEnv) (s : RadioState) :
    (bgDrainTx env s).ops = s.ops := by
  unfold bgDrainTx
  split_ifs <;> simp

/-- The RX timer drain only ever emits RxTimeout events. -/
lemma bgDrainRx_countKind (env : ListenerEnv) (s : RadioState) (d : Dest)
    (p : EKind → Bool) (hp : ∀ c, p (EKind.rxTimeout c) = false) :
    countKind (bgDrainRx env s).emits d p = countKind s.emits d p := by
  unfold bgDrainRx
  split_ifs <;> simp [countKind, List.filter_append, hp, apply_ite (List.filter _)]

/-- The TX timer drain only ever emits TxTimeout events. -/
lemma bgDrainTx_countKind (env : ListenerEnv) (s : RadioState) (d : Dest)
    (p : EKind → Bool) (hp : ∀ c, p (EKind.txTimeout c) = false) :
    countKind (bgDrainTx env s).emits d p = countKind s.emits d p := by
  unfold bgDrainTx
  split_ifs <;> simp [countKind, List.filter_append, hp, apply_ite (List.filter _)]

set_option maxHeartbeats 2000000 in
/-- C5: a pass whose interrupt status carries both RX-done and CRC-error
raises no RxDone event at all, raises exactly one RxError per applicable
listener set (the `RadioEvents` set when the network is public and the
callback is registered; the `_events` set whenever registered), and still
drains the payload from the chip. -/
theorem c5_crc_error (env : ListenerEnv) (s : RadioState)
    (hemits : s.emits = []) (hops : s.ops = []) (hirq : s.irqFired = true) :
    countKind (RadioBgIrqProcess env (IRQ_RX_DONE ||| IRQ_CRC_ERROR) s).emits
        .radioSet isRxDoneKind = 0 ∧
    countKind (RadioBgIrqProcess env (IRQ_RX_DONE ||| IRQ_CRC_ERROR) s).emits
        .loraSet isRxDoneKind = 0 ∧
    countKind (RadioBgIrqProcess env (IRQ_RX_DONE ||| IRQ_CRC_ERROR) s).emits
        .radioSet isRxErrorKind =
      (if s.publicCurrent && env.radioEvents.registered && env.radioEvents.rxError
       then 1 else 0) ∧
    countKind (RadioBgIrqProcess env (IRQ_RX_DONE ||| IRQ_CRC_ERROR) s).emits
        .loraSet isRxErrorKind =
      (if env.loraEvents.registered && env.loraEvents.rxError then 1 else 0) ∧
    ChipOp.getPayload ∈ (RadioBgIrqProcess env (IRQ_RX_DONE ||| IRQ_CRC_ERROR) s).ops := by
  have hbg : RadioBgIrqProcess env (IRQ_RX_DONE ||| IRQ_CRC_ERROR) s =
      bgDrainTx env (bgDrainRx env (bgRxDone env (IRQ_RX_DONE ||| IRQ_CRC_ERROR)
        (pushOp
          { s with
              irqFired := false
              rx_timeout_handled := false
              tx_timeout_handled := false }
          ChipOp.clearIrqStatus))) := by
    rw [RadioBgIrqProcess, if_pos hirq, bgIrqSection]
    rw [bgTxDone_skip _ _ _ (by decide), bgCadDone_skip _ _ _ (by decide),
      bgIrqTimeout_skip _ _ _ (by decide), bgPreambleDetected_skip _ _ _ (by decide),
      bgHeaderError_skip _ _ _ (by decide)]
  rw [hbg]
  rw [bgDrainTx_ops, bgDrainRx_ops,
    bgDrainTx_countKind _ _ _ _ (fun c => rfl), bgDrainRx_countKind _ _ _ _ (fun c => rfl),
    bgDrainTx_countKind _ _ _ _ (fun c => rfl), bgDrainRx_countKind _ _ _ _ (fun c => rfl),
    bgDrainTx_countKind _ _ _ _ (fun c => rfl), bgDrainRx_countKind _ _ _ _ (fun c => rfl),
    bgDrainTx_countKind _ _ _ _ (fun c => rfl), bgDrainRx_countKind _ _ _ _ (fun c => rfl)]
  have fRx : hasFlag (IRQ_RX_DONE ||| IRQ_CRC_ERROR) IRQ_RX_DONE = true := by decide
  have fCrc : hasFlag (IRQ_RX_DONE ||| IRQ_CRC_ERROR) IRQ_CRC_ERROR = true := by decide
  simp only [bgRxDone, fRx, fCrc, emit, pushOp, writeRegister, readRegister, if_true]
  split_ifs <;> simp_all [countKind, isRxDoneKind, isRxErrorKind]


lemma bgDrainRx_skip (env : ListenerEnv) (s : RadioState)
    (h : s.timerRxTimeout = false) : bgDrainRx env s = s := by
  simp [bgDrainRx, h]

lemma bgDrainTx_skip (env : ListenerEnv) (s : RadioState)
    (h : s.timerTxTimeout = false) : bgDrainTx env s = s := by
  simp [bgDrainTx, h]

@[simp] lemma bgTxDone_timerRxTimeout (env : ListenerEnv) (irqRegs : Nat) (s : RadioState) :
    (bgTxDone env irqRegs s).timerRxTimeout = s.timerRxTimeout := by
  unfold bgTxDone
  split_ifs <;> simp

@[simp] lemma bgTxDone_timerTxTimeout (env : ListenerEnv) (irqRegs : Nat) (s : RadioState) :
    (bgTxDone env irqRegs s).timerTxTimeout = s.timerTxTimeout := by
  unfold bgTxDone
  split_ifs <;> simp

@[simp] lemma bgRxDone_timerRxTimeout (env : ListenerEnv) (irqRegs : Nat) (s : RadioState) :
    (bgRxDone env irqRegs s).timerRxTimeout = s.timerRxTimeout := by
  unfold bgRxDone
  split_ifs <;> simp

@[simp] lemma bgRxDone_timerTxTimeout (env : ListenerEnv) (irqRegs : Nat) (s : RadioState) :
    (bgRxDone env irqRegs s).timerTxTimeout = s.timerTxTimeout := by
  unfold bgRxDone
  split_ifs <;> simp

@[simp] lemma bgIrqTimeout_timerRxTimeout (env : ListenerEnv) (irqRegs : Nat) (s : RadioState) :
    (bgIrqTimeout env irqRegs s).timerRxTimeout = s.timerRxTimeout := by
  unfold bgIrqTimeout
  split_ifs <;> simp

@[simp] lemma bgIrqTimeout_timerTxTimeout (env : ListenerEnv) (irqRegs : Nat) (s : RadioState) :
    (bgIrqTimeout env irqRegs s).timerTxTimeout = s.timerTxTimeout := by
  unfold bgIrqTimeout
  split_ifs <;> simp




/-- C1 counterexample: on an RX-done pass with the network-sync mode private
(`RadioPublicNetwork.Current == false`), the source leaves the RX software
timeout timer RUNNING (`TimerStop(&RxTimeoutTimer)` is gated on the public
flag at radio.cpp lines 1402-1403), contradicting the claim that the RX
timer is stopped on RX-done regardless of the public/private setting. -/
theorem c1_counterexample :
    c1state.publicCurrent = false ∧ c1state.rxTimerRunning = true ∧
    (RadioBgIrqProcess c1env IRQ_RX_DONE c1state).rxTimerRunning = true :=
  ⟨rfl, rfl, by decide⟩

set_option maxHeartbeats 2000000 in
/-- C1 (amended): in a single pass with a pending interrupt and no pending
timer flags, (a) a TX-done pass stops the TX timer, demotes the operating
mode to standby, and every listener call in the pass observes standby;
(b) a single-shot RX-done pass demotes to standby before callbacks and stops
the RX timer ONLY when the public-network flag is set (when private, the RX
timer is left exactly as it was); (c) in continuous RX mode the RX-done pass
leaves the operating mode untouched (so RX stays RX); (d)/(e) an
interrupt-sourced TX/RX timeout (chip in TX/RX mode) stops the matching
timer and demotes to standby before callbacks. -/
theorem c1_amended (env : ListenerEnv) (s : RadioState)
    (hemits : s.emits = []) (hirq : s.irqFired = true)
    (htR : s.timerRxTimeout = false) (htT : s.timerTxTimeout = false) :
    ((RadioBgIrqProcess env IRQ_TX_DONE s).txTimerRunning = false ∧
     (RadioBgIrqProcess env IRQ_TX_DONE s).opMode = OpMode.stdbyRC ∧
     (∀ e ∈ (RadioBgIrqProcess env IRQ_TX_DONE s).emits,
        e.opModeAtEmit = OpMode.stdbyRC)) ∧
    (s.rxContinuous = false →
      ((s.publicCurrent = true →
          (RadioBgIrqProcess env IRQ_RX_DONE s).rxTimerRunning = false) ∧
       (s.publicCurrent = false →
          (RadioBgIrqProcess env IRQ_RX_DONE s).rxTimerRunning = s.rxTimerRunning) ∧
       (RadioBgIrqProcess env IRQ_RX_DONE s).opMode = OpMode.stdbyRC ∧
       (∀ e ∈ (RadioBgIrqProcess env IRQ_RX_DONE s).emits,
          e.opModeAtEmit = OpMode.stdbyRC))) ∧
    (s.rxContinuous = true →
      (RadioBgIrqProcess env IRQ_RX_DONE s).opMode = s.opMode) ∧
    (s.opMode = OpMode.tx →
      ((RadioBgIrqProcess env IRQ_RX_TX_TIMEOUT s).txTimerRunning = false ∧
       (RadioBgIrqProcess env IRQ_RX_TX_TIMEOUT s).opMode = OpMode.stdbyRC ∧
       (∀ e ∈ (RadioBgIrqProcess env IRQ_RX_TX_TIMEOUT s).emits,
          e.opModeAtEmit = OpMode.stdbyRC))) ∧
    (s.opMode = OpMode.rx →
      ((RadioBgIrqProcess env IRQ_RX_TX_TIMEOUT s).rxTimerRunning = false ∧
       (RadioBgIrqProcess env IRQ_RX_TX_TIMEOUT s).opMode = OpMode.stdbyRC ∧
       (∀ e ∈ (RadioBgIrqProcess env IRQ_RX_TX_TIMEOUT s).emits,
          e.opModeAtEmit = OpMode.stdbyRC))) := by
  have f1 : hasFlag IRQ_TX_DONE IRQ_TX_DONE = true := by decide
  have f2 : hasFlag IRQ_RX_DONE IRQ_RX_DONE = true := by decide
  have fc : hasFlag IRQ_RX_DONE IRQ_CRC_ERROR = false := by decide
  have f3 : hasFlag IRQ_RX_TX_TIMEOUT IRQ_RX_TX_TIMEOUT = true := by decide
  refine ⟨?_, fun hc => ?_, fun hc => ?_, fun hm => ?_, fun hm => ?_⟩
  · rw [RadioBgIrqProcess, if_pos hirq, bgIrqSection]
    rw [bgRxDone_skip _ _ _ (by decide), bgCadDone_skip _ _ _ (by decide),
      bgIrqTimeout_skip _ _ _ (by decide), bgPreambleDetected_skip _ _ _ (by decide),
      bgHeaderError_skip _ _ _ (by decide)]
    rw [bgDrainRx_skip _ _ (by simp [htR]), bgDrainTx_skip _ _ (by simp [htT])]
    unfold bgTxDone
    rw [if_pos f1]
    simp_all
    try (rintro e (⟨-, rfl⟩ | ⟨-, rfl⟩) <;> rfl)
  · rw [RadioBgIrqProcess, if_pos hirq, bgIrqSection]
    rw [bgTxDone_skip _ _ _ (by decide), bgCadDone_skip _ _ _ (by decide),
      bgIrqTimeout_skip _ _ _ (by decide), bgPreambleDetected_skip _ _ _ (by decide),
      bgHeaderError_skip _ _ _ (by decide)]
    rw [bgDrainRx_skip _ _ (by simp [htR]), bgDrainTx_skip _ _ (by simp [htT])]
    unfold bgRxDone
    rw [if_pos f2]
    simp_all
    try (rintro e (⟨-, rfl⟩ | ⟨-, rfl⟩) <;> rfl)
  · rw [RadioBgIrqProcess, if_pos hirq, bgIrqSection]
    rw [bgTxDone_skip _ _ _ (by decide), bgCadDone_skip _ _ _ (by decide),
      bgIrqTimeout_skip _ _ _ (by decide), bgPreambleDetected_skip _ _ _ (by decide),
      bgHeaderError_skip _ _ _ (by decide)]
    rw [bgDrainRx_skip _ _ (by simp [htR]), bgDrainTx_skip _ _ (by simp [htT])]
    unfold bgRxDone
    rw [if_pos f2]
    simp_all
    try (rintro e (⟨-, rfl⟩ | ⟨-, rfl⟩) <;> rfl)
  · rw [RadioBgIrqProcess, if_pos hirq, bgIrqSection]
    rw [bgTxDone_skip _ _ _ (by decide), bgRxDone_skip _ _ _ (by decide),
      bgCadDone_skip _ _ _ (by decide), bgPreambleDetected_skip _ _ _ (by decide),
      bgHeaderError_skip _ _ _ (by decide)]
    rw [bgDrainRx_skip _ _ (by simp [htR]), bgDrainTx_skip _ _ (by simp [htT])]
    unfold bgIrqTimeout
    rw [if_pos f3]
    simp_all
    try (rintro e (⟨-, rfl⟩ | ⟨-, rfl⟩) <;> rfl)
  · rw [RadioBgIrqProcess, if_pos hirq, bgIrqSection]
    rw [bgTxDone_skip _ _ _ (by decide), bgRxDone_skip _ _ _ (by decide),
      bgCadDone_skip _ _ _ (by decide), bgPreambleDetected_skip _ _ _ (by decide),
      bgHeaderError_skip _ _ _ (by decide)]
    rw [bgDrainRx_skip _ _ (by simp [htR]), bgDrainTx_skip _ _ (by simp [htT])]
    unfold bgIrqTimeout
    rw [if_pos f3]
    simp_all
    try (rintro e (⟨-, rfl⟩ | ⟨-, rfl⟩) <;> rfl)

/-- C1 witness: a concrete TX-done pass stops the TX software timer. -/
theorem c1_witness :
    c1wstate.emits = [] ∧ c1wstate.irqFired = true ∧
    (RadioBgIrqProcess c1env IRQ_TX_DONE c1wstate).txTimerRunning = false :=
  ⟨rfl, rfl, (c1_amended c1env c1wstate rfl rfl rfl rfl).1.1⟩

/-- C5 witness: at a concrete public-network state with both listener sets
registered, the combined RX-done + CRC-error pass emits exactly one RxError
to the generic listener set. -/
theorem c5_witness :
    c5state.emits = [] ∧ c5state.ops = [] ∧ c5state.irqFired = true ∧
    countKind (RadioBgIrqProcess c5env (IRQ_RX_DONE ||| IRQ_CRC_ERROR) c5state).emits
      .loraSet isRxErrorKind = 1 :=
  ⟨rfl, rfl, rfl, by
    have h := (c5_crc_error c5env c5state rfl rfl rfl).2.2.2.1
    simpa using h⟩

lemma mem_ite_nil {α : Type} (a : α) (c : Prop) [Decidable c] (l : List α) :
    (a ∈ if c then l else []) ↔ (c ∧ a ∈ l) := by
  split_ifs <;> simp_all

@[simp] lemma bgTxDone_publicCurrent (env : ListenerEnv) (irqRegs : Nat) (s : RadioState) :
    (bgTxDone env irqRegs s).publicCurrent = s.publicCurrent := by
  unfold bgTxDone
  split_ifs <;> simp

@[simp] lemma bgRxDone_publicCurrent (env : ListenerEnv) (irqRegs : Nat) (s : RadioState) :
    (bgRxDone env irqRegs s).publicCurrent = s.publicCurrent := by
  unfold bgRxDone
  split_ifs <;> simp

@[simp] lemma bgCadDone_publicCurrent (env : ListenerEnv) (irqRegs : Nat) (s : RadioState) :
    (bgCadDone env irqRegs s).publicCurrent = s.publicCurrent := by
  unfold bgCadDone
  split_ifs <;> simp [emit]

@[simp] lemma bgIrqTimeout_publicCurrent (env : ListenerEnv) (irqRegs : Nat) (s : RadioState) :
    (bgIrqTimeout env irqRegs s).publicCurrent = s.publicCurrent := by
  unfold bgIrqTimeout
  split_ifs <;> simp

@[simp] lemma bgPreambleDetected_publicCurrent (env : ListenerEnv) (irqRegs : Nat)
    (s : RadioState) :
    (bgPreambleDetected env irqRegs s).publicCurrent = s.publicCurrent := by
  unfold bgPreambleDetected
  split_ifs <;> simp [emit]

@[simp] lemma bgHeaderError_publicCurrent (env : ListenerEnv) (irqRegs : Nat) (s : RadioState) :
    (bgHeaderError env irqRegs s).publicCurrent = s.publicCurrent := by
  unfold bgHeaderError
  split_ifs <;> simp

@[simp] lemma bgDrainRx_publicCurrent (env : ListenerEnv) (s : RadioState) :
    (bgDrainRx env s).publicCurrent = s.publicCurrent := by
  unfold bgDrainRx
  split_ifs <;> simp

@[simp] lemma bgDrainTx_publicCurrent (env : ListenerEnv) (s : RadioState) :
    (bgDrainTx env s).publicCurrent = s.publicCurrent := by
  unfold bgDrainTx
  split_ifs <;> simp

lemma bgTxDone_mem (env : ListenerEnv) (irqRegs : Nat) (s : RadioState) :
    ∀ e ∈ (bgTxDone env irqRegs s).emits, e ∈ s.emits ∨ gatedOK s.publicCurrent e := by
  intro e he
  unfold bgTxDone at he
  split_ifs at he
  all_goals
    first
      | exact Or.inl he
      | (simp only [emit_emits, List.mem_append, List.mem_singleton] at he
         rcases he with he | rfl
         · exact Or.inl he
         · exact Or.inr (by simp [gatedOK, mainKind]))
      | (simp [mem_ite_nil] at he
         rcases he with he | ⟨hc, rfl⟩ | ⟨hc, rfl⟩
         · exact Or.inl he
         · exact Or.inr (by simp_all [gatedOK, mainKind])
         · exact Or.inr (by simp_all [gatedOK, mainKind]))

lemma bgRxDone_mem (env : ListenerEnv) (irqRegs : Nat) (s : RadioState) :
    ∀ e ∈ (bgRxDone env irqRegs s).emits, e ∈ s.emits ∨ gatedOK s.publicCurrent e := by
  intro e he
  unfold bgRxDone at he
  split_ifs at he
  all_goals
    first
      | exact Or.inl he
      | (simp only [emit_emits, List.mem_append, List.mem_singleton] at he
         rcases he with he | rfl
         · exact Or.inl he
         · exact Or.inr (by simp [gatedOK, mainKind]))
      | (simp [mem_ite_nil] at he
         rcases he with he | ⟨hc, rfl⟩ | ⟨hc, rfl⟩
         · exact Or.inl he
         · exact Or.inr (by simp_all [gatedOK, mainKind])
         · exact Or.inr (by simp_all [gatedOK, mainKind]))

lemma bgCadDone_mem (env : ListenerEnv) (irqRegs : Nat) (s : RadioState) :
    ∀ e ∈ (bgCadDone env irqRegs s).emits, e ∈ s.emits ∨ gatedOK s.publicCurrent e := by
  intro e he
  unfold bgCadDone at he
  split_ifs at he
  all_goals
    first
      | exact Or.inl he
      | (simp only [emit_emits, List.mem_append, List.mem_singleton] at he
         rcases he with he | rfl
         · exact Or.inl he
         · exact Or.inr (by simp [gatedOK, mainKind]))
      | (simp [mem_ite_nil] at he
         rcases he with he | ⟨hc, rfl⟩ | ⟨hc, rfl⟩
         · exact Or.inl he
         · exact Or.inr (by simp_all [gatedOK, mainKind])
         · exact Or.inr (by simp_all [gatedOK, mainKind]))

lemma bgIrqTimeout_mem (env : ListenerEnv) (irqRegs : Nat) (s : RadioState) :
    ∀ e ∈ (bgIrqTimeout env irqRegs s).emits, e ∈ s.emits ∨ gatedOK s.publicCurrent e := by
  intro e he
  unfold bgIrqTimeout at he
  split_ifs at he
  all_goals
    first
      | exact Or.inl he
      | (simp only [emit_emits, List.mem_append, List.mem_singleton] at he
         rcases he with he | rfl
         · exact Or.inl he
         · exact Or.inr (by simp [gatedOK, mainKind]))
      | (simp [mem_ite_nil] at he
         rcases he with he | ⟨hc, rfl⟩ | ⟨hc, rfl⟩
         · exact Or.inl he
         · exact Or.inr (by simp_all [gatedOK, mainKind])
         · exact Or.inr (by simp_all [gatedOK, mainKind]))

lemma bgPreambleDetected_mem (env : ListenerEnv) (irqRegs : Nat) (s : RadioState) :
    ∀ e ∈ (bgPreambleDetected env irqRegs s).emits, e ∈ s.emits ∨ gatedOK s.publicCurrent e := by
  intro e he
  unfold bgPreambleDetected at he
  split_ifs at he
  all_goals
    first
      | exact Or.inl he
      | (simp only [emit_emits, List.mem_append, List.mem_singleton] at he
         rcases he with he | rfl
         · exact Or.inl he
         · exact Or.inr (by simp [gatedOK, mainKind]))
      | (simp [mem_ite_nil] at he
         rcases he with he | ⟨hc, rfl⟩ | ⟨hc, rfl⟩
         · exact Or.inl he
         · exact Or.inr (by simp_all [gatedOK, mainKind])
         · exact Or.inr (by simp_all [gatedOK, mainKind]))

lemma bgHeaderError_mem (env : ListenerEnv) (irqRegs : Nat) (s : RadioState) :
    ∀ e ∈ (bgHeaderError env irqRegs s).emits, e ∈ s.emits ∨ gatedOK s.publicCurrent e := by
  intro e he
  unfold bgHeaderError at he
  split_ifs at he
  all_goals
    first
      | exact Or.inl he
      | (simp only [emit_emits, List.mem_append, List.mem_singleton] at he
         rcases he with he | rfl
         · exact Or.inl he
         · exact Or.inr (by simp [gatedOK, mainKind]))
      | (simp [mem_ite_nil] at he
         rcases he with he | ⟨hc, rfl⟩ | ⟨hc, rfl⟩
         · exact Or.inl he
         · exact Or.inr (by simp_all [gatedOK, mainKind])
         · exact Or.inr (by simp_all [gatedOK, mainKind]))

lemma bgDrainRx_mem (env : ListenerEnv) (s : RadioState) :
    ∀ e ∈ (bgDrainRx env s).emits, e ∈ s.emits ∨ gatedOK s.publicCurrent e := by
  intro e he
  by_cases h1 : s.timerRxTimeout = true
  · by_cases h2 : s.rx_timeout_handled = false
    · simp [bgDrainRx, h1, h2, mem_ite_nil] at he
      rcases he with he | ⟨hc, rfl⟩ | ⟨hc, rfl⟩
      · exact Or.inl he
      · exact Or.inr (by simp_all [gatedOK, mainKind])
      · exact Or.inr (by simp_all [gatedOK, mainKind])
    · simp [bgDrainRx, h1, h2] at he
      exact Or.inl he
  · simp [bgDrainRx, h1] at he
    exact Or.inl he

lemma bgDrainTx_mem (env : ListenerEnv) (s : RadioState) :
    ∀ e ∈ (bgDrainTx env s).emits, e ∈ s.emits ∨ gatedOK s.publicCurrent e := by
  intro e he
  by_cases h1 : s.timerTxTimeout = true
  · by_cases h2 : s.tx_timeout_handled = false
    · simp [bgDrainTx, h1, h2, mem_ite_nil] at he
      rcases he with he | ⟨hc, rfl⟩ | ⟨hc, rfl⟩
      · exact Or.inl he
      · exact Or.inr (by simp_all [gatedOK, mainKind])
      · exact Or.inr (by simp_all [gatedOK, mainKind])
    · simp [bgDrainTx, h1, h2] at he
      exact Or.inl he
  · simp [bgDrainTx, h1] at he
    exact Or.inl he

@[simp] lemma bgIrqSection_publicCurrent (env : ListenerEnv) (irqRegs : Nat) (s : RadioState) :
    (bgIrqSection env irqRegs s).publicCurrent = s.publicCurrent := by
  simp [bgIrqSection]

lemma bgIrqSection_mem (env : ListenerEnv) (irqRegs : Nat) (s : RadioState) :
    ∀ e ∈ (bgIrqSection env irqRegs s).emits, e ∈ s.emits ∨ gatedOK s.publicCurrent e := by
  intro e he
  unfold bgIrqSection at he
  rcases bgHeaderError_mem _ _ _ _ he with h | h
  · rcases bgPreambleDetected_mem _ _ _ _ h with h | h
    · rcases bgIrqTimeout_mem _ _ _ _ h with h | h
      · rcases bgCadDone_mem _ _ _ _ h with h | h
        · rcases bgRxDone_mem _ _ _ _ h with h | h
          · rcases bgTxDone_mem _ _ _ _ h with h | h
            · exact Or.inl h
            · exact Or.inr h
          · exact Or.inr (by simpa using h)
        · exact Or.inr (by simpa using h)
      · exact Or.inr (by simpa using h)
    · exact Or.inr (by simpa using h)
  · exact Or.inr (by simpa using h)

lemma bgIrqTimeout_emits_mono (env : ListenerEnv) (irqRegs : Nat) (s : RadioState) :
    ∀ e ∈ s.emits, e ∈ (bgIrqTimeout env irqRegs s).emits := by
  intro e he
  unfold bgIrqTimeout
  split_ifs <;> simp [he]

lemma bgPreambleDetected_emits_mono (env : ListenerEnv) (irqRegs : Nat) (s : RadioState) :
    ∀ e ∈ s.emits, e ∈ (bgPreambleDetected env irqRegs s).emits := by
  intro e he
  unfold bgPreambleDetected
  split_ifs <;> simp [he, emit]

lemma bgHeaderError_emits_mono (env : ListenerEnv) (irqRegs : Nat) (s : RadioState) :
    ∀ e ∈ s.emits, e ∈ (bgHeaderError env irqRegs s).emits := by
  intro e he
  unfold bgHeaderError
  split_ifs <;> simp [he]

lemma bgDrainRx_emits_mono (env : ListenerEnv) (s : RadioState) :
    ∀ e ∈ s.emits, e ∈ (bgDrainRx env s).emits := by
  intro e he
  by_cases h1 : s.timerRxTimeout = true <;> by_cases h2 : s.rx_timeout_handled = false <;>
    simp [bgDrainRx, h1, h2, he]

lemma bgDrainTx_emits_mono (env : ListenerEnv) (s : RadioState) :
    ∀ e ∈ s.emits, e ∈ (bgDrainTx env s).emits := by
  intro e he
  by_cases h1 : s.timerTxTimeout = true <;> by_cases h2 : s.tx_timeout_handled = false <;>
    simp [bgDrainTx, h1, h2, he]

lemma bgCadDone_emits_cad (env : ListenerEnv) (irqRegs : Nat) (s : RadioState)
    (hf : hasFlag irqRegs IRQ_CAD_DONE = true) (hreg : env.radioEvents.registered = true)
    (hmem : env.radioEvents.cadDone = true) :
    (⟨Dest.radioSet, .cadDone (hasFlag irqRegs IRQ_CAD_ACTIVITY_DETECTED), none,
      OpMode.stdbyRC⟩ : Emit) ∈ (bgCadDone env irqRegs s).emits := by
  simp [bgCadDone, hf, hreg, hmem, emit]


lemma length_filter_one_le {α : Type} (q : α → Bool) (a : α) :
    (List.filter q [a]).length ≤ 1 := by
  simp [List.filter_cons]
  split_ifs <;> simp

lemma bgIrqTimeout_count_le (env : ListenerEnv) (irqRegs : Nat) (s : RadioState) (d : Dest)
    (p : EKind → Bool) :
    countKind (bgIrqTimeout env irqRegs s).emits d p ≤ countKind s.emits d p + 1 := by
  unfold bgIrqTimeout
  split_ifs <;> cases d <;>
    simp [countKind, List.filter_append, apply_ite (List.filter _)] <;>
    split_ifs <;>
    simp [length_filter_one_le]

lemma bgTxDone_countKind (env : ListenerEnv) (irqRegs : Nat) (s : RadioState) (d : Dest)
    (p : EKind → Bool) (hp : p EKind.txDone = false) :
    countKind (bgTxDone env irqRegs s).emits d p = countKind s.emits d p := by
  unfold bgTxDone
  split_ifs <;> simp [countKind, List.filter_append, hp, apply_ite (List.filter _)]

lemma bgRxDone_countKind (env : ListenerEnv) (irqRegs : Nat) (s : RadioState) (d : Dest)
    (p : EKind → Bool) (h1 : p EKind.rxDone = false) (h2 : p EKind.rxError = false) :
    countKind (bgRxDone env irqRegs s).emits d p = countKind s.emits d p := by
  unfold bgRxDone
  split_ifs <;> simp [countKind, List.filter_append, h1, h2, apply_ite (List.filter _)]

lemma bgCadDone_countKind (env : ListenerEnv) (irqRegs : Nat) (s : RadioState) (d : Dest)
    (p : EKind → Bool) (hp : ∀ b, p (EKind.cadDone b) = false) :
    countKind (bgCadDone env irqRegs s).emits d p = countKind s.emits d p := by
  unfold bgCadDone
  split_ifs <;> simp [countKind, List.filter_append, hp, apply_ite (List.filter _)]

lemma bgPreambleDetected_countKind (env : ListenerEnv) (irqRegs : Nat) (s : RadioState)
    (d : Dest) (p : EKind → Bool) (hp : p EKind.preambleDetected = false) :
    countKind (bgPreambleDetected env irqRegs s).emits d p = countKind s.emits d p := by
  unfold bgPreambleDetected
  split_ifs <;> simp [countKind, List.filter_append, hp, apply_ite (List.filter _)]

lemma bgHeaderError_countKind (env : ListenerEnv) (irqRegs : Nat) (s : RadioState) (d : Dest)
    (p : EKind → Bool) (hp : p EKind.rxError = false) :
    countKind (bgHeaderError env irqRegs s).emits d p = countKind s.emits d p := by
  unfold bgHeaderError
  split_ifs <;> simp [countKind, List.filter_append, hp, apply_ite (List.filter _)]

lemma bgIrqTimeout_countKind (env : ListenerEnv) (irqRegs : Nat) (s : RadioState) (d : Dest)
    (p : EKind → Bool) (h1 : p (EKind.txTimeout none) = false)
    (h2 : p (EKind.txTimeout (some Cause.irqType)) = false)
    (h3 : p (EKind.rxTimeout none) = false)
    (h4 : p (EKind.rxTimeout (some Cause.irqType)) = false) :
    countKind (bgIrqTimeout env irqRegs s).emits d p = countKind s.emits d p := by
  unfold bgIrqTimeout
  split_ifs <;> simp [countKind, List.filter_append, h1, h2, h3, h4, apply_ite (List.filter _)]

lemma bgIrqTimeout_count_tx_notfired (env : ListenerEnv) (irqRegs : Nat) (s : RadioState)
    (d : Dest)
    (h : ¬(hasFlag irqRegs IRQ_RX_TX_TIMEOUT = true ∧ s.opMode = OpMode.tx)) :
    countKind (bgIrqTimeout env irqRegs s).emits d isTxTimeoutKind =
      countKind s.emits d isTxTimeoutKind := by
  unfold bgIrqTimeout
  split_ifs with h1 h2 h3 <;>
    simp_all [countKind, List.filter_append, isTxTimeoutKind, apply_ite (List.filter _)]

lemma bgIrqTimeout_count_rx_notfired (env : ListenerEnv) (irqRegs : Nat) (s : RadioState)
    (d : Dest)
    (h : ¬(hasFlag irqRegs IRQ_RX_TX_TIMEOUT = true ∧ s.opMode = OpMode.rx)) :
    countKind (bgIrqTimeout env irqRegs s).emits d isRxTimeoutKind =
      countKind s.emits d isRxTimeoutKind := by
  unfold bgIrqTimeout
  split_ifs with h1 h2 h3 <;>
    simp_all [countKind, List.filter_append, isRxTimeoutKind, apply_ite (List.filter _)]

@[simp] lemma bgTxDone_tx_flag (env : ListenerEnv) (irqRegs : Nat) (s : RadioState) :
    (bgTxDone env irqRegs s).tx_timeout_handled =
      (s.tx_timeout_handled || hasFlag irqRegs IRQ_TX_DONE) := by
  unfold bgTxDone
  split_ifs <;> simp_all

@[simp] lemma bgTxDone_rx_flag (env : ListenerEnv) (irqRegs : Nat) (s : RadioState) :
    (bgTxDone env irqRegs s).rx_timeout_handled = s.rx_timeout_handled := by
  unfold bgTxDone
  split_ifs <;> simp

@[simp] lemma bgRxDone_rx_flag (env : ListenerEnv) (irqRegs : Nat) (s : RadioState) :
    (bgRxDone env irqRegs s).rx_timeout_handled =
      (s.rx_timeout_handled || hasFlag irqRegs IRQ_RX_DONE) := by
  unfold bgRxDone
  split_ifs <;> simp_all

@[simp] lemma bgRxDone_tx_flag (env : ListenerEnv) (irqRegs : Nat) (s : RadioState) :
    (bgRxDone env irqRegs s).tx_timeout_handled = s.tx_timeout_handled := by
  unfold bgRxDone
  split_ifs <;> simp

@[simp] lemma bgCadDone_tx_flag (env : ListenerEnv) (irqRegs : Nat) (s : RadioState) :
    (bgCadDone env irqRegs s).tx_timeout_handled = s.tx_timeout_handled := by
  unfold bgCadDone
  split_ifs <;> simp

@[simp] lemma bgCadDone_rx_flag (env : ListenerEnv) (irqRegs : Nat) (s : RadioState) :
    (bgCadDone env irqRegs s).rx_timeout_handled = s.rx_timeout_handled := by
  unfold bgCadDone
  split_ifs <;> simp

@[simp] lemma bgIrqTimeout_tx_flag (env : ListenerEnv) (irqRegs : Nat) (s : RadioState) :
    (bgIrqTimeout env irqRegs s).tx_timeout_handled =
      (s.tx_timeout_handled ||
        (hasFlag irqRegs IRQ_RX_TX_TIMEOUT && s.opMode == OpMode.tx)) := by
  unfold bgIrqTimeout
  split_ifs <;> simp_all

@[simp] lemma bgIrqTimeout_rx_flag (env : ListenerEnv) (irqRegs : Nat) (s : RadioState) :
    (bgIrqTimeout env irqRegs s).rx_timeout_handled =
      (s.rx_timeout_handled ||
        (hasFlag irqRegs IRQ_RX_TX_TIMEOUT && s.opMode == OpMode.rx)) := by
  unfold bgIrqTimeout
  split_ifs <;> simp_all

@[simp] lemma bgPreambleDetected_tx_flag (env : ListenerEnv) (irqRegs : Nat) (s : RadioState) :
    (bgPreambleDetected env irqRegs s).tx_timeout_handled = s.tx_timeout_handled := by
  unfold bgPreambleDetected
  split_ifs <;> simp

@[simp] lemma bgPreambleDetected_rx_flag (env : ListenerEnv) (irqRegs : Nat) (s : RadioState) :
    (bgPreambleDetected env irqRegs s).rx_timeout_handled = s.rx_timeout_handled := by
  unfold bgPreambleDetected
  split_ifs <;> simp

@[simp] lemma bgHeaderError_tx_flag (env : ListenerEnv) (irqRegs : Nat) (s : RadioState) :
    (bgHeaderError env irqRegs s).tx_timeout_handled = s.tx_timeout_handled := by
  unfold bgHeaderError
  split_ifs <;> simp

@[simp] lemma bgHeaderError_rx_flag (env : ListenerEnv) (irqRegs : Nat) (s : RadioState) :
    (bgHeaderError env irqRegs s).rx_timeout_handled = s.rx_timeout_handled := by
  unfold bgHeaderError
  split_ifs <;> simp

@[simp] lemma bgDrainRx_tx_flag (env : ListenerEnv) (s : RadioState) :
    (bgDrainRx env s).tx_timeout_handled = s.tx_timeout_handled := by
  unfold bgDrainRx
  split_ifs <;> simp

@[simp] lemma bgDrainRx_rx_flag (env : ListenerEnv) (s : RadioState) :
    (bgDrainRx env s).rx_timeout_handled = s.rx_timeout_handled := by
  unfold bgDrainRx
  split_ifs <;> simp

@[simp] lemma bgDrainTx_tx_flag (env : ListenerEnv) (s : RadioState) :
    (bgDrainTx env s).tx_timeout_handled = s.tx_timeout_handled := by
  unfold bgDrainTx
  split_ifs <;> simp

@[simp] lemma bgDrainRx_timerRx (env : ListenerEnv) (s : RadioState) :
    (bgDrainRx env s).timerRxTimeout = false := by
  unfold bgDrainRx
  split_ifs <;> simp_all

@[simp] lemma bgDrainRx_timerTx (env : ListenerEnv) (s : RadioState) :
    (bgDrainRx env s).timerTxTimeout = s.timerTxTimeout := by
  unfold bgDrainRx
  split_ifs <;> simp

@[simp] lemma bgDrainTx_timerTx (env : ListenerEnv) (s : RadioState) :
    (bgDrainTx env s).timerTxTimeout = false := by
  unfold bgDrainTx
  split_ifs <;> simp_all

@[simp] lemma bgDrainTx_timerRx (env : ListenerEnv) (s : RadioState) :
    (bgDrainTx env s).timerRxTimeout = s.timerRxTimeout := by
  unfold bgDrainTx
  split_ifs <;> simp

@[simp] lemma bgDrainRx_opModeP (env : ListenerEnv) (s : RadioState) :
    (bgDrainRx env s).opMode = s.opMode := by
  unfold bgDrainRx
  split_ifs <;> simp

@[simp] lemma bgDrainTx_opModeP (env : ListenerEnv) (s : RadioState) :
    (bgDrainTx env s).opMode = s.opMode := by
  unfold bgDrainTx
  split_ifs <;> simp

lemma bgTxDone_opMode_fired (env : ListenerEnv) (irqRegs : Nat) (s : RadioState)
    (hf : hasFlag irqRegs IRQ_TX_DONE = true) :
    (bgTxDone env irqRegs s).opMode = OpMode.stdbyRC := by
  simp [bgTxDone, hf]

lemma bgRxDone_opMode_stdby (env : ListenerEnv) (irqRegs : Nat) (s : RadioState)
    (h : s.opMode = OpMode.stdbyRC) :
    (bgRxDone env irqRegs s).opMode = OpMode.stdbyRC := by
  unfold bgRxDone
  split_ifs <;> simp [h]

lemma bgCadDone_opMode_stdby (env : ListenerEnv) (irqRegs : Nat) (s : RadioState)
    (h : s.opMode = OpMode.stdbyRC) :
    (bgCadDone env irqRegs s).opMode = OpMode.stdbyRC := by
  unfold bgCadDone
  split_ifs <;> simp [h]

lemma bgIrqTimeout_eq_of_stdby (env : ListenerEnv) (irqRegs : Nat) (s : RadioState)
    (h : s.opMode = OpMode.stdbyRC) : bgIrqTimeout env irqRegs s = s := by
  unfold bgIrqTimeout
  split_ifs with h1 h2 h3 <;> simp_all

lemma bgDrainTx_count_le (env : ListenerEnv) (s : RadioState) (d : Dest) (p : EKind → Bool) :
    countKind (bgDrainTx env s).emits d p ≤ countKind s.emits d p + 1 := by
  by_cases h1 : s.timerTxTimeout = true
  · by_cases h2 : s.tx_timeout_handled = false
    · cases d <;>
        simp [bgDrainTx, h1, h2, countKind, List.filter_append, apply_ite (List.filter _)] <;>
        split_ifs <;>
        simp [length_filter_one_le]
    · simp [bgDrainTx, h1, h2, countKind]
  · simp [bgDrainTx, h1, countKind]

lemma bgDrainRx_count_le (env : ListenerEnv) (s : RadioState) (d : Dest) (p : EKind → Bool) :
    countKind (bgDrainRx env s).emits d p ≤ countKind s.emits d p + 1 := by
  by_cases h1 : s.timerRxTimeout = true
  · by_cases h2 : s.rx_timeout_handled = false
    · cases d <;>
        simp [bgDrainRx, h1, h2, countKind, List.filter_append, apply_ite (List.filter _)] <;>
        split_ifs <;>
        simp [length_filter_one_le]
    · simp [bgDrainRx, h1, h2, countKind]
  · simp [bgDrainRx, h1, countKind]

lemma bgDrainTx_emits_of_flag (env : ListenerEnv) (s : RadioState)
    (hh : s.tx_timeout_handled = true) : (bgDrainTx env s).emits = s.emits := by
  unfold bgDrainTx
  split_ifs <;> simp_all

lemma bgDrainRx_emits_of_flag (env : ListenerEnv) (s : RadioState)
    (hh : s.rx_timeout_handled = true) : (bgDrainRx env s).emits = s.emits := by
  unfold bgDrainRx
  split_ifs <;> simp_all

lemma bgIrqTimeout_emits_txIrq (env : ListenerEnv) (irqRegs : Nat) (s : RadioState)
    (hf : hasFlag irqRegs IRQ_RX_TX_TIMEOUT = true) (hm : s.opMode = OpMode.tx)
    (hr : env.loraEvents.registered = true) (hx : env.loraEvents.txTimeout = true) :
    (⟨Dest.loraSet, EKind.txTimeout (some Cause.irqType), some s.publicCurrent,
      OpMode.stdbyRC⟩ : Emit) ∈ (bgIrqTimeout env irqRegs s).emits := by
  simp [bgIrqTimeout, hf, hm, hr, hx, mem_ite_nil]

lemma bgIrqTimeout_emits_rxIrq (env : ListenerEnv) (irqRegs : Nat) (s : RadioState)
    (hf : hasFlag irqRegs IRQ_RX_TX_TIMEOUT = true) (hm : s.opMode = OpMode.rx)
    (hr : env.loraEvents.registered = true) (hx : env.loraEvents.rxTimeout = true) :
    (⟨Dest.loraSet, EKind.rxTimeout (some Cause.irqType), some s.publicCurrent,
      OpMode.stdbyRC⟩ : Emit) ∈ (bgIrqTimeout env irqRegs s).emits := by
  simp [bgIrqTimeout, hf, hm, hr, hx, mem_ite_nil]

lemma bgDrainTx_emits_fire (env : ListenerEnv) (s : RadioState)
    (ht : s.timerTxTimeout = true) (hh : s.tx_timeout_handled = false)
    (hr : env.loraEvents.registered = true) (hx : env.loraEvents.txTimeout = true) :
    (⟨Dest.loraSet, EKind.txTimeout (some Cause.timerType), some s.publicCurrent,
      s.opMode⟩ : Emit) ∈ (bgDrainTx env s).emits := by
  simp [bgDrainTx, ht, hh, hr, hx, mem_ite_nil]

lemma bgDrainRx_emits_fire (env : ListenerEnv) (s : RadioState)
    (ht : s.timerRxTimeout = true) (hh : s.rx_timeout_handled = false)
    (hr : env.loraEvents.registered = true) (hx : env.loraEvents.rxTimeout = true) :
    (⟨Dest.loraSet, EKind.rxTimeout (some Cause.timerType), some s.publicCurrent,
      s.opMode⟩ : Emit) ∈ (bgDrainRx env s).emits := by
  simp [bgDrainRx, ht, hh, hr, hx, mem_ite_nil]

lemma bgIrqSection_tx_flag_of_txdone (env : ListenerEnv) (irqRegs : Nat) (s1 : RadioState)
    (hf : hasFlag irqRegs IRQ_TX_DONE = true) :
    (bgIrqSection env irqRegs s1).tx_timeout_handled = true := by
  simp [bgIrqSection, hf]

lemma bgIrqSection_rx_flag_of_rxdone (env : ListenerEnv) (irqRegs : Nat) (s1 : RadioState)
    (hf : hasFlag irqRegs IRQ_RX_DONE = true) :
    (bgIrqSection env irqRegs s1).rx_timeout_handled = true := by
  simp [bgIrqSection, hf]

lemma bgIrqSection_countKind (env : ListenerEnv) (irqRegs : Nat) (s1 : RadioState) (d : Dest)
    (p : EKind → Bool) (hTxD : p EKind.txDone = false) (hRxD : p EKind.rxDone = false)
    (hRxE : p EKind.rxError = false) (hCad : ∀ b, p (EKind.cadDone b) = false)
    (hPre : p EKind.preambleDetected = false) (hTTn : p (EKind.txTimeout none) = false)
    (hTTi : p (EKind.txTimeout (some Cause.irqType)) = false)
    (hRTn : p (EKind.rxTimeout none) = false)
    (hRTi : p (EKind.rxTimeout (some Cause.irqType)) = false) :
    countKind (bgIrqSection env irqRegs s1).emits d p = countKind s1.emits d p := by
  unfold bgIrqSection
  rw [bgHeaderError_countKind _ _ _ _ _ hRxE, bgPreambleDetected_countKind _ _ _ _ _ hPre,
    bgIrqTimeout_countKind _ _ _ _ _ hTTn hTTi hRTn hRTi,
    bgCadDone_countKind _ _ _ _ _ hCad, bgRxDone_countKind _ _ _ _ _ hRxD hRxE,
    bgTxDone_countKind _ _ _ _ _ hTxD]

lemma bgIrqSection_count_tx_of_txdone (env : ListenerEnv) (irqRegs : Nat) (s1 : RadioState)
    (d : Dest) (hf : hasFlag irqRegs IRQ_TX_DONE = true) :
    countKind (bgIrqSection env irqRegs s1).emits d isTxTimeoutKind =
      countKind s1.emits d isTxTimeoutKind := by
  unfold bgIrqSection
  rw [bgHeaderError_countKind _ _ _ _ _ rfl, bgPreambleDetected_countKind _ _ _ _ _ rfl]
  rw [bgIrqTimeout_count_tx_notfired]
  · rw [bgCadDone_countKind _ _ _ _ _ (fun b => rfl), bgRxDone_countKind _ _ _ _ _ rfl rfl,
      bgTxDone_countKind _ _ _ _ _ rfl]
  · rintro ⟨-, hop⟩
    rw [bgCadDone_opMode_stdby _ _ _ (bgRxDone_opMode_stdby _ _ _
      (bgTxDone_opMode_fired _ _ _ hf))] at hop
    exact absurd hop (by simp)

lemma bgIrqSection_tx_le (env : ListenerEnv) (irqRegs : Nat) (s1 : RadioState) (d : Dest) :
    countKind (bgIrqSection env irqRegs s1).emits d isTxTimeoutKind ≤
      countKind s1.emits d isTxTimeoutKind + 1 := by
  unfold bgIrqSection
  rw [bgHeaderError_countKind _ _ _ _ _ rfl, bgPreambleDetected_countKind _ _ _ _ _ rfl]
  calc countKind (bgIrqTimeout env irqRegs (bgCadDone env irqRegs (bgRxDone env irqRegs
        (bgTxDone env irqRegs s1)))).emits d isTxTimeoutKind
      ≤ countKind (bgCadDone env irqRegs (bgRxDone env irqRegs
        (bgTxDone env irqRegs s1))).emits d isTxTimeoutKind + 1 :=
        bgIrqTimeout_count_le _ _ _ _ _
    _ = countKind s1.emits d isTxTimeoutKind + 1 := by
        rw [bgCadDone_countKind _ _ _ _ _ (fun b => rfl),
          bgRxDone_countKind _ _ _ _ _ rfl rfl, bgTxDone_countKind _ _ _ _ _ rfl]

lemma bgIrqSection_rx_le (env : ListenerEnv) (irqRegs : Nat) (s1 : RadioState) (d : Dest) :
    countKind (bgIrqSection env irqRegs s1).emits d isRxTimeoutKind ≤
      countKind s1.emits d isRxTimeoutKind + 1 := by
  unfold bgIrqSection
  rw [bgHeaderError_countKind _ _ _ _ _ rfl, bgPreambleDetected_countKind _ _ _ _ _ rfl]
  calc countKind (bgIrqTimeout env irqRegs (bgCadDone env irqRegs (bgRxDone env irqRegs
        (bgTxDone env irqRegs s1)))).emits d isRxTimeoutKind
      ≤ countKind (bgCadDone env irqRegs (bgRxDone env irqRegs
        (bgTxDone env irqRegs s1))).emits d isRxTimeoutKind + 1 :=
        bgIrqTimeout_count_le _ _ _ _ _
    _ = countKind s1.emits d isRxTimeoutKind + 1 := by
        rw [bgCadDone_countKind _ _ _ _ _ (fun b => rfl),
          bgRxDone_countKind _ _ _ _ _ rfl rfl, bgTxDone_countKind _ _ _ _ _ rfl]

lemma bgIrqSection_tx_zero_of_flag (env : ListenerEnv) (irqRegs : Nat) (s1 : RadioState)
    (d : Dest) (h : (bgIrqSection env irqRegs s1).tx_timeout_handled = false)
    (h0 : countKind s1.emits d isTxTimeoutKind = 0) :
    countKind (bgIrqSection env irqRegs s1).emits d isTxTimeoutKind = 0 := by
  simp [bgIrqSection] at h
  unfold bgIrqSection
  rw [bgHeaderError_countKind _ _ _ _ _ rfl, bgPreambleDetected_countKind _ _ _ _ _ rfl]
  rw [bgIrqTimeout_count_tx_notfired]
  · rw [bgCadDone_countKind _ _ _ _ _ (fun b => rfl), bgRxDone_countKind _ _ _ _ _ rfl rfl,
      bgTxDone_countKind _ _ _ _ _ rfl]
    exact h0
  · rintro ⟨h1, h2⟩
    simp_all

lemma bgIrqSection_rx_zero_of_flag (env : ListenerEnv) (irqRegs : Nat) (s1 : RadioState)
    (d : Dest) (h : (bgIrqSection env irqRegs s1).rx_timeout_handled = false)
    (h0 : countKind s1.emits d isRxTimeoutKind = 0) :
    countKind (bgIrqSection env irqRegs s1).emits d isRxTimeoutKind = 0 := by
  simp [bgIrqSection] at h
  unfold bgIrqSection
  rw [bgHeaderError_countKind _ _ _ _ _ rfl, bgPreambleDetected_countKind _ _ _ _ _ rfl]
  rw [bgIrqTimeout_count_rx_notfired]
  · rw [bgCadDone_countKind _ _ _ _ _ (fun b => rfl), bgRxDone_countKind _ _ _ _ _ rfl rfl,
      bgTxDone_countKind _ _ _ _ _ rfl]
    exact h0
  · rintro ⟨h1, h2⟩
    simp_all

lemma bgProcess_timer_flags (env : ListenerEnv) (irqRegs : Nat) (s : RadioState) :
    (RadioBgIrqProcess env irqRegs s).timerRxTimeout = false ∧
    (RadioBgIrqProcess env irqRegs s).timerTxTimeout = false := by
  unfold RadioBgIrqProcess
  constructor <;> simp

lemma bgProcess_count_tx_le (env : ListenerEnv) (irqRegs : Nat) (s : RadioState)
    (hemits : s.emits = []) (d : Dest) :
    countKind (RadioBgIrqProcess env irqRegs s).emits d isTxTimeoutKind ≤ 1 := by
  unfold RadioBgIrqProcess
  by_cases hIF : s.irqFired = true
  · rw [if_pos hIF]
    have hbase : countKind (pushOp
        { s with
            irqFired := false
            rx_timeout_handled := false
            tx_timeout_handled := false } ChipOp.clearIrqStatus).emits d isTxTimeoutKind = 0 := by
      simp [hemits, countKind]
    by_cases hH : (bgIrqSection env irqRegs (pushOp
        { s with
            irqFired := false
            rx_timeout_handled := false
            tx_timeout_handled := false } ChipOp.clearIrqStatus)).tx_timeout_handled = true
    · rw [bgDrainTx_emits_of_flag _ _ (by simp [hH])]
      rw [bgDrainRx_countKind _ _ _ _ (fun c => rfl)]
      have hle := bgIrqSection_tx_le env irqRegs (pushOp
        { s with
            irqFired := false
            rx_timeout_handled := false
            tx_timeout_handled := false } ChipOp.clearIrqStatus) d
      rw [hbase] at hle
      exact hle
    · have hz := bgIrqSection_tx_zero_of_flag env irqRegs _ d
        (Bool.not_eq_true _ ▸ hH : _ = false) hbase
      calc countKind (bgDrainTx env (bgDrainRx env (bgIrqSection env irqRegs (pushOp
            { s with
                irqFired := false
                rx_timeout_handled := false
                tx_timeout_handled := false } ChipOp.clearIrqStatus)))).emits d isTxTimeoutKind
          ≤ countKind (bgDrainRx env (bgIrqSection env irqRegs (pushOp
            { s with
                irqFired := false
                rx_timeout_handled := false
                tx_timeout_handled := false } ChipOp.clearIrqStatus))).emits d
              isTxTimeoutKind + 1 := bgDrainTx_count_le _ _ _ _
        _ = countKind (bgIrqSection env irqRegs (pushOp
            { s with
                irqFired := false
                rx_timeout_handled := false
                tx_timeout_handled := false } ChipOp.clearIrqStatus)).emits d
              isTxTimeoutKind + 1 := by rw [bgDrainRx_countKind _ _ _ _ (fun c => rfl)]
        _ ≤ 1 := by rw [hz]
  · rw [if_neg hIF]
    calc countKind (bgDrainTx env (bgDrainRx env
          { s with rx_timeout_handled := false, tx_timeout_handled := false })).emits d
            isTxTimeoutKind
        ≤ countKind (bgDrainRx env
          { s with rx_timeout_handled := false, tx_timeout_handled := false }).emits d
            isTxTimeoutKind + 1 := bgDrainTx_count_le _ _ _ _
      _ = countKind ({ s with rx_timeout_handled := false, tx_timeout_handled := false } : RadioState).emits d isTxTimeoutKind + 1 := by
          rw [bgDrainRx_countKind _ _ _ _ (fun c => rfl)]
      _ ≤ 1 := by simp [hemits, countKind]

lemma bgProcess_count_rx_le (env : ListenerEnv) (irqRegs : Nat) (s : RadioState)
    (hemits : s.emits = []) (d : Dest) :
    countKind (RadioBgIrqProcess env irqRegs s).emits d isRxTimeoutKind ≤ 1 := by
  unfold RadioBgIrqProcess
  by_cases hIF : s.irqFired = true
  · rw [if_pos hIF]
    have hbase : countKind (pushOp
        { s with
            irqFired := false
            rx_timeout_handled := false
            tx_timeout_handled := false } ChipOp.clearIrqStatus).emits d isRxTimeoutKind = 0 := by
      simp [hemits, countKind]
    by_cases hH : (bgIrqSection env irqRegs (pushOp
        { s with
            irqFired := false
            rx_timeout_handled := false
            tx_timeout_handled := false } ChipOp.clearIrqStatus)).rx_timeout_handled = true
    · rw [bgDrainTx_countKind _ _ _ _ (fun c => rfl)]
      rw [bgDrainRx_emits_of_flag _ _ hH]
      have hle := bgIrqSection_rx_le env irqRegs (pushOp
        { s with
            irqFired := false
            rx_timeout_handled := false
            tx_timeout_handled := false } ChipOp.clearIrqStatus) d
      rw [hbase] at hle
      exact hle
    · have hz := bgIrqSection_rx_zero_of_flag env irqRegs _ d
        (Bool.not_eq_true _ ▸ hH : _ = false) hbase
      rw [bgDrainTx_countKind _ _ _ _ (fun c => rfl)]
      calc countKind (bgDrainRx env (bgIrqSection env irqRegs (pushOp
            { s with
                irqFired := false
                rx_timeout_handled := false
                tx_timeout_handled := false } ChipOp.clearIrqStatus))).emits d isRxTimeoutKind
          ≤ countKind (bgIrqSection env irqRegs (pushOp
            { s with
                irqFired := false
                rx_timeout_handled := false
                tx_timeout_handled := false } ChipOp.clearIrqStatus)).emits d
              isRxTimeoutKind + 1 := bgDrainRx_count_le _ _ _ _
        _ ≤ 1 := by rw [hz]
  · rw [if_neg hIF]
    rw [bgDrainTx_countKind _ _ _ _ (fun c => rfl)]
    calc countKind (bgDrainRx env
          { s with rx_timeout_handled := false, tx_timeout_handled := false }).emits d
            isRxTimeoutKind
        ≤ countKind ({ s with rx_timeout_handled := false, tx_timeout_handled := false } : RadioState).emits d isRxTimeoutKind + 1 := bgDrainRx_count_le _ _ _ _
      _ ≤ 1 := by simp [hemits, countKind]

lemma bgProcess_txdone_suppress (env : ListenerEnv) (irqRegs : Nat) (s : RadioState)
    (hemits : s.emits = []) (hIF : s.irqFired = true)
    (hf : hasFlag irqRegs IRQ_TX_DONE = true) (d : Dest) :
    countKind (RadioBgIrqProcess env irqRegs s).emits d isTxTimeoutKind = 0 := by
  unfold RadioBgIrqProcess
  rw [if_pos hIF]
  rw [bgDrainTx_emits_of_flag _ _ (by simp [bgIrqSection_tx_flag_of_txdone _ _ _ hf])]
  rw [bgDrainRx_countKind _ _ _ _ (fun c => rfl)]
  rw [bgIrqSection_count_tx_of_txdone _ _ _ _ hf]
  simp [hemits, countKind]

lemma bgProcess_rxdone_suppress (env : ListenerEnv) (irqRegs : Nat) (s : RadioState)
    (hemits : s.emits = []) (hIF : s.irqFired = true)
    (hf : hasFlag irqRegs IRQ_RX_DONE = true) (d : Dest) :
    countKind (RadioBgIrqProcess env irqRegs s).emits d isTimerRxTimeoutKind = 0 := by
  unfold RadioBgIrqProcess
  rw [if_pos hIF]
  rw [bgDrainTx_countKind _ _ _ _ (fun c => rfl)]
  rw [bgDrainRx_emits_of_flag _ _ (bgIrqSection_rx_flag_of_rxdone _ _ _ hf)]
  rw [bgIrqSection_countKind _ _ _ _ _ rfl rfl rfl (fun b => rfl) rfl rfl rfl rfl rfl]
  simp [hemits, countKind]

lemma bgProcess_txIrq (env : ListenerEnv) (irqRegs : Nat) (s : RadioState)
    (hemits : s.emits = []) (hIF : s.irqFired = true)
    (hfT : hasFlag irqRegs IRQ_RX_TX_TIMEOUT = true) (hm : s.opMode = OpMode.tx)
    (hnTD : hasFlag irqRegs IRQ_TX_DONE = false) (hnRD : hasFlag irqRegs IRQ_RX_DONE = false)
    (hnCD : hasFlag irqRegs IRQ_CAD_DONE = false) :
    (∀ d : Dest,
      countKind (RadioBgIrqProcess env irqRegs s).emits d isTimerTxTimeoutKind = 0) ∧
    (env.loraEvents.registered = true → env.loraEvents.txTimeout = true →
      (⟨Dest.loraSet, EKind.txTimeout (some Cause.irqType), some s.publicCurrent,
        OpMode.stdbyRC⟩ : Emit) ∈ (RadioBgIrqProcess env irqRegs s).emits) := by
  have hsec : ∀ t : RadioState, bgIrqSection env irqRegs t =
      bgHeaderError env irqRegs (bgPreambleDetected env irqRegs (bgIrqTimeout env irqRegs t)) := by
    intro t
    rw [bgIrqSection, bgTxDone_skip _ _ _ hnTD, bgRxDone_skip _ _ _ hnRD,
      bgCadDone_skip _ _ _ hnCD]
  constructor
  · intro d
    unfold RadioBgIrqProcess
    rw [if_pos hIF, hsec]
    rw [bgDrainTx_emits_of_flag _ _ (by simp [hfT, hm])]
    rw [bgDrainRx_countKind _ _ _ _ (fun c => rfl)]
    rw [bgHeaderError_countKind _ _ _ _ _ rfl, bgPreambleDetected_countKind _ _ _ _ _ rfl,
      bgIrqTimeout_countKind _ _ _ _ _ rfl rfl rfl rfl]
    simp [hemits, countKind]
  · intro hr hx
    unfold RadioBgIrqProcess
    rw [if_pos hIF, hsec]
    apply bgDrainTx_emits_mono
    apply bgDrainRx_emits_mono
    apply bgHeaderError_emits_mono
    apply bgPreambleDetected_emits_mono
    have := bgIrqTimeout_emits_txIrq env irqRegs (pushOp
      { s with
          irqFired := false
          rx_timeout_handled := false
          tx_timeout_handled := false } ChipOp.clearIrqStatus) hfT (by simp [hm]) hr hx
    simpa using this

lemma bgProcess_rxIrq (env : ListenerEnv) (irqRegs : Nat) (s : RadioState)
    (hemits : s.emits = []) (hIF : s.irqFired = true)
    (hfT : hasFlag irqRegs IRQ_RX_TX_TIMEOUT = true) (hm : s.opMode = OpMode.rx)
    (hnTD : hasFlag irqRegs IRQ_TX_DONE = false) (hnRD : hasFlag irqRegs IRQ_RX_DONE = false)
    (hnCD : hasFlag irqRegs IRQ_CAD_DONE = false) :
    (∀ d : Dest,
      countKind (RadioBgIrqProcess env irqRegs s).emits d isTimerRxTimeoutKind = 0) ∧
    (env.loraEvents.registered = true → env.loraEvents.rxTimeout = true →
      (⟨Dest.loraSet, EKind.rxTimeout (some Cause.irqType), some s.publicCurrent,
        OpMode.stdbyRC⟩ : Emit) ∈ (RadioBgIrqProcess env irqRegs s).emits) := by
  have hsec : ∀ t : RadioState, bgIrqSection env irqRegs t =
      bgHeaderError env irqRegs (bgPreambleDetected env irqRegs (bgIrqTimeout env irqRegs t)) := by
    intro t
    rw [bgIrqSection, bgTxDone_skip _ _ _ hnTD, bgRxDone_skip _ _ _ hnRD,
      bgCadDone_skip _ _ _ hnCD]
  constructor
  · intro d
    unfold RadioBgIrqProcess
    rw [if_pos hIF, hsec]
    rw [bgDrainTx_countKind _ _ _ _ (fun c => rfl)]
    rw [bgDrainRx_emits_of_flag _ _ (by simp [hfT, hm])]
    rw [bgHeaderError_countKind _ _ _ _ _ rfl, bgPreambleDetected_countKind _ _ _ _ _ rfl,
      bgIrqTimeout_countKind _ _ _ _ _ rfl rfl rfl rfl]
    simp [hemits, countKind]
  · intro hr hx
    unfold RadioBgIrqProcess
    rw [if_pos hIF, hsec]
    apply bgDrainTx_emits_mono
    apply bgDrainRx_emits_mono
    apply bgHeaderError_emits_mono
    apply bgPreambleDetected_emits_mono
    have := bgIrqTimeout_emits_rxIrq env irqRegs (pushOp
      { s with
          irqFired := false
          rx_timeout_handled := false
          tx_timeout_handled := false } ChipOp.clearIrqStatus) hfT (by simp [hm]) hr hx
    simpa using this

lemma bgProcess_timer_tx_fire (env : ListenerEnv) (irqRegs : Nat) (s : RadioState)
    (hIF : s.irqFired = false) (ht : s.timerTxTimeout = true)
    (hr : env.loraEvents.registered = true) (hx : env.loraEvents.txTimeout = true) :
    (⟨Dest.loraSet, EKind.txTimeout (some Cause.timerType), some s.publicCurrent,
      s.opMode⟩ : Emit) ∈ (RadioBgIrqProcess env irqRegs s).emits := by
  unfold RadioBgIrqProcess
  rw [if_neg (by simp [hIF])]
  have := bgDrainTx_emits_fire env (bgDrainRx env
    { s with rx_timeout_handled := false, tx_timeout_handled := false })
    (by simp [ht]) (by simp) hr hx
  simpa using this

lemma bgProcess_timer_rx_fire (env : ListenerEnv) (irqRegs : Nat) (s : RadioState)
    (hIF : s.irqFired = false) (ht : s.timerRxTimeout = true)
    (hr : env.loraEvents.registered = true) (hx : env.loraEvents.rxTimeout = true) :
    (⟨Dest.loraSet, EKind.rxTimeout (some Cause.timerType), some s.publicCurrent,
      s.opMode⟩ : Emit) ∈ (RadioBgIrqProcess env irqRegs s).emits := by
  unfold RadioBgIrqProcess
  rw [if_neg (by simp [hIF])]
  apply bgDrainTx_emits_mono
  have := bgDrainRx_emits_fire env
    ({ s with rx_timeout_handled := false, tx_timeout_handled := false } : RadioState)
    (by simp [ht]) (by simp) hr hx
  simpa using this

/-- C2: timeout suppression and cause-tagging discipline of
`RadioBgIrqProcess`, starting from an empty trace. (1) Both pending
software-timer expiry flags are always consumed. (2) At most one TxTimeout
and one RxTimeout event is emitted per listener set in one pass. (3) If the
interrupt pass saw TX-done, no TxTimeout event fires at all; (4) if it saw
RX-done, no timer-cause RxTimeout fires. (5)/(6) An interrupt-sourced
TX/RX timeout (RX_TX_TIMEOUT flag with the matching operating mode) emits
the `_events` timeout with the IRQ cause tag and suppresses any timer-cause
event of the same direction. (7)/(8) An unsuppressed timer expiry emits the
`_events` timeout with the TIMER cause tag. -/
theorem c2_timeout_discipline (env : ListenerEnv) (irqRegs : Nat) (s : RadioState)
    (hemits : s.emits = []) :
    ((RadioBgIrqProcess env irqRegs s).timerRxTimeout = false ∧
     (RadioBgIrqProcess env irqRegs s).timerTxTimeout = false) ∧
    (∀ d : Dest,
      countKind (RadioBgIrqProcess env irqRegs s).emits d isTxTimeoutKind ≤ 1 ∧
      countKind (RadioBgIrqProcess env irqRegs s).emits d isRxTimeoutKind ≤ 1) ∧
    (s.irqFired = true → hasFlag irqRegs IRQ_TX_DONE = true →
      ∀ d : Dest,
        countKind (RadioBgIrqProcess env irqRegs s).emits d isTxTimeoutKind = 0) ∧
    (s.irqFired = true → hasFlag irqRegs IRQ_RX_DONE = true →
      ∀ d : Dest,
        countKind (RadioBgIrqProcess env irqRegs s).emits d isTimerRxTimeoutKind = 0) ∧
    (s.irqFired = true → hasFlag irqRegs IRQ_RX_TX_TIMEOUT = true →
      s.opMode = OpMode.tx → hasFlag irqRegs IRQ_TX_DONE = false →
      hasFlag irqRegs IRQ_RX_DONE = false → hasFlag irqRegs IRQ_CAD_DONE = false →
      (∀ d : Dest,
        countKind (RadioBgIrqProcess env irqRegs s).emits d isTimerTxTimeoutKind = 0) ∧
      (env.loraEvents.registered = true → env.loraEvents.txTimeout = true →
        (⟨Dest.loraSet, EKind.txTimeout (some Cause.irqType), some s.publicCurrent,
          OpMode.stdbyRC⟩ : Emit) ∈ (RadioBgIrqProcess env irqRegs s).emits)) ∧
    (s.irqFired = true → hasFlag irqRegs IRQ_RX_TX_TIMEOUT = true →
      s.opMode = OpMode.rx → hasFlag irqRegs IRQ_TX_DONE = false →
      hasFlag irqRegs IRQ_RX_DONE = false → hasFlag irqRegs IRQ_CAD_DONE = false →
      (∀ d : Dest,
        countKind (RadioBgIrqProcess env irqRegs s).emits d isTimerRxTimeoutKind = 0) ∧
      (env.loraEvents.registered = true → env.loraEvents.rxTimeout = true →
        (⟨Dest.loraSet, EKind.rxTimeout (some Cause.irqType), some s.publicCurrent,
          OpMode.stdbyRC⟩ : Emit) ∈ (RadioBgIrqProcess env irqRegs s).emits)) ∧
    (s.irqFired = false → s.timerTxTimeout = true →
      env.loraEvents.registered = true → env.loraEvents.txTimeout = true →
      (⟨Dest.loraSet, EKind.txTimeout (some Cause.timerType), some s.publicCurrent,
        s.opMode⟩ : Emit) ∈ (RadioBgIrqProcess env irqRegs s).emits) ∧
    (s.irqFired = false → s.timerRxTimeout = true →
      env.loraEvents.registered = true → env.loraEvents.rxTimeout = true →
      (⟨Dest.loraSet, EKind.rxTimeout (some Cause.timerType), some s.publicCurrent,
        s.opMode⟩ : Emit) ∈ (RadioBgIrqProcess env irqRegs s).emits) := by
  refine ⟨bgProcess_timer_flags env irqRegs s,
    fun d => ⟨bgProcess_count_tx_le env irqRegs s hemits d,
      bgProcess_count_rx_le env irqRegs s hemits d⟩,
    fun h1 h2 d => bgProcess_txdone_suppress env irqRegs s hemits h1 h2 d,
    fun h1 h2 d => bgProcess_rxdone_suppress env irqRegs s hemits h1 h2 d,
    fun h1 h2 h3 h4 h5 h6 => bgProcess_txIrq env irqRegs s hemits h1 h2 h3 h4 h5 h6,
    fun h1 h2 h3 h4 h5 h6 => bgProcess_rxIrq env irqRegs s hemits h1 h2 h3 h4 h5 h6,
    fun h1 h2 h3 h4 => bgProcess_timer_tx_fire env irqRegs s h1 h2 h3 h4,
    fun h1 h2 h3 h4 => bgProcess_timer_rx_fire env irqRegs s h1 h2 h3 h4⟩

/-- C2 witness: `c2_timeout_discipline` instantiated at a concrete pass with
both timer flags raised and no interrupt pending. -/
theorem c2_witness :
    c2state.emits = [] ∧
    (
    ((RadioBgIrqProcess c2env (0 : Nat) c2state).timerRxTimeout = false ∧
     (RadioBgIrqProcess c2env (0 : Nat) c2state).timerTxTimeout = false) ∧
    (∀ d : Dest,
      countKind (RadioBgIrqProcess c2env (0 : Nat) c2state).emits d isTxTimeoutKind ≤ 1 ∧
      countKind (RadioBgIrqProcess c2env (0 : Nat) c2state).emits d isRxTimeoutKind ≤ 1) ∧
    (c2state.irqFired = true → hasFlag (0 : Nat) IRQ_TX_DONE = true →
      ∀ d : Dest,
        countKind (RadioBgIrqProcess c2env (0 : Nat) c2state).emits d isTxTimeoutKind = 0) ∧
    (c2state.irqFired = true → hasFlag (0 : Nat) IRQ_RX_DONE = true →
      ∀ d : Dest,
        countKind (RadioBgIrqProcess c2env (0 : Nat) c2state).emits d isTimerRxTimeoutKind = 0) ∧
    (c2state.irqFired = true → hasFlag (0 : Nat) IRQ_RX_TX_TIMEOUT = true →
      c2state.opMode = OpMode.tx → hasFlag (0 : Nat) IRQ_TX_DONE = false →
      hasFlag (0 : Nat) IRQ_RX_DONE = false → hasFlag (0 : Nat) IRQ_CAD_DONE = false →
      (∀ d : Dest,
        countKind (RadioBgIrqProcess c2env (0 : Nat) c2state).emits d isTimerTxTimeoutKind = 0) ∧
      (c2env.loraEvents.registered = true → c2env.loraEvents.txTimeout = true →
        (⟨Dest.loraSet, EKind.txTimeout (some Cause.irqType), some c2state.publicCurrent,
          OpMode.stdbyRC⟩ : Emit) ∈ (RadioBgIrqProcess c2env (0 : Nat) c2state).emits)) ∧
    (c2state.irqFired = true → hasFlag (0 : Nat) IRQ_RX_TX_TIMEOUT = true →
      c2state.opMode = OpMode.rx → hasFlag (0 : Nat) IRQ_TX_DONE = false →
      hasFlag (0 : Nat) IRQ_RX_DONE = false → hasFlag (0 : Nat) IRQ_CAD_DONE = false →
      (∀ d : Dest,
        countKind (RadioBgIrqProcess c2env (0 : Nat) c2state).emits d isTimerRxTimeoutKind = 0) ∧
      (c2env.loraEvents.registered = true → c2env.loraEvents.rxTimeout = true →
        (⟨Dest.loraSet, EKind.rxTimeout (some Cause.irqType), some c2state.publicCurrent,
          OpMode.stdbyRC⟩ : Emit) ∈ (RadioBgIrqProcess c2env (0 : Nat) c2state).emits)) ∧
    (c2state.irqFired = false → c2state.timerTxTimeout = true →
      c2env.loraEvents.registered = true → c2env.loraEvents.txTimeout = true →
      (⟨Dest.loraSet, EKind.txTimeout (some Cause.timerType), some c2state.publicCurrent,
        c2state.opMode⟩ : Emit) ∈ (RadioBgIrqProcess c2env (0 : Nat) c2state).emits) ∧
    (c2state.irqFired = false → c2state.timerRxTimeout = true →
      c2env.loraEvents.registered = true → c2env.loraEvents.rxTimeout = true →
      (⟨Dest.loraSet, EKind.rxTimeout (some Cause.timerType), some c2state.publicCurrent,
        c2state.opMode⟩ : Emit) ∈ (RadioBgIrqProcess c2env (0 : Nat) c2state).emits)) :=
  ⟨rfl, c2_timeout_discipline c2env 0 c2state rfl⟩

lemma bgTxDone_emits_mono (env : ListenerEnv) (irqRegs : Nat) (s : RadioState) :
    ∀ e ∈ s.emits, e ∈ (bgTxDone env irqRegs s).emits := by
  intro e he
  unfold bgTxDone
  split_ifs <;> simp [he]

lemma bgRxDone_emits_mono (env : ListenerEnv) (irqRegs : Nat) (s : RadioState) :
    ∀ e ∈ s.emits, e ∈ (bgRxDone env irqRegs s).emits := by
  intro e he
  unfold bgRxDone
  split_ifs <;> simp [he]

lemma bgCadDone_emits_mono (env : ListenerEnv) (irqRegs : Nat) (s : RadioState) :
    ∀ e ∈ s.emits, e ∈ (bgCadDone env irqRegs s).emits := by
  intro e he
  unfold bgCadDone
  split_ifs <;> simp [he, emit]

lemma bgTxDone_emits_radio (env : ListenerEnv) (irqRegs : Nat) (s : RadioState)
    (hf : hasFlag irqRegs IRQ_TX_DONE = true) (hpc : s.publicCurrent = true)
    (hr : env.radioEvents.registered = true) (hx : env.radioEvents.txDone = true) :
    (⟨Dest.radioSet, EKind.txDone, none, OpMode.stdbyRC⟩ : Emit) ∈
      (bgTxDone env irqRegs s).emits := by
  simp [bgTxDone, hf, hpc, hr, hx, mem_ite_nil]

lemma bgTxDone_emits_lora (env : ListenerEnv) (irqRegs : Nat) (s : RadioState)
    (hf : hasFlag irqRegs IRQ_TX_DONE = true)
    (hr : env.loraEvents.registered = true) (hx : env.loraEvents.txDone = true) :
    (⟨Dest.loraSet, EKind.txDone, some s.publicCurrent, OpMode.stdbyRC⟩ : Emit) ∈
      (bgTxDone env irqRegs s).emits := by
  simp [bgTxDone, hf, hr, hx, mem_ite_nil]

lemma bgRxDone_emits_radio (env : ListenerEnv) (irqRegs : Nat) (s : RadioState)
    (hf : hasFlag irqRegs IRQ_RX_DONE = true) (hcrc : hasFlag irqRegs IRQ_CRC_ERROR = false)
    (hpc : s.publicCurrent = true)
    (hr : env.radioEvents.registered = true) (hx : env.radioEvents.rxDone = true) :
    ∃ m, (⟨Dest.radioSet, EKind.rxDone, none, m⟩ : Emit) ∈ (bgRxDone env irqRegs s).emits := by
  by_cases hrc : s.rxContinuous = false
  · exact ⟨OpMode.stdbyRC, by simp [bgRxDone, hf, hcrc, hpc, hr, hx, hrc, mem_ite_nil]⟩
  · exact ⟨s.opMode, by simp [bgRxDone, hf, hcrc, hpc, hr, hx, hrc, mem_ite_nil]⟩

lemma bgRxDone_emits_lora (env : ListenerEnv) (irqRegs : Nat) (s : RadioState)
    (hf : hasFlag irqRegs IRQ_RX_DONE = true) (hcrc : hasFlag irqRegs IRQ_CRC_ERROR = false)
    (hr : env.loraEvents.registered = true) (hx : env.loraEvents.rxDone = true) :
    ∃ m, (⟨Dest.loraSet, EKind.rxDone, some s.publicCurrent, m⟩ : Emit) ∈
      (bgRxDone env irqRegs s).emits := by
  by_cases hrc : s.rxContinuous = false
  · exact ⟨OpMode.stdbyRC, by simp [bgRxDone, hf, hcrc, hr, hx, hrc, mem_ite_nil]⟩
  · exact ⟨s.opMode, by simp [bgRxDone, hf, hcrc, hr, hx, hrc, mem_ite_nil]⟩

lemma bgRxDone_emits_radio_err (env : ListenerEnv) (irqRegs : Nat) (s : RadioState)
    (hf : hasFlag irqRegs IRQ_RX_DONE = true) (hcrc : hasFlag irqRegs IRQ_CRC_ERROR = true)
    (hpc : s.publicCurrent = true)
    (hr : env.radioEvents.registered = true) (hx : env.radioEvents.rxError = true) :
    ∃ m, (⟨Dest.radioSet, EKind.rxError, none, m⟩ : Emit) ∈ (bgRxDone env irqRegs s).emits := by
  by_cases hrc : s.rxContinuous = false
  · exact ⟨OpMode.stdbyRC, by simp [bgRxDone, hf, hcrc, hpc, hr, hx, hrc, mem_ite_nil]⟩
  · exact ⟨s.opMode, by simp [bgRxDone, hf, hcrc, hpc, hr, hx, hrc, mem_ite_nil]⟩

lemma bgRxDone_emits_lora_err (env : ListenerEnv) (irqRegs : Nat) (s : RadioState)
    (hf : hasFlag irqRegs IRQ_RX_DONE = true) (hcrc : hasFlag irqRegs IRQ_CRC_ERROR = true)
    (hr : env.loraEvents.registered = true) (hx : env.loraEvents.rxError = true) :
    ∃ m, (⟨Dest.loraSet, EKind.rxError, some s.publicCurrent, m⟩ : Emit) ∈
      (bgRxDone env irqRegs s).emits := by
  by_cases hrc : s.rxContinuous = false
  · exact ⟨OpMode.stdbyRC, by simp [bgRxDone, hf, hcrc, hr, hx, hrc, mem_ite_nil]⟩
  · exact ⟨s.opMode, by simp [bgRxDone, hf, hcrc, hr, hx, hrc, mem_ite_nil]⟩

lemma bgPreambleDetected_emits (env : ListenerEnv) (irqRegs : Nat) (s : RadioState)
    (hf : hasFlag irqRegs IRQ_PREAMBLE_DETECTED = true)
    (hr : env.radioEvents.registered = true) (hx : env.radioEvents.preAmpDetect = true) :
    (⟨Dest.radioSet, EKind.preambleDetected, none, s.opMode⟩ : Emit) ∈
      (bgPreambleDetected env irqRegs s).emits := by
  simp [bgPreambleDetected, hf, hr, hx, emit]

lemma bgHeaderError_emits_radio (env : ListenerEnv) (irqRegs : Nat) (s : RadioState)
    (hf : hasFlag irqRegs IRQ_HEADER_ERROR = true) (hpc : s.publicCurrent = true)
    (hr : env.radioEvents.registered = true) (hx : env.radioEvents.rxError = true) :
    ∃ m, (⟨Dest.radioSet, EKind.rxError, none, m⟩ : Emit) ∈
      (bgHeaderError env irqRegs s).emits := by
  by_cases hrc : s.rxContinuous = false
  · exact ⟨OpMode.stdbyRC, by simp [bgHeaderError, hf, hpc, hr, hx, hrc, mem_ite_nil]⟩
  · exact ⟨s.opMode, by simp [bgHeaderError, hf, hpc, hr, hx, hrc, mem_ite_nil]⟩

lemma bgHeaderError_emits_lora (env : ListenerEnv) (irqRegs : Nat) (s : RadioState)
    (hf : hasFlag irqRegs IRQ_HEADER_ERROR = true)
    (hr : env.loraEvents.registered = true) (hx : env.loraEvents.rxError = true) :
    ∃ m, (⟨Dest.loraSet, EKind.rxError, some s.publicCurrent, m⟩ : Emit) ∈
      (bgHeaderError env irqRegs s).emits := by
  by_cases hrc : s.rxContinuous = false
  · exact ⟨OpMode.stdbyRC, by simp [bgHeaderError, hf, hr, hx, hrc, mem_ite_nil]⟩
  · exact ⟨s.opMode, by simp [bgHeaderError, hf, hr, hx, hrc, mem_ite_nil]⟩

lemma bgIrqTimeout_emits_txIrq_radio (env : ListenerEnv) (irqRegs : Nat) (s : RadioState)
    (hf : hasFlag irqRegs IRQ_RX_TX_TIMEOUT = true) (hm : s.opMode = OpMode.tx)
    (hpc : s.publicCurrent = true)
    (hr : env.radioEvents.registered = true) (hx : env.radioEvents.txTimeout = true) :
    (⟨Dest.radioSet, EKind.txTimeout none, none, OpMode.stdbyRC⟩ : Emit) ∈
      (bgIrqTimeout env irqRegs s).emits := by
  simp [bgIrqTimeout, hf, hm, hpc, hr, hx, mem_ite_nil]

lemma bgIrqTimeout_emits_rxIrq_radio (env : ListenerEnv) (irqRegs : Nat) (s : RadioState)
    (hf : hasFlag irqRegs IRQ_RX_TX_TIMEOUT = true) (hm : s.opMode = OpMode.rx)
    (hpc : s.publicCurrent = true)
    (hr : env.radioEvents.registered = true) (hx : env.radioEvents.rxTimeout = true) :
    (⟨Dest.radioSet, EKind.rxTimeout none, none, OpMode.stdbyRC⟩ : Emit) ∈
      (bgIrqTimeout env irqRegs s).emits := by
  simp [bgIrqTimeout, hf, hm, hpc, hr, hx, mem_ite_nil]

lemma bgDrainTx_emits_fire_radio (env : ListenerEnv) (s : RadioState)
    (ht : s.timerTxTimeout = true) (hh : s.tx_timeout_handled = false)
    (hpc : s.publicCurrent = true)
    (hr : env.radioEvents.registered = true) (hx : env.radioEvents.txTimeout = true) :
    (⟨Dest.radioSet, EKind.txTimeout none, none, s.opMode⟩ : Emit) ∈
      (bgDrainTx env s).emits := by
  simp [bgDrainTx, ht, hh, hpc, hr, hx, mem_ite_nil]

lemma bgDrainRx_emits_fire_radio (env : ListenerEnv) (s : RadioState)
    (ht : s.timerRxTimeout = true) (hh : s.rx_timeout_handled = false)
    (hpc : s.publicCurrent = true)
    (hr : env.radioEvents.registered = true) (hx : env.radioEvents.rxTimeout = true) :
    (⟨Dest.radioSet, EKind.rxTimeout none, none, s.opMode⟩ : Emit) ∈
      (bgDrainRx env s).emits := by
  simp [bgDrainRx, ht, hh, hpc, hr, hx, mem_ite_nil]

lemma bgProcess_txdone_dispatch (env : ListenerEnv) (irqRegs : Nat) (s : RadioState)
    (hIF : s.irqFired = true) (hf : hasFlag irqRegs IRQ_TX_DONE = true) :
    (s.publicCurrent = true → env.radioEvents.registered = true →
      env.radioEvents.txDone = true →
      ∃ m, (⟨Dest.radioSet, EKind.txDone, none, m⟩ : Emit) ∈
        (RadioBgIrqProcess env irqRegs s).emits) ∧
    (env.loraEvents.registered = true → env.loraEvents.txDone = true →
      ∃ m, (⟨Dest.loraSet, EKind.txDone, some s.publicCurrent, m⟩ : Emit) ∈
        (RadioBgIrqProcess env irqRegs s).emits) := by
  unfold RadioBgIrqProcess
  rw [if_pos hIF, bgIrqSection]
  constructor
  · intro hpc hr hx
    refine ⟨OpMode.stdbyRC, ?_⟩
    apply bgDrainTx_emits_mono
    apply bgDrainRx_emits_mono
    apply bgHeaderError_emits_mono
    apply bgPreambleDetected_emits_mono
    apply bgIrqTimeout_emits_mono
    apply bgCadDone_emits_mono
    apply bgRxDone_emits_mono
    exact bgTxDone_emits_radio env irqRegs _ hf (by simp [hpc]) hr hx
  · intro hr hx
    refine ⟨OpMode.stdbyRC, ?_⟩
    apply bgDrainTx_emits_mono
    apply bgDrainRx_emits_mono
    apply bgHeaderError_emits_mono
    apply bgPreambleDetected_emits_mono
    apply bgIrqTimeout_emits_mono
    apply bgCadDone_emits_mono
    apply bgRxDone_emits_mono
    have := bgTxDone_emits_lora env irqRegs (pushOp
      { s with
          irqFired := false
          rx_timeout_handled := false
          tx_timeout_handled := false } ChipOp.clearIrqStatus) hf hr hx
    simpa using this

lemma bgProcess_rxdone_dispatch (env : ListenerEnv) (irqRegs : Nat) (s : RadioState)
    (hIF : s.irqFired = true) (hf : hasFlag irqRegs IRQ_RX_DONE = true)
    (hcrc : hasFlag irqRegs IRQ_CRC_ERROR = false) :
    (s.publicCurrent = true → env.radioEvents.registered = true →
      env.radioEvents.rxDone = true →
      ∃ m, (⟨Dest.radioSet, EKind.rxDone, none, m⟩ : Emit) ∈
        (RadioBgIrqProcess env irqRegs s).emits) ∧
    (env.loraEvents.registered = true → env.loraEvents.rxDone = true →
      ∃ m, (⟨Dest.loraSet, EKind.rxDone, some s.publicCurrent, m⟩ : Emit) ∈
        (RadioBgIrqProcess env irqRegs s).emits) := by
  unfold RadioBgIrqProcess
  rw [if_pos hIF, bgIrqSection]
  constructor
  · intro hpc hr hx
    obtain ⟨m, hm⟩ := bgRxDone_emits_radio env irqRegs (bgTxDone env irqRegs (pushOp
      { s with
          irqFired := false
          rx_timeout_handled := false
          tx_timeout_handled := false } ChipOp.clearIrqStatus)) hf hcrc (by simp [hpc]) hr hx
    refine ⟨m, ?_⟩
    apply bgDrainTx_emits_mono
    apply bgDrainRx_emits_mono
    apply bgHeaderError_emits_mono
    apply bgPreambleDetected_emits_mono
    apply bgIrqTimeout_emits_mono
    apply bgCadDone_emits_mono
    exact hm
  · intro hr hx
    obtain ⟨m, hm⟩ := bgRxDone_emits_lora env irqRegs (bgTxDone env irqRegs (pushOp
      { s with
          irqFired := false
          rx_timeout_handled := false
          tx_timeout_handled := false } ChipOp.clearIrqStatus)) hf hcrc hr hx
    refine ⟨m, ?_⟩
    apply bgDrainTx_emits_mono
    apply bgDrainRx_emits_mono
    apply bgHeaderError_emits_mono
    apply bgPreambleDetected_emits_mono
    apply bgIrqTimeout_emits_mono
    apply bgCadDone_emits_mono
    have hpceq : (bgTxDone env irqRegs (pushOp
      { s with
          irqFired := false
          rx_timeout_handled := false
          tx_timeout_handled := false } ChipOp.clearIrqStatus)).publicCurrent =
        s.publicCurrent := by simp
    rw [hpceq] at hm
    exact hm

lemma bgProcess_rxerr_dispatch (env : ListenerEnv) (irqRegs : Nat) (s : RadioState)
    (hIF : s.irqFired = true) (hf : hasFlag irqRegs IRQ_RX_DONE = true)
    (hcrc : hasFlag irqRegs IRQ_CRC_ERROR = true) :
    (s.publicCurrent = true → env.radioEvents.registered = true →
      env.radioEvents.rxError = true →
      ∃ m, (⟨Dest.radioSet, EKind.rxError, none, m⟩ : Emit) ∈
        (RadioBgIrqProcess env irqRegs s).emits) ∧
    (env.loraEvents.registered = true → env.loraEvents.rxError = true →
      ∃ m, (⟨Dest.loraSet, EKind.rxError, some s.publicCurrent, m⟩ : Emit) ∈
        (RadioBgIrqProcess env irqRegs s).emits) := by
  unfold RadioBgIrqProcess
  rw [if_pos hIF, bgIrqSection]
  constructor
  · intro hpc hr hx
    obtain ⟨m, hm⟩ := bgRxDone_emits_radio_err env irqRegs (bgTxDone env irqRegs (pushOp
      { s with
          irqFired := false
          rx_timeout_handled := false
          tx_timeout_handled := false } ChipOp.clearIrqStatus)) hf hcrc (by simp [hpc]) hr hx
    refine ⟨m, ?_⟩
    apply bgDrainTx_emits_mono
    apply bgDrainRx_emits_mono
    apply bgHeaderError_emits_mono
    apply bgPreambleDetected_emits_mono
    apply bgIrqTimeout_emits_mono
    apply bgCadDone_emits_mono
    exact hm
  · intro hr hx
    obtain ⟨m, hm⟩ := bgRxDone_emits_lora_err env irqRegs (bgTxDone env irqRegs (pushOp
      { s with
          irqFired := false
          rx_timeout_handled := false
          tx_timeout_handled := false } ChipOp.clearIrqStatus)) hf hcrc hr hx
    refine ⟨m, ?_⟩
    apply bgDrainTx_emits_mono
    apply bgDrainRx_emits_mono
    apply bgHeaderError_emits_mono
    apply bgPreambleDetected_emits_mono
    apply bgIrqTimeout_emits_mono
    apply bgCadDone_emits_mono
    have hpceq : (bgTxDone env irqRegs (pushOp
      { s with
          irqFired := false
          rx_timeout_handled := false
          tx_timeout_handled := false } ChipOp.clearIrqStatus)).publicCurrent =
        s.publicCurrent := by simp
    rw [hpceq] at hm
    exact hm

lemma bgProcess_header_dispatch (env : ListenerEnv) (irqRegs : Nat) (s : RadioState)
    (hIF : s.irqFired = true) (hf : hasFlag irqRegs IRQ_HEADER_ERROR = true) :
    (s.publicCurrent = true → env.radioEvents.registered = true →
      env.radioEvents.rxError = true →
      ∃ m, (⟨Dest.radioSet, EKind.rxError, none, m⟩ : Emit) ∈
        (RadioBgIrqProcess env irqRegs s).emits) ∧
    (env.loraEvents.registered = true → env.loraEvents.rxError = true →
      ∃ m, (⟨Dest.loraSet, EKind.rxError, some s.publicCurrent, m⟩ : Emit) ∈
        (RadioBgIrqProcess env irqRegs s).emits) := by
  unfold RadioBgIrqProcess
  rw [if_pos hIF, bgIrqSection]
  constructor
  · intro hpc hr hx
    obtain ⟨m, hm⟩ := bgHeaderError_emits_radio env irqRegs (bgPreambleDetected env irqRegs
      (bgIrqTimeout env irqRegs (bgCadDone env irqRegs (bgRxDone env irqRegs
        (bgTxDone env irqRegs (pushOp
          { s with
              irqFired := false
              rx_timeout_handled := false
              tx_timeout_handled := false } ChipOp.clearIrqStatus)))))) hf (by simp [hpc]) hr hx
    exact ⟨m, bgDrainTx_emits_mono _ _ _ (bgDrainRx_emits_mono _ _ _ hm)⟩
  · intro hr hx
    obtain ⟨m, hm⟩ := bgHeaderError_emits_lora env irqRegs (bgPreambleDetected env irqRegs
      (bgIrqTimeout env irqRegs (bgCadDone env irqRegs (bgRxDone env irqRegs
        (bgTxDone env irqRegs (pushOp
          { s with
              irqFired := false
              rx_timeout_handled := false
              tx_timeout_handled := false } ChipOp.clearIrqStatus)))))) hf hr hx
    refine ⟨m, ?_⟩
    apply bgDrainTx_emits_mono
    apply bgDrainRx_emits_mono
    have hpceq : (bgPreambleDetected env irqRegs (bgIrqTimeout env irqRegs (bgCadDone env
        irqRegs (bgRxDone env irqRegs (bgTxDone env irqRegs (pushOp
          { s with
              irqFired := false
              rx_timeout_handled := false
              tx_timeout_handled := false } ChipOp.clearIrqStatus)))))).publicCurrent =
        s.publicCurrent := by simp
    rw [hpceq] at hm
    exact hm

lemma bgProcess_preamble_dispatch (env : ListenerEnv) (irqRegs : Nat) (s : RadioState)
    (hIF : s.irqFired = true) (hf : hasFlag irqRegs IRQ_PREAMBLE_DETECTED = true)
    (hr : env.radioEvents.registered = true) (hx : env.radioEvents.preAmpDetect = true) :
    ∃ m, (⟨Dest.radioSet, EKind.preambleDetected, none, m⟩ : Emit) ∈
      (RadioBgIrqProcess env irqRegs s).emits := by
  unfold RadioBgIrqProcess
  rw [if_pos hIF, bgIrqSection]
  have hm := bgPreambleDetected_emits env irqRegs (bgIrqTimeout env irqRegs (bgCadDone env
    irqRegs (bgRxDone env irqRegs (bgTxDone env irqRegs (pushOp
      { s with
          irqFired := false
          rx_timeout_handled := false
          tx_timeout_handled := false } ChipOp.clearIrqStatus))))) hf hr hx
  exact ⟨_, bgDrainTx_emits_mono _ _ _ (bgDrainRx_emits_mono _ _ _
    (bgHeaderError_emits_mono _ _ _ _ hm))⟩

lemma bgProcess_cad_dispatch (env : ListenerEnv) (irqRegs : Nat) (s : RadioState)
    (hIF : s.irqFired = true) (hf : hasFlag irqRegs IRQ_CAD_DONE = true)
    (hr : env.radioEvents.registered = true) (hx : env.radioEvents.cadDone = true) :
    (⟨Dest.radioSet, EKind.cadDone (hasFlag irqRegs IRQ_CAD_ACTIVITY_DETECTED), none,
      OpMode.stdbyRC⟩ : Emit) ∈ (RadioBgIrqProcess env irqRegs s).emits := by
  unfold RadioBgIrqProcess
  rw [if_pos hIF, bgIrqSection]
  exact bgDrainTx_emits_mono _ _ _ (bgDrainRx_emits_mono _ _ _
    (bgHeaderError_emits_mono _ _ _ _ (bgPreambleDetected_emits_mono _ _ _ _
      (bgIrqTimeout_emits_mono _ _ _ _ (bgCadDone_emits_cad _ _ _ hf hr hx)))))

lemma bgProcess_txIrq_radio (env : ListenerEnv) (irqRegs : Nat) (s : RadioState)
    (hIF : s.irqFired = true) (hfT : hasFlag irqRegs IRQ_RX_TX_TIMEOUT = true)
    (hm : s.opMode = OpMode.tx) (hnTD : hasFlag irqRegs IRQ_TX_DONE = false)
    (hnRD : hasFlag irqRegs IRQ_RX_DONE = false) (hnCD : hasFlag irqRegs IRQ_CAD_DONE = false)
    (hpc : s.publicCurrent = true)
    (hr : env.radioEvents.registered = true) (hx : env.radioEvents.txTimeout = true) :
    (⟨Dest.radioSet, EKind.txTimeout none, none, OpMode.stdbyRC⟩ : Emit) ∈
      (RadioBgIrqProcess env irqRegs s).emits := by
  unfold RadioBgIrqProcess
  rw [if_pos hIF, bgIrqSection, bgTxDone_skip _ _ _ hnTD, bgRxDone_skip _ _ _ hnRD,
    bgCadDone_skip _ _ _ hnCD]
  apply bgDrainTx_emits_mono
  apply bgDrainRx_emits_mono
  apply bgHeaderError_emits_mono
  apply bgPreambleDetected_emits_mono
  exact bgIrqTimeout_emits_txIrq_radio env irqRegs _ hfT (by simp [hm]) (by simp [hpc]) hr hx

lemma bgProcess_rxIrq_radio (env : ListenerEnv) (irqRegs : Nat) (s : RadioState)
    (hIF : s.irqFired = true) (hfT : hasFlag irqRegs IRQ_RX_TX_TIMEOUT = true)
    (hm : s.opMode = OpMode.rx) (hnTD : hasFlag irqRegs IRQ_TX_DONE = false)
    (hnRD : hasFlag irqRegs IRQ_RX_DONE = false) (hnCD : hasFlag irqRegs IRQ_CAD_DONE = false)
    (hpc : s.publicCurrent = true)
    (hr : env.radioEvents.registered = true) (hx : env.radioEvents.rxTimeout = true) :
    (⟨Dest.radioSet, EKind.rxTimeout none, none, OpMode.stdbyRC⟩ : Emit) ∈
      (RadioBgIrqProcess env irqRegs s).emits := by
  unfold RadioBgIrqProcess
  rw [if_pos hIF, bgIrqSection, bgTxDone_skip _ _ _ hnTD, bgRxDone_skip _ _ _ hnRD,
    bgCadDone_skip _ _ _ hnCD]
  apply bgDrainTx_emits_mono
  apply bgDrainRx_emits_mono
  apply bgHeaderError_emits_mono
  apply bgPreambleDetected_emits_mono
  exact bgIrqTimeout_emits_rxIrq_radio env irqRegs _ hfT (by simp [hm]) (by simp [hpc]) hr hx

lemma bgProcess_timer_tx_fire_radio (env : ListenerEnv) (irqRegs : Nat) (s : RadioState)
    (hIF : s.irqFired = false) (ht : s.timerTxTimeout = true) (hpc : s.publicCurrent = true)
    (hr : env.radioEvents.registered = true) (hx : env.radioEvents.txTimeout = true) :
    (⟨Dest.radioSet, EKind.txTimeout none, none, s.opMode⟩ : Emit) ∈
      (RadioBgIrqProcess env irqRegs s).emits := by
  unfold RadioBgIrqProcess
  rw [if_neg (by simp [hIF])]
  have := bgDrainTx_emits_fire_radio env (bgDrainRx env
    { s with rx_timeout_handled := false, tx_timeout_handled := false })
    (by simp [ht]) (by simp) (by simp [hpc]) hr hx
  simpa using this

lemma bgProcess_timer_rx_fire_radio (env : ListenerEnv) (irqRegs : Nat) (s : RadioState)
    (hIF : s.irqFired = false) (ht : s.timerRxTimeout = true) (hpc : s.publicCurrent = true)
    (hr : env.radioEvents.registered = true) (hx : env.radioEvents.rxTimeout = true) :
    (⟨Dest.radioSet, EKind.rxTimeout none, none, s.opMode⟩ : Emit) ∈
      (RadioBgIrqProcess env irqRegs s).emits := by
  unfold RadioBgIrqProcess
  rw [if_neg (by simp [hIF])]
  apply bgDrainTx_emits_mono
  have := bgDrainRx_emits_fire_radio env
    ({ s with rx_timeout_handled := false, tx_timeout_handled := false } : RadioState)
    (by simp [ht]) (by simp) (by simp [hpc]) hr hx
  simpa using this

set_option maxHeartbeats 2000000 in
/-- C6 (amended): dispatch discipline of `RadioBgIrqProcess`. Starting from an
empty trace: (1) gating — every emitted event satisfies: a `RadioEvents`
(radioSet) invocation of a kind that exists on both listener sets (TxDone,
TxTimeout, RxDone, RxTimeout, RxError) implies the network-sync mode was
public, and a `_events` (loraSet) invocation always receives the current
public/private flag as an argument instead of being gated on it. (2)-(9)
dispatch completeness — every concluding branch fires into both listener sets
when applicable: the TX-done, RX-done, CRC-error, interrupt-sourced TX/RX
timeout, header-error and timer-sourced TX/RX timeout branches each invoke
the registered `RadioEvents` callback when the mode is public and the
registered `_events` callback unconditionally, with the flag as argument.
(10)/(11) the two `RadioEvents`-only callbacks, CadDone and PreAmpDetect,
are invoked whenever registered, with NO public-network gate. -/
theorem c6_amended (env : ListenerEnv) (irqRegs : Nat) (s : RadioState)
    (hemits : s.emits = []) :
    (∀ e ∈ (RadioBgIrqProcess env irqRegs s).emits,
      (e.dest = Dest.radioSet → mainKind e.kind = true → s.publicCurrent = true) ∧
      (e.dest = Dest.loraSet → e.isPublicArg = some s.publicCurrent)) ∧
    (s.irqFired = true → hasFlag irqRegs IRQ_TX_DONE = true →
      (s.publicCurrent = true → env.radioEvents.registered = true →
        env.radioEvents.txDone = true →
        ∃ m, (⟨Dest.radioSet, EKind.txDone, none, m⟩ : Emit) ∈
          (RadioBgIrqProcess env irqRegs s).emits) ∧
      (env.loraEvents.registered = true → env.loraEvents.txDone = true →
        ∃ m, (⟨Dest.loraSet, EKind.txDone, some s.publicCurrent, m⟩ : Emit) ∈
          (RadioBgIrqProcess env irqRegs s).emits)) ∧
    (s.irqFired = true → hasFlag irqRegs IRQ_RX_DONE = true →
      hasFlag irqRegs IRQ_CRC_ERROR = false →
      (s.publicCurrent = true → env.radioEvents.registered = true →
        env.radioEvents.rxDone = true →
        ∃ m, (⟨Dest.radioSet, EKind.rxDone, none, m⟩ : Emit) ∈
          (RadioBgIrqProcess env irqRegs s).emits) ∧
      (env.loraEvents.registered = true → env.loraEvents.rxDone = true →
        ∃ m, (⟨Dest.loraSet, EKind.rxDone, some s.publicCurrent, m⟩ : Emit) ∈
          (RadioBgIrqProcess env irqRegs s).emits)) ∧
    (s.irqFired = true → hasFlag irqRegs IRQ_RX_DONE = true →
      hasFlag irqRegs IRQ_CRC_ERROR = true →
      (s.publicCurrent = true → env.radioEvents.registered = true →
        env.radioEvents.rxError = true →
        ∃ m, (⟨Dest.radioSet, EKind.rxError, none, m⟩ : Emit) ∈
          (RadioBgIrqProcess env irqRegs s).emits) ∧
      (env.loraEvents.registered = true → env.loraEvents.rxError = true →
        ∃ m, (⟨Dest.loraSet, EKind.rxError, some s.publicCurrent, m⟩ : Emit) ∈
          (RadioBgIrqProcess env irqRegs s).emits)) ∧
    (s.irqFired = true → hasFlag irqRegs IRQ_RX_TX_TIMEOUT = true →
      s.opMode = OpMode.tx → hasFlag irqRegs IRQ_TX_DONE = false →
      hasFlag irqRegs IRQ_RX_DONE = false → hasFlag irqRegs IRQ_CAD_DONE = false →
      (s.publicCurrent = true → env.radioEvents.registered = true →
        env.radioEvents.txTimeout = true →
        (⟨Dest.radioSet, EKind.txTimeout none, none, OpMode.stdbyRC⟩ : Emit) ∈
          (RadioBgIrqProcess env irqRegs s).emits) ∧
      (env.loraEvents.registered = true → env.loraEvents.txTimeout = true →
        (⟨Dest.loraSet, EKind.txTimeout (some Cause.irqType), some s.publicCurrent,
          OpMode.stdbyRC⟩ : Emit) ∈ (RadioBgIrqProcess env irqRegs s).emits)) ∧
    (s.irqFired = true → hasFlag irqRegs IRQ_RX_TX_TIMEOUT = true →
      s.opMode = OpMode.rx → hasFlag irqRegs IRQ_TX_DONE = false →
      hasFlag irqRegs IRQ_RX_DONE = false → hasFlag irqRegs IRQ_CAD_DONE = false →
      (s.publicCurrent = true → env.radioEvents.registered = true →
        env.radioEvents.rxTimeout = true →
        (⟨Dest.radioSet, EKind.rxTimeout none, none, OpMode.stdbyRC⟩ : Emit) ∈
          (RadioBgIrqProcess env irqRegs s).emits) ∧
      (env.loraEvents.registered = true → env.loraEvents.rxTimeout = true →
        (⟨Dest.loraSet, EKind.rxTimeout (some Cause.irqType), some s.publicCurrent,
          OpMode.stdbyRC⟩ : Emit) ∈ (RadioBgIrqProcess env irqRegs s).emits)) ∧
    (s.irqFired = true → hasFlag irqRegs IRQ_HEADER_ERROR = true →
      (s.publicCurrent = true → env.radioEvents.registered = true →
        env.radioEvents.rxError = true →
        ∃ m, (⟨Dest.radioSet, EKind.rxError, none, m⟩ : Emit) ∈
          (RadioBgIrqProcess env irqRegs s).emits) ∧
      (env.loraEvents.registered = true → env.loraEvents.rxError = true →
        ∃ m, (⟨Dest.loraSet, EKind.rxError, some s.publicCurrent, m⟩ : Emit) ∈
          (RadioBgIrqProcess env irqRegs s).emits)) ∧
    (s.irqFired = false → s.timerTxTimeout = true →
      (s.publicCurrent = true → env.radioEvents.registered = true →
        env.radioEvents.txTimeout = true →
        (⟨Dest.radioSet, EKind.txTimeout none, none, s.opMode⟩ : Emit) ∈
          (RadioBgIrqProcess env irqRegs s).emits) ∧
      (env.loraEvents.registered = true → env.loraEvents.txTimeout = true →
        (⟨Dest.loraSet, EKind.txTimeout (some Cause.timerType), some s.publicCurrent,
          s.opMode⟩ : Emit) ∈ (RadioBgIrqProcess env irqRegs s).emits)) ∧
    (s.irqFired = false → s.timerRxTimeout = true →
      (s.publicCurrent = true → env.radioEvents.registered = true →
        env.radioEvents.rxTimeout = true →
        (⟨Dest.radioSet, EKind.rxTimeout none, none, s.opMode⟩ : Emit) ∈
          (RadioBgIrqProcess env irqRegs s).emits) ∧
      (env.loraEvents.registered = true → env.loraEvents.rxTimeout = true →
        (⟨Dest.loraSet, EKind.rxTimeout (some Cause.timerType), some s.publicCurrent,
          s.opMode⟩ : Emit) ∈ (RadioBgIrqProcess env irqRegs s).emits)) ∧
    (s.irqFired = true → hasFlag irqRegs IRQ_CAD_DONE = true →
      env.radioEvents.registered = true → env.radioEvents.cadDone = true →
      (⟨Dest.radioSet, EKind.cadDone (hasFlag irqRegs IRQ_CAD_ACTIVITY_DETECTED), none,
        OpMode.stdbyRC⟩ : Emit) ∈ (RadioBgIrqProcess env irqRegs s).emits) ∧
    (s.irqFired = true → hasFlag irqRegs IRQ_PREAMBLE_DETECTED = true →
      env.radioEvents.registered = true → env.radioEvents.preAmpDetect = true →
      ∃ m, (⟨Dest.radioSet, EKind.preambleDetected, none, m⟩ : Emit) ∈
        (RadioBgIrqProcess env irqRegs s).emits) := by
  refine ⟨?_,
    fun hIF hf => bgProcess_txdone_dispatch env irqRegs s hIF hf,
    fun hIF hf hcrc => bgProcess_rxdone_dispatch env irqRegs s hIF hf hcrc,
    fun hIF hf hcrc => bgProcess_rxerr_dispatch env irqRegs s hIF hf hcrc,
    fun hIF hfT hm h1 h2 h3 =>
      ⟨fun hpc hr hx => bgProcess_txIrq_radio env irqRegs s hIF hfT hm h1 h2 h3 hpc hr hx,
       fun hr hx => (bgProcess_txIrq env irqRegs s hemits hIF hfT hm h1 h2 h3).2 hr hx⟩,
    fun hIF hfT hm h1 h2 h3 =>
      ⟨fun hpc hr hx => bgProcess_rxIrq_radio env irqRegs s hIF hfT hm h1 h2 h3 hpc hr hx,
       fun hr hx => (bgProcess_rxIrq env irqRegs s hemits hIF hfT hm h1 h2 h3).2 hr hx⟩,
    fun hIF hf => bgProcess_header_dispatch env irqRegs s hIF hf,
    fun hIF ht =>
      ⟨fun hpc hr hx => bgProcess_timer_tx_fire_radio env irqRegs s hIF ht hpc hr hx,
       fun hr hx => bgProcess_timer_tx_fire env irqRegs s hIF ht hr hx⟩,
    fun hIF ht =>
      ⟨fun hpc hr hx => bgProcess_timer_rx_fire_radio env irqRegs s hIF ht hpc hr hx,
       fun hr hx => bgProcess_timer_rx_fire env irqRegs s hIF ht hr hx⟩,
    fun hIF hf hr hx => bgProcess_cad_dispatch env irqRegs s hIF hf hr hx,
    fun hIF hf hr hx => bgProcess_preamble_dispatch env irqRegs s hIF hf hr hx⟩
  intro e he
  unfold RadioBgIrqProcess at he
  rcases bgDrainTx_mem _ _ _ he with h | h
  swap
  · exact (by simpa using h : gatedOK s.publicCurrent e)
  rcases bgDrainRx_mem _ _ _ h with h | h
  swap
  · exact (by simpa using h : gatedOK s.publicCurrent e)
  by_cases hIF : s.irqFired = true
  · rw [if_pos hIF] at h
    rcases bgIrqSection_mem _ _ _ _ h with h | h
    · simp [pushOp, hemits] at h
    · exact (by simpa using h : gatedOK s.publicCurrent e)
  · rw [if_neg hIF] at h
    simp [hemits] at h

/-- C6: counterexample. In private network mode (`publicCurrent = false`) a
pass whose interrupt status carries CAD-done and preamble-detected still
invokes both `RadioEvents->CadDone` and `RadioEvents->PreAmpDetect`: the
`IRQ_CAD_DONE` block (radio.cpp lines 1461-1470) and the
`IRQ_PREAMBLE_DETECTED` block (lines 1517-1524) have no
`RadioPublicNetwork.Current == true` gate, contradicting the claim that the
`RadioEvents` set is invoked only when the network-sync mode is public "for
every one of its events". -/
theorem c6_counterexample :
    c6state.publicCurrent = false ∧
    (⟨Dest.radioSet, .cadDone false, none, OpMode.stdbyRC⟩ : Emit) ∈
      (RadioBgIrqProcess c6env (IRQ_CAD_DONE ||| IRQ_PREAMBLE_DETECTED) c6state).emits ∧
    (⟨Dest.radioSet, .preambleDetected, none, OpMode.stdbyRC⟩ : Emit) ∈
      (RadioBgIrqProcess c6env (IRQ_CAD_DONE ||| IRQ_PREAMBLE_DETECTED) c6state).emits := by
  refine ⟨rfl, by decide, by decide⟩

/-- C6 witness: `c6_amended` instantiated at a concrete private-mode pass
carrying the CAD-done and preamble-detected flags. -/
theorem c6_witness :
    c6state.emits = [] ∧
    (
    (∀ e ∈ (RadioBgIrqProcess c6env (IRQ_CAD_DONE ||| IRQ_PREAMBLE_DETECTED) c6state).emits,
      (e.dest = Dest.radioSet → mainKind e.kind = true → c6state.publicCurrent = true) ∧
      (e.dest = Dest.loraSet → e.isPublicArg = some c6state.publicCurrent)) ∧
    (c6state.irqFired = true → hasFlag (IRQ_CAD_DONE ||| IRQ_PREAMBLE_DETECTED) IRQ_TX_DONE = true →
      (c6state.publicCurrent = true → c6env.radioEvents.registered = true →
        c6env.radioEvents.txDone = true →
        ∃ m, (⟨Dest.radioSet, EKind.txDone, none, m⟩ : Emit) ∈
          (RadioBgIrqProcess c6env (IRQ_CAD_DONE ||| IRQ_PREAMBLE_DETECTED) c6state).emits) ∧
      (c6env.loraEvents.registered = true → c6env.loraEvents.txDone = true →
        ∃ m, (⟨Dest.loraSet, EKind.txDone, some c6state.publicCurrent, m⟩ : Emit) ∈
          (RadioBgIrqProcess c6env (IRQ_CAD_DONE ||| IRQ_PREAMBLE_DETECTED) c6state).emits)) ∧
    (c6state.irqFired = true → hasFlag (IRQ_CAD_DONE ||| IRQ_PREAMBLE_DETECTED) IRQ_RX_DONE = true →
      hasFlag (IRQ_CAD_DONE ||| IRQ_PREAMBLE_DETECTED) IRQ_CRC_ERROR = false →
      (c6state.publicCurrent = true → c6env.radioEvents.registered = true →
        c6env.radioEvents.rxDone = true →
        ∃ m, (⟨Dest.radioSet, EKind.rxDone, none, m⟩ : Emit) ∈
          (RadioBgIrqProcess c6env (IRQ_CAD_DONE ||| IRQ_PREAMBLE_DETECTED) c6state).emits) ∧
      (c6env.loraEvents.registered = true → c6env.loraEvents.rxDone = true →
        ∃ m, (⟨Dest.loraSet, EKind.rxDone, some c6state.publicCurrent, m⟩ : Emit) ∈
          (RadioBgIrqProcess c6env (IRQ_CAD_DONE ||| IRQ_PREAMBLE_DETECTED) c6state).emits)) ∧
    (c6state.irqFired = true → hasFlag (IRQ_CAD_DONE ||| IRQ_PREAMBLE_DETECTED) IRQ_RX_DONE = true →
      hasFlag (IRQ_CAD_DONE ||| IRQ_PREAMBLE_DETECTED) IRQ_CRC_ERROR = true →
      (c6state.publicCurrent = true → c6env.radioEvents.registered = true →
        c6env.radioEvents.rxError = true →
        ∃ m, (⟨Dest.radioSet, EKind.rxError, none, m⟩ : Emit) ∈
          (RadioBgIrqProcess c6env (IRQ_CAD_DONE ||| IRQ_PREAMBLE_DETECTED) c6state).emits) ∧
      (c6env.loraEvents.registered = true → c6env.loraEvents.rxError = true →
        ∃ m, (⟨Dest.loraSet, EKind.rxError, some c6state.publicCurrent, m⟩ : Emit) ∈
          (RadioBgIrqProcess c6env (IRQ_CAD_DONE ||| IRQ_PREAMBLE_DETECTED) c6state).emits)) ∧
    (c6state.irqFired = true → hasFlag (IRQ_CAD_DONE ||| IRQ_PREAMBLE_DETECTED) IRQ_RX_TX_TIMEOUT = true →
      c6state.opMode = OpMode.tx → hasFlag (IRQ_CAD_DONE ||| IRQ_PREAMBLE_DETECTED) IRQ_TX_DONE = false →
      hasFlag (IRQ_CAD_DONE ||| IRQ_PREAMBLE_DETECTED) IRQ_RX_DONE = false → hasFlag (IRQ_CAD_DONE ||| IRQ_PREAMBLE_DETECTED) IRQ_CAD_DONE = false →
      (c6state.publicCurrent = true → c6env.radioEvents.registered = true →
        c6env.radioEvents.txTimeout = true →
        (⟨Dest.radioSet, EKind.txTimeout none, none, OpMode.stdbyRC⟩ : Emit) ∈
          (RadioBgIrqProcess c6env (IRQ_CAD_DONE ||| IRQ_PREAMBLE_DETECTED) c6state).emits) ∧
      (c6env.loraEvents.registered = true → c6env.loraEvents.txTimeout = true →
        (⟨Dest.loraSet, EKind.txTimeout (some Cause.irqType), some c6state.publicCurrent,
          OpMode.stdbyRC⟩ : Emit) ∈ (RadioBgIrqProcess c6env (IRQ_CAD_DONE ||| IRQ_PREAMBLE_DETECTED) c6state).emits)) ∧
    (c6state.irqFired = true → hasFlag (IRQ_CAD_DONE ||| IRQ_PREAMBLE_DETECTED) IRQ_RX_TX_TIMEOUT = true →
      c6state.opMode = OpMode.rx → hasFlag (IRQ_CAD_DONE ||| IRQ_PREAMBLE_DETECTED) IRQ_TX_DONE = false →
      hasFlag (IRQ_CAD_DONE ||| IRQ_PREAMBLE_DETECTED) IRQ_RX_DONE = false → hasFlag (IRQ_CAD_DONE ||| IRQ_PREAMBLE_DETECTED) IRQ_CAD_DONE = false →
      (c6state.publicCurrent = true → c6env.radioEvents.registered = true →
        c6env.radioEvents.rxTimeout = true →
        (⟨Dest.radioSet, EKind.rxTimeout none, none, OpMode.stdbyRC⟩ : Emit) ∈
          (RadioBgIrqProcess c6env (IRQ_CAD_DONE ||| IRQ_PREAMBLE_DETECTED) c6state).emits) ∧
      (c6env.loraEvents.registered = true → c6env.loraEvents.rxTimeout = true →
        (⟨Dest.loraSet, EKind.rxTimeout (some Cause.irqType), some c6state.publicCurrent,
          OpMode.stdbyRC⟩ : Emit) ∈ (RadioBgIrqProcess c6env (IRQ_CAD_DONE ||| IRQ_PREAMBLE_DETECTED) c6state).emits)) ∧
    (c6state.irqFired = true → hasFlag (IRQ_CAD_DONE ||| IRQ_PREAMBLE_DETECTED) IRQ_HEADER_ERROR = true →
      (c6state.publicCurrent = true → c6env.radioEvents.registered = true →
        c6env.radioEvents.rxError = true →
        ∃ m, (⟨Dest.radioSet, EKind.rxError, none, m⟩ : Emit) ∈
          (RadioBgIrqProcess c6env (IRQ_CAD_DONE ||| IRQ_PREAMBLE_DETECTED) c6state).emits) ∧
      (c6env.loraEvents.registered = true → c6env.loraEvents.rxError = true →
        ∃ m, (⟨Dest.loraSet, EKind.rxError, some c6state.publicCurrent, m⟩ : Emit) ∈
          (RadioBgIrqProcess c6env (IRQ_CAD_DONE ||| IRQ_PREAMBLE_DETECTED) c6state).emits)) ∧
    (c6state.irqFired = false → c6state.timerTxTimeout = true →
      (c6state.publicCurrent = true → c6env.radioEvents.registered = true →
        c6env.radioEvents.txTimeout = true →
        (⟨Dest.radioSet, EKind.txTimeout none, none, c6state.opMode⟩ : Emit) ∈
          (RadioBgIrqProcess c6env (IRQ_CAD_DONE ||| IRQ_PREAMBLE_DETECTED) c6state).emits) ∧
      (c6env.loraEvents.registered = true → c6env.loraEvents.txTimeout = true →
        (⟨Dest.loraSet, EKind.txTimeout (some Cause.timerType), some c6state.publicCurrent,
          c6state.opMode⟩ : Emit) ∈ (RadioBgIrqProcess c6env (IRQ_CAD_DONE ||| IRQ_PREAMBLE_DETECTED) c6state).emits)) ∧
    (c6state.irqFired = false → c6state.timerRxTimeout = true →
      (c6state.publicCurrent = true → c6env.radioEvents.registered = true →
        c6env.radioEvents.rxTimeout = true →
        (⟨Dest.radioSet, EKind.rxTimeout none, none, c6state.opMode⟩ : Emit) ∈
          (RadioBgIrqProcess c6env (IRQ_CAD_DONE ||| IRQ_PREAMBLE_DETECTED) c6state).emits) ∧
      (c6env.loraEvents.registered = true → c6env.loraEvents.rxTimeout = true →
        (⟨Dest.loraSet, EKind.rxTimeout (some Cause.timerType), some c6state.publicCurrent,
          c6state.opMode⟩ : Emit) ∈ (RadioBgIrqProcess c6env (IRQ_CAD_DONE ||| IRQ_PREAMBLE_DETECTED) c6state).emits)) ∧
    (c6state.irqFired = true → hasFlag (IRQ_CAD_DONE ||| IRQ_PREAMBLE_DETECTED) IRQ_CAD_DONE = true →
      c6env.radioEvents.registered = true → c6env.radioEvents.cadDone = true →
      (⟨Dest.radioSet, EKind.cadDone (hasFlag (IRQ_CAD_DONE ||| IRQ_PREAMBLE_DETECTED) IRQ_CAD_ACTIVITY_DETECTED), none,
        OpMode.stdbyRC⟩ : Emit) ∈ (RadioBgIrqProcess c6env (IRQ_CAD_DONE ||| IRQ_PREAMBLE_DETECTED) c6state).emits) ∧
    (c6state.irqFired = true → hasFlag (IRQ_CAD_DONE ||| IRQ_PREAMBLE_DETECTED) IRQ_PREAMBLE_DETECTED = true →
      c6env.radioEvents.registered = true → c6env.radioEvents.preAmpDetect = true →
      ∃ m, (⟨Dest.radioSet, EKind.preambleDetected, none, m⟩ : Emit) ∈
        (RadioBgIrqProcess c6env (IRQ_CAD_DONE ||| IRQ_PREAMBLE_DETECTED) c6state).emits)) :=
  ⟨rfl, c6_amended c6env (IRQ_CAD_DONE ||| IRQ_PREAMBLE_DETECTED) c6state rfl⟩

end SX126x
